import Mathlib

/-!
# rlawt: context lifecycle over a shallow embedding

The C sources `rlawt.h`, `rlawt.c`, `rlawt_nix.c` (GLX) and `rlawt_windows.c`
(WGL) are embedded as pure functions on an explicit `World`:

* the `AWTContext` record the host object's `instance` field points at,
* the JNI environment (pending exception, cached field id),
* the process-wide X error slot and X error handler of the GLX backend,
* a chronological log (`trace`) of every toolkit / native call made.

Results of native calls are inputs: every operation takes a `Native` record
holding what each native call returns during that operation.
-/

namespace Rlawt

/-! ## Data model (rlawt.h) -/

/-- The two backends whose sources are embedded: `__unix__` and `_WIN32`. -/
inductive Backend where
  | unix
  | win32
  deriving DecidableEq, Repr

/-- The fields of Xlib's `XErrorEvent` that the sources read. `display = 0`
    is the empty slot. -/
structure XErrorEvent where
  display : Nat
  minor_code : Nat
  request_code : Nat
  error_code : Nat
  deriving DecidableEq, Repr

/-- A pending Java exception: class name and message. -/
structure JThrowable where
  clazz : String
  msg : String
  deriving DecidableEq, Repr

/-- Pointee of `dsi->platformInfo` on X11. -/
structure JAWT_X11DrawingSurfaceInfo where
  drawable : Nat
  display : Nat
  visualID : Int
  deriving DecidableEq, Repr

/-- Pointee of `dsi->platformInfo` on Win32. -/
structure JAWT_Win32DrawingSurfaceInfo where
  hdc : Nat
  deriving DecidableEq, Repr

/-- The fields of `PIXELFORMATDESCRIPTOR` that `createGLContext` writes; all
    other fields stay zero (`pfd = {0}`). The `c*Bits` fields and `iPixelType`
    are `BYTE`s. -/
structure PIXELFORMATDESCRIPTOR where
  nSize : Nat
  nVersion : Nat
  dwFlags : Nat
  iPixelType : Nat
  cColorBits : Nat
  cRedBits : Nat
  cBlueBits : Nat
  cGreenBits : Nat
  cAlphaBits : Nat
  cDepthBits : Nat
  cStencilBits : Nat
  deriving DecidableEq, Repr

/-- A `GLXFBConfig` handle returned by `glXChooseFBConfig` (never NULL); the
    C variable `fbConfig`, which may be NULL, is an `Option GLXFBConfig`. -/
abbrev GLXFBConfig := Nat

/-- The process-wide X error handler: the interceptor of `rlawt_nix.c`, or any
    other handler (the toolkit's own, identified by a number). -/
inductive XErrorHandler where
  | rlawtXErrorHandler
  | other (id : Nat)
  deriving DecidableEq, Repr

/-- The record `AWTContext` of rlawt.h. Pointers and handles are numbers with
    `0` for NULL; `dspi` is a pointer to an immutable record. The `__unix__`
    and `_WIN32` fields are both present; each backend touches only its own.
    The field `awt` holds only function pointers (Lock / Unlock / ...), whose
    calls appear in the trace. -/
structure AWTContext where
  ds : Nat
  contextCreated : Bool
  dpy : Nat
  drawable : Nat
  context : Nat
  glXSwapIntervalEXT : Nat
  glxSwapControlTear : Bool
  glXSwapIntervalSGI : Nat
  doubleBuffered : Bool
  dsi : Nat
  dspi : Option JAWT_Win32DrawingSurfaceInfo
  wglSwapIntervalEXT : Nat
  wglSwapControlTear : Bool
  alphaDepth : Int
  depthDepth : Int
  stencilDepth : Int
  multisamples : Int
  deriving DecidableEq, Repr

/-- Every toolkit, Xlib, GLX, WGL, GDI and libc call the sources make, with
    the arguments that matter. -/
inductive Event where
  | awtLock
  | awtUnlock
  | GetDrawingSurface
  | FreeDrawingSurface (ds : Nat)
  | dsLock (ds : Nat)
  | dsUnlock (ds : Nat)
  | GetDrawingSurfaceInfo (ds : Nat)
  | FreeDrawingSurfaceInfo (dsi : Nat)
  | free (ptr : Nat)
  | XSetErrorHandler (h : XErrorHandler)
  | XOpenDisplay (display : Nat)
  | XCloseDisplay (dpy : Nat)
  | XSync (dpy : Nat)
  | XFree
  | glXQueryExtension (dpy : Nat)
  | glXChooseFBConfig (dpy : Nat) (attribs : List Int)
  | glXGetFBConfigAttrib (dpy : Nat) (cfg : GLXFBConfig)
  | glXQueryExtensionsString (dpy : Nat)
  | glXGetProcAddress (name : String)
  | glXCreateContextAttribsARB (dpy : Nat) (cfg : GLXFBConfig) (attribs : List Int)
  | glXCreateNewContext (dpy : Nat) (cfg : GLXFBConfig)
  | glXMakeCurrent (dpy : Nat) (drawable : Nat) (context : Nat)
  | glXDestroyContext (dpy : Nat) (context : Nat)
  | glXSwapIntervalEXT (dpy : Nat) (drawable : Nat) (interval : Int)
  | glXSwapIntervalSGI (interval : Int)
  | glXSwapBuffers (dpy : Nat) (drawable : Nat)
  | glFinish
  | ChoosePixelFormat (hdc : Nat) (pfd : PIXELFORMATDESCRIPTOR)
  | SetPixelFormat (hdc : Nat) (format : Int) (pfd : PIXELFORMATDESCRIPTOR)
  | wglMakeCurrent (hdc : Nat) (context : Nat)
  | wglCreateContext (hdc : Nat)
  | wglDeleteContext (context : Nat)
  | wglGetProcAddress (name : String)
  | wglGetExtensionsStringEXT
  | wglSwapIntervalEXT (interval : Int)
  | SwapBuffers (hdc : Nat)
  deriving DecidableEq, Repr

/-- The state the operations run on. -/
structure World where
  /-- the record at the address held by the host object -/
  ctx : AWTContext
  /-- value of the host object's `long instance` field (0 = no instance) -/
  selfInstance : Nat
  /-- the static `jfieldID AWTContext_instance` of rlawt.c (0 = not yet looked up) -/
  AWTContext_instance : Nat
  /-- the pending Java exception of the JNI environment -/
  exception : Option JThrowable
  /-- the static `lastError` of rlawt_nix.c -/
  lastError : XErrorEvent
  /-- the process-wide Xlib error handler -/
  xErrorHandler : XErrorHandler
  /-- chronological log of calls -/
  trace : List Event
  deriving DecidableEq, Repr

/-- What the native calls of ONE operation return. -/
structure Native where
  /-- `GetFieldID(clazz, "instance", "J")`, 0 on failure -/
  GetFieldID : Nat
  /-- address returned by `calloc(1, sizeof(AWTContext))` -/
  calloc : Nat
  /-- `JAWT_GetAWT(env, &ctx->awt)` -/
  JAWT_GetAWT : Bool
  /-- `awt.GetDrawingSurface(env, component)`, 0 for NULL -/
  GetDrawingSurface : Nat
  /-- `GetLastError()` as read by the Win32 `rlawtThrow` -/
  GetLastError : Int
  /-- `ds->Lock(ds)`, a bit mask -/
  dsLock : Nat
  /-- `ds->GetDrawingSurfaceInfo(ds)`, 0 for NULL -/
  dsi : Nat
  /-- `dsi->platformInfo` seen as X11 info, `none` for NULL -/
  x11Info : Option JAWT_X11DrawingSurfaceInfo
  /-- `dsi->platformInfo` seen as Win32 info, `none` for NULL -/
  win32Info : Option JAWT_Win32DrawingSurfaceInfo
  /-- `XOpenDisplay(displayName)`, 0 for NULL -/
  XOpenDisplay : Nat
  /-- `glXQueryExtension(dpy, NULL, NULL)` -/
  glXQueryExtension : Bool
  /-- `glXChooseFBConfig(dpy, screen, attribs, &nConfigs)`: `none` for NULL,
      otherwise the returned array -/
  glXChooseFBConfig : List Int → Option (List GLXFBConfig)
  /-- value of `fbVid` after `glXGetFBConfigAttrib(.., GLX_VISUAL_ID, &fbVid)`,
      `-1` when the call leaves it untouched -/
  fbVid : GLXFBConfig → Int
  /-- `strstr(extensions, "GLX_ARB_create_context") != NULL` -/
  extARBCreateContext : Bool
  /-- `strstr(extensions, "GLX_EXT_swap_control")` / `"WGL_EXT_swap_control"` -/
  extSwapControl : Bool
  /-- `strstr(extensions, "GLX_EXT_swap_control_tear")` / `"WGL_..._tear"` -/
  extSwapControlTear : Bool
  /-- `strstr(extensions, "GLX_SGI_swap_control")` -/
  extSGISwapControl : Bool
  /-- `glXGetProcAddress*` / `wglGetProcAddress` by entry point name, 0 for NULL -/
  getProcAddress : String → Nat
  /-- result of `glXCreateContextAttribsARB` for a config, 0 for NULL -/
  glXCreateContextAttribsARB : GLXFBConfig → Nat
  /-- result of `glXCreateNewContext` for a config, 0 for NULL -/
  glXCreateNewContext : GLXFBConfig → Nat
  /-- `glXMakeCurrent(dpy, drawable, ctx)` by its (drawable, ctx) arguments -/
  glXMakeCurrent : Nat → Nat → Bool
  /-- X errors reported to the installed handler while the context is created -/
  xerrCreate : List XErrorEvent
  /-- X errors reported to the installed handler during `glXMakeCurrent` -/
  xerrMakeCurrent : List XErrorEvent
  /-- X errors reported to the installed handler during `XSync` -/
  xerrSync : List XErrorEvent
  /-- X errors reported to the installed handler during `glXSwapBuffers` / `glFinish` -/
  xerrSwap : List XErrorEvent
  /-- `ChoosePixelFormat(hdc, &pfd)`, 0 on failure -/
  ChoosePixelFormat : PIXELFORMATDESCRIPTOR → Int
  /-- `SetPixelFormat(hdc, format, &pfd)` -/
  SetPixelFormat : Bool
  /-- `wglMakeCurrent(hdc, context)` by its context argument -/
  wglMakeCurrent : Nat → Bool
  /-- `wglCreateContext(hdc)`, 0 for NULL -/
  wglCreateContext : Nat
  /-- `SwapBuffers(hdc)` -/
  SwapBuffers : Bool

/-! ## Constants of the external headers (jawt.h, glx.h, wingdi.h) -/

/-- The `JAWT_LOCK_ERROR` bit of jawt.h. -/
def JAWT_LOCK_ERROR : Nat := 0x1

def GLX_RENDER_TYPE : Int := 0x8011
def GLX_RGBA_BIT : Int := 0x1
def GLX_DRAWABLE_TYPE : Int := 0x8010
def GLX_WINDOW_BIT : Int := 0x1
def GLX_X_VISUAL_TYPE : Int := 0x22
def GLX_TRUE_COLOR : Int := 0x8002
def GLX_X_RENDERABLE : Int := 0x8012
def GLX_RED_SIZE : Int := 8
def GLX_GREEN_SIZE : Int := 9
def GLX_BLUE_SIZE : Int := 10
def GLX_ALPHA_SIZE : Int := 11
def GLX_DEPTH_SIZE : Int := 12
def GLX_STENCIL_SIZE : Int := 13
def GLX_SAMPLE_BUFFERS : Int := 100000
def GLX_SAMPLES : Int := 100001
def GLX_DOUBLEBUFFER : Int := 5
def GLX_CONTEXT_MAJOR_VERSION_ARB : Int := 0x2091
def GLX_CONTEXT_MINOR_VERSION_ARB : Int := 0x2092
/-- Xlib's `None`. -/
def XNone : Nat := 0

def PFD_DOUBLEBUFFER : Nat := 0x1
def PFD_DRAW_TO_WINDOW : Nat := 0x4
def PFD_SUPPORT_OPENGL : Nat := 0x20
def PFD_TYPE_RGBA : Nat := 0
/-- The value of `sizeof(PIXELFORMATDESCRIPTOR)`. -/
def sizeofPFD : Nat := 40

/-! ## Machine integers -/

/-- A C `bool` or comparison result stored in an `int`. -/
def boolToInt (b : Bool) : Int := if b then 1 else 0

/-- Two's-complement reduction of an integer to a signed 32-bit `jint`. -/
def wrap32 (x : Int) : Int := (x + 2 ^ 31) % 2 ^ 32 - 2 ^ 31

/-- Conversion of an `int` to a `BYTE` field. -/
def toBYTE (x : Int) : Nat := (x % 256).toNat

/-! ## Logging and X error delivery -/

/-- Append a call to the log. -/
def emit (e : Event) (w : World) : World :=
  { w with trace := w.trace ++ [e] }

/-- A write to fields of the record: `ctx->field = value`. -/
def setCtx (f : AWTContext → AWTContext) (w : World) : World :=
  { w with ctx := f w.ctx }

/-- The statement `if (exception) (*env)->Throw(env, exception)` with the
    exception saved before a cleanup call. -/
def rethrow (exception : Option JThrowable) (w : World) : World :=
  if exception.isSome then { w with exception := exception } else w

/-- The static function `rlawtXErrorHandler` of rlawt_nix.c: the event is
    stored only while the slot is empty. -/
def rlawtXErrorHandler (event : XErrorEvent) (w : World) : World :=
  if w.lastError.display = 0 then { w with lastError := event } else w

/-- Xlib reports the given errors, in order, to the installed handler. A
    handler other than `rlawtXErrorHandler` is outside the sources and does
    not touch the state of the embedding. -/
def deliver (errs : List XErrorEvent) (w : World) : World :=
  match w.xErrorHandler with
  | .rlawtXErrorHandler => errs.foldl (fun acc e => rlawtXErrorHandler e acc) w
  | .other _ => w

/-- The call `XSetErrorHandler(h)`: installs `h`, returns the previous one. -/
def XSetErrorHandler (h : XErrorHandler) (w : World) : World × XErrorHandler :=
  ({ emit (.XSetErrorHandler h) w with xErrorHandler := h }, w.xErrorHandler)

/-! ## rlawtThrow (rlawt_nix.c, rlawt_windows.c) -/

/-- Name of the exception class `rlawtThrow` raises. -/
def RuntimeException : String := "java/lang/RuntimeException"

/-- The text `snprintf` appends on GLX: `" (glx: %u.%u: %u)"` with minor code,
    request code and error code. The three codes are `unsigned char`s and the
    causes are short literals, so the 256-byte buffer never truncates. -/
def glxSuffix (e : XErrorEvent) : String :=
  " (glx: " ++ toString e.minor_code ++ "." ++ toString e.request_code ++ ": "
    ++ toString e.error_code ++ ")"

/-- The text `snprintf` appends on Win32: `" (%d)"` with the last error. -/
def winSuffix (lastError : Int) : String :=
  " (" ++ toString lastError ++ ")"

/-- The function `rlawtThrow` of the given backend. -/
def rlawtThrow (b : Backend) (o : Native) (msg : String) (w : World) : World :=
  if w.exception.isSome then w
  else
    match b with
    | .unix =>
      if w.lastError.display ≠ 0 then
        { w with
          lastError := { w.lastError with display := 0 }
          exception := some ⟨RuntimeException, msg ++ glxSuffix w.lastError⟩ }
      else
        { w with exception := some ⟨RuntimeException, msg⟩ }
    | .win32 =>
      if o.GetLastError ≠ 0 then
        { w with exception := some ⟨RuntimeException, msg ++ winSuffix o.GetLastError⟩ }
      else
        { w with exception := some ⟨RuntimeException, msg⟩ }

/-! ## rlawt.c -/

/-- The function `rlawtGetContext`: returns the context pointer, 0 for NULL.
    A failed field lookup returns NULL; a zero `instance` raises
    `NullPointerException("no instance")` and returns NULL as well. -/
def rlawtGetContext (o : Native) (w : World) : World × Nat :=
  let w1 : World :=
    if w.AWTContext_instance = 0 then { w with AWTContext_instance := o.GetFieldID } else w
  if w1.AWTContext_instance = 0 then (w1, 0)
  else
    let ins := w1.selfInstance
    if ins = 0 then
      ({ w1 with exception := some ⟨"java/lang/NullPointerException", "no instance"⟩ }, ins)
    else (w1, ins)

/-- The function `rlawtContextState`. -/
def rlawtContextState (b : Backend) (o : Native) (w : World) (created : Bool) : World × Bool :=
  if w.ctx.contextCreated ≠ created then
    (rlawtThrow b o
      (if created then "context must be already created" else "context cannot be created") w,
     false)
  else (w, true)

/-- The function `rlawtUnlockAWT`: the pending exception is saved, the toolkit
    lock released, and the exception thrown again. -/
def rlawtUnlockAWT (w : World) : World :=
  let exception := w.exception
  let w1 := emit .awtUnlock w
  rethrow exception w1

/-- The guard every entry point starts with:
    `ctx = rlawtGetContext(env, self); if (!ctx || !rlawtContextState(env, ctx, created)) return`.
    Yields the state after the guard and whether the operation goes on. -/
def enter (b : Backend) (o : Native) (created : Bool) (w : World) : World × Bool :=
  let r := rlawtGetContext o w
  if r.2 = 0 then (r.1, false) else rlawtContextState b o r.1 created

/-- The record `calloc` returns: every field zero. -/
def callocAWTContext : AWTContext :=
  { ds := 0, contextCreated := false, dpy := 0, drawable := 0, context := 0,
    glXSwapIntervalEXT := 0, glxSwapControlTear := false, glXSwapIntervalSGI := 0,
    doubleBuffered := false, dsi := 0, dspi := none, wglSwapIntervalEXT := 0,
    wglSwapControlTear := false, alphaDepth := 0, depthDepth := 0, stencilDepth := 0,
    multisamples := 0 }

/-- The entry point `create0`: returns the new context pointer, 0 on failure.
    The allocated record becomes the record of the world. -/
def create0 (b : Backend) (o : Native) (w : World) : World × Int :=
  let w1 : World := setCtx (fun _ => callocAWTContext) w
  if ¬ o.JAWT_GetAWT then
    let w2 := rlawtThrow b o "cannot get the awt" w1
    (emit (.free o.calloc) w2, 0)
  else
    let w2 := emit .awtLock w1
    let w3 := emit .GetDrawingSurface w2
    let w4 : World := setCtx (fun c => { c with ds := o.GetDrawingSurface }) w3
    if w4.ctx.ds = 0 then
      let w5 := rlawtThrow b o "cannot get the ds" w4
      let w6 := emit .awtUnlock w5
      (emit (.free o.calloc) w6, 0)
    else
      (emit .awtUnlock w4, (o.calloc : Int))

/-- The entry point `configureInsets`: the offsets are stored on `__APPLE__`
    only, so on the two embedded backends nothing is written. -/
def configureInsets (b : Backend) (o : Native) (_x _y : Int) (w : World) : World × Int :=
  let r := enter b o false w
  if ¬ r.2 then (r.1, 0) else (r.1, 0)

/-- The entry point `configurePixelFormat`. -/
def configurePixelFormat (b : Backend) (o : Native) (alpha depth stencil : Int) (w : World) :
    World × Int :=
  let r := enter b o false w
  if ¬ r.2 then (r.1, 0)
  else
    (setCtx (fun c => { c with
        alphaDepth := alpha, depthDepth := depth, stencilDepth := stencil }) r.1, 0)

/-- The entry point `configureMultisamples`. -/
def configureMultisamples (b : Backend) (o : Native) (samples : Int) (w : World) : World × Int :=
  let r := enter b o false w
  if ¬ r.2 then (r.1, 0)
  else (setCtx (fun c => { c with multisamples := samples }) r.1, 0)

/-- The entry point `getGLContext`. -/
def getGLContext (b : Backend) (o : Native) (w : World) : World × Int :=
  let r := enter b o true w
  if ¬ r.2 then (r.1, 0) else (r.1, (r.1.ctx.context : Int))

/-- The entry point `getCGLShareGroup`: not `__APPLE__`, so "not supported". -/
def getCGLShareGroup (b : Backend) (o : Native) (w : World) : World × Int :=
  let r := enter b o true w
  if ¬ r.2 then (r.1, 0) else (rlawtThrow b o "not supported" r.1, 0)

/-- The entry point `getGLXDisplay`. -/
def getGLXDisplay (b : Backend) (o : Native) (w : World) : World × Int :=
  let r := enter b o true w
  if ¬ r.2 then (r.1, 0)
  else
    match b with
    | .unix => (r.1, (r.1.ctx.dpy : Int))
    | .win32 => (rlawtThrow b o "not supported" r.1, 0)

/-- The value of `ctx->dspi->hdc`. A created WGL context always has a `dspi`;
    the read through a NULL `dspi` is given the value 0. -/
def hdcOf (c : AWTContext) : Nat :=
  match c.dspi with
  | some info => info.hdc
  | none => 0

/-- The entry point `getWGLHDC`. -/
def getWGLHDC (b : Backend) (o : Native) (w : World) : World × Int :=
  let r := enter b o true w
  if ¬ r.2 then (r.1, 0)
  else
    match b with
    | .win32 => (r.1, (hdcOf r.1.ctx : Int))
    | .unix => (rlawtThrow b o "not supported" r.1, 0)

/-- The entry point `getFramebuffer` (compiled when not `__APPLE__`). -/
def getFramebuffer (b : Backend) (o : Native) (_front : Bool) (w : World) : World × Int :=
  let r := enter b o true w
  if ¬ r.2 then (r.1, 0) else (r.1, 0)

/-! ## rlawt_nix.c (GLX) -/

namespace Nix

/-- The static helper `makeCurrent` of rlawt_nix.c. -/
def makeCurrent (o : Native) (dpy drawable context : Nat) (w : World) : World × Bool :=
  let w1 := deliver o.xerrMakeCurrent (emit (.glXMakeCurrent dpy drawable context) w)
  if ¬ o.glXMakeCurrent drawable context then
    (rlawtThrow .unix o "unable to make current" w1, false)
  else (w1, true)

/-- The array `attribs` that `createGLContext` hands to `glXChooseFBConfig`,
    built from the context as in the source (the terminating `None` included). -/
def glxAttribs (c : AWTContext) : List Int :=
  [ GLX_RENDER_TYPE, GLX_RGBA_BIT,
    GLX_DRAWABLE_TYPE, GLX_WINDOW_BIT,
    GLX_X_VISUAL_TYPE, GLX_TRUE_COLOR,
    GLX_X_RENDERABLE, boolToInt true,
    GLX_RED_SIZE, 8,
    GLX_GREEN_SIZE, 8,
    GLX_BLUE_SIZE, 8,
    GLX_ALPHA_SIZE, c.alphaDepth,
    GLX_DEPTH_SIZE, c.depthDepth,
    GLX_STENCIL_SIZE, c.stencilDepth,
    GLX_SAMPLE_BUFFERS, boolToInt (decide (c.multisamples > 0)),
    GLX_SAMPLES, c.multisamples,
    GLX_DOUBLEBUFFER, boolToInt c.doubleBuffered,
    (XNone : Int) ]

/-- The inner loop `for (i = 0; i < nConfigs; i++)`: the first config whose
    visual id equals the drawable's replaces `fbConfig`; with no such config
    `fbConfig` keeps its value. Visual ids are compared as integers. -/
def scanVisual (o : Native) (visualID : Int) :
    List GLXFBConfig → World → Option GLXFBConfig → World × Option GLXFBConfig
  | [], w, fbConfig => (w, fbConfig)
  | c :: cs, w, fbConfig =>
    let w1 := emit (.glXGetFBConfigAttrib w.ctx.dpy c) w
    if o.fbVid c = visualID then (w1, some c) else scanVisual o visualID cs w1 fbConfig

/-- The outer loop `for (db = 0; db < 2; db++)` over the remaining values of
    `db`. The read `fbConfigs[0]` of an empty array is given the value NULL. -/
def fbConfigLoop (o : Native) (visualID : Int) :
    List Nat → World → Option GLXFBConfig → World × Option GLXFBConfig
  | [], w, fbConfig => (w, fbConfig)
  | db :: rest, w, fbConfig =>
    let w1 : World := setCtx (fun c => { c with doubleBuffered := decide (db = 0) }) w
    let attribs := glxAttribs w1.ctx
    let w2 := emit (.glXChooseFBConfig w1.ctx.dpy attribs) w1
    match o.glXChooseFBConfig attribs with
    | none => fbConfigLoop o visualID rest w2 fbConfig
    | some fbConfigs =>
      let r := scanVisual o visualID fbConfigs w2 fbConfig
      if r.2.isSome then (emit .XFree r.1, r.2)
      else fbConfigLoop o visualID rest (emit .XFree r.1) fbConfigs.head?

/-- Label `unlock:` of `createGLContext`. -/
def unlock (oldErrorHandler : XErrorHandler) (w : World) : World :=
  rlawtUnlockAWT (XSetErrorHandler oldErrorHandler w).1

/-- Label `unlockDS:`, falling through to `unlock:`. -/
def unlockDS (oldErrorHandler : XErrorHandler) (w : World) : World :=
  let exception := w.exception
  let w1 := emit (.dsUnlock w.ctx.ds) w
  let w2 : World := rethrow exception w1
  unlock oldErrorHandler w2

/-- Label `freeDSI:`, falling through to `unlockDS:`. -/
def freeDSI (oldErrorHandler : XErrorHandler) (dsi : Nat) (w : World) : World :=
  let exception := w.exception
  let w1 := emit (.FreeDrawingSurfaceInfo dsi) w
  let w2 : World := rethrow exception w1
  unlockDS oldErrorHandler w2

/-- The call `XSync(ctx->dpy, false)`. -/
def xSync (o : Native) (w : World) : World :=
  deliver o.xerrSync (emit (.XSync w.ctx.dpy) w)

/-- Label `freeDisplay:`, falling through to `freeDSI:`. -/
def freeDisplay (o : Native) (oldErrorHandler : XErrorHandler) (dsi : Nat) (w : World) : World :=
  let w1 := xSync o w
  let w2 := emit (.XCloseDisplay w1.ctx.dpy) w1
  freeDSI oldErrorHandler dsi w2

/-- Label `freeContext:`, falling through to `freeDisplay:`. -/
def freeContext (o : Native) (oldErrorHandler : XErrorHandler) (dsi : Nat) (w : World) : World :=
  let w1 := emit (.glXDestroyContext w.ctx.dpy w.ctx.context) w
  freeDisplay o oldErrorHandler dsi w1

/-- The probe of the swap-control extensions after a successful bind. -/
def probeSwapControl (o : Native) (w : World) : World :=
  if o.extSwapControl then
    let w1 := emit (.glXGetProcAddress "glXSwapIntervalEXT") w
    setCtx (fun c => { c with
        glXSwapIntervalEXT := o.getProcAddress "glXSwapIntervalEXT"
        glxSwapControlTear := o.extSwapControlTear }) w1
  else if o.extSGISwapControl then
    let w1 := emit (.glXGetProcAddress "glXSwapIntervalSGI") w
    setCtx (fun c => { c with glXSwapIntervalSGI := o.getProcAddress "glXSwapIntervalSGI" }) w1
  else w

/-- The part of `createGLContext` from `glXQueryExtensionsString` to the
    assignment of `ctx->context`: the context is created through
    `glXCreateContextAttribsARB` when the extension is listed and its entry
    point resolves, through `glXCreateNewContext` otherwise. -/
def createNative (o : Native) (fbConfig : GLXFBConfig) (w : World) : World :=
  let w1 := emit (.glXQueryExtensionsString w.ctx.dpy) w
  let w2 := if o.extARBCreateContext then emit (.glXGetProcAddress "glXCreateContextAttribsARB") w1
    else w1
  let glXCreateContextAttribsARB : Nat :=
    if o.extARBCreateContext then o.getProcAddress "glXCreateContextAttribsARB" else 0
  let w3 : World :=
    if glXCreateContextAttribsARB ≠ 0 then
      setCtx (fun c => { c with context := o.glXCreateContextAttribsARB fbConfig })
        (emit (.glXCreateContextAttribsARB w2.ctx.dpy fbConfig
          [GLX_CONTEXT_MAJOR_VERSION_ARB, 3, GLX_CONTEXT_MINOR_VERSION_ARB, 3, 0]) w2)
    else
      setCtx (fun c => { c with context := o.glXCreateNewContext fbConfig })
        (emit (.glXCreateNewContext w2.ctx.dpy fbConfig) w2)
  deliver o.xerrCreate w3

/-- The success exit of `createGLContext`, from `FreeDrawingSurfaceInfo` to
    `ctx->contextCreated = true`. -/
def finishCreate (o : Native) (oldErrorHandler : XErrorHandler) (dsi : Nat) (w : World) : World :=
  let w6 := emit (.FreeDrawingSurfaceInfo dsi) w
  let w7 := xSync o w6
  let w8 := (XSetErrorHandler oldErrorHandler w7).1
  let w9 := emit (.dsUnlock w8.ctx.ds) w8
  let w10 := rlawtUnlockAWT w9
  setCtx (fun c => { c with contextCreated := true }) w10

/-- The part of `createGLContext` from `glXQueryExtensionsString` on, with the
    selected `fbConfig`. -/
def createWithConfig (o : Native) (oldErrorHandler : XErrorHandler) (dsi : Nat)
    (fbConfig : GLXFBConfig) (w : World) : World :=
  let w4 := createNative o fbConfig w
  if w4.ctx.context = 0 then
    freeDisplay o oldErrorHandler dsi (rlawtThrow .unix o "unable to create glx context" w4)
  else
    let r := makeCurrent o w4.ctx.dpy w4.ctx.drawable w4.ctx.context w4
    if ¬ r.2 then freeContext o oldErrorHandler dsi r.1
    else finishCreate o oldErrorHandler dsi (probeSwapControl o r.1)

/-- The search of `createGLContext` and what follows it: the loop over
    `db`, then the failure "unable to find a fb config" or the creation with
    the selected config. -/
def searchAndCreate (o : Native) (oldErrorHandler : XErrorHandler) (dsi : Nat)
    (visualID : Int) (w : World) : World :=
  let r := fbConfigLoop o visualID [0, 1] w none
  match r.2 with
  | none =>
    freeDisplay o oldErrorHandler dsi (rlawtThrow .unix o "unable to find a fb config" r.1)
  | some fbConfig => createWithConfig o oldErrorHandler dsi fbConfig r.1

/-- The part of `createGLContext` from `ctx->drawable = dspi->drawable` on,
    with a validated platform info. -/
def createWithSurface (o : Native) (oldErrorHandler : XErrorHandler) (dsi : Nat)
    (dspi : JAWT_X11DrawingSurfaceInfo) (w : World) : World :=
  let w1 : World := setCtx (fun c => { c with drawable := dspi.drawable }) w
  let w2 := emit (.XOpenDisplay dspi.display) w1
  let w3 : World := setCtx (fun c => { c with dpy := o.XOpenDisplay }) w2
  if w3.ctx.dpy = 0 then
    freeDSI oldErrorHandler dsi (rlawtThrow .unix o "unable to open display copy" w3)
  else
    let w4 := emit (.glXQueryExtension w3.ctx.dpy) w3
    if ¬ o.glXQueryExtension then
      freeDisplay o oldErrorHandler dsi (rlawtThrow .unix o "glx is not supported" w4)
    else searchAndCreate o oldErrorHandler dsi dspi.visualID w4

/-- The entry point `createGLContext` of rlawt_nix.c. -/
def createGLContext (o : Native) (w : World) : World × Int :=
  let g := enter .unix o false w
  if ¬ g.2 then (g.1, 0)
  else
    let w1 := emit .awtLock g.1
    let h := XSetErrorHandler .rlawtXErrorHandler w1
    let oldErrorHandler := h.2
    let w2 := emit (.dsLock h.1.ctx.ds) h.1
    if o.dsLock &&& JAWT_LOCK_ERROR ≠ 0 then
      (unlock oldErrorHandler (rlawtThrow .unix o "unable to lock ds" w2), 0)
    else
      let w3 := emit (.GetDrawingSurfaceInfo w2.ctx.ds) w2
      if o.dsi = 0 then
        (unlockDS oldErrorHandler (rlawtThrow .unix o "unable to get dsi" w3), 0)
      else
        match o.x11Info with
        | none =>
          (freeDSI oldErrorHandler o.dsi (rlawtThrow .unix o "unable to get platform dsi" w3), 0)
        | some dspi =>
          if dspi.display = 0 ∨ dspi.drawable = 0 then
            (freeDSI oldErrorHandler o.dsi
              (rlawtThrow .unix o "unable to get platform dsi" w3), 0)
          else (createWithSurface o oldErrorHandler o.dsi dspi w3, 0)

/-- The function `rlawtContextFreePlatform` of rlawt_nix.c. -/
def rlawtContextFreePlatform (w : World) : World :=
  if w.ctx.contextCreated then
    let w1 := emit (.glXMakeCurrent w.ctx.dpy XNone XNone) w
    let w2 := emit (.glXDestroyContext w1.ctx.dpy w1.ctx.context) w1
    emit (.XCloseDisplay w2.ctx.dpy) w2
  else w

/-- The entry point `setSwapInterval` of rlawt_nix.c; `interval` is a `jint`
    and its negation is taken in 32 bits. -/
def setSwapInterval (o : Native) (interval : Int) (w : World) : World × Int :=
  let g := enter .unix o true w
  if ¬ g.2 then (g.1, 0)
  else
    let w1 := emit .awtLock g.1
    let interval1 : Int :=
      if interval < 0 ∧ ¬ w1.ctx.glxSwapControlTear then wrap32 (-interval) else interval
    if w1.ctx.glXSwapIntervalEXT ≠ 0 then
      (rlawtUnlockAWT (emit (.glXSwapIntervalEXT w1.ctx.dpy w1.ctx.drawable interval1) w1),
        interval1)
    else if w1.ctx.glXSwapIntervalSGI ≠ 0 then
      (rlawtUnlockAWT (emit (.glXSwapIntervalSGI interval1) w1), interval1)
    else (rlawtUnlockAWT w1, 0)

/-- The entry point `makeCurrent` of rlawt_nix.c. -/
def makeCurrentOp (o : Native) (w : World) : World × Int :=
  let g := enter .unix o true w
  if ¬ g.2 then (g.1, 0)
  else
    let w1 := emit .awtLock g.1
    let r := makeCurrent o w1.ctx.dpy w1.ctx.drawable w1.ctx.context w1
    (rlawtUnlockAWT r.1, 0)

/-- The entry point `detachCurrent` of rlawt_nix.c. -/
def detachCurrent (o : Native) (w : World) : World × Int :=
  let g := enter .unix o true w
  if ¬ g.2 then (g.1, 0)
  else
    let w1 := emit .awtLock g.1
    let r := makeCurrent o w1.ctx.dpy XNone XNone w1
    (rlawtUnlockAWT r.1, 0)

/-- The entry point `swapBuffers` of rlawt_nix.c. The old handler returned by
    `XSetErrorHandler` is stored in a local that is not used again. -/
def swapBuffers (o : Native) (w : World) : World × Int :=
  let g := enter .unix o true w
  if ¬ g.2 then (g.1, 0)
  else
    let w1 := emit .awtLock g.1
    let h := XSetErrorHandler .rlawtXErrorHandler w1
    let w2 : World :=
      if h.1.ctx.doubleBuffered then
        deliver o.xerrSwap (emit (.glXSwapBuffers h.1.ctx.dpy h.1.ctx.drawable) h.1)
      else deliver o.xerrSwap (emit .glFinish h.1)
    (rlawtUnlockAWT w2, 0)

end Nix

/-! ## rlawt_windows.c (WGL) -/

namespace Win

/-- The static helper `makeCurrent` of rlawt_windows.c. -/
def makeCurrent (o : Native) (dc context : Nat) (w : World) : World × Bool :=
  let w1 := emit (.wglMakeCurrent dc context) w
  if ¬ o.wglMakeCurrent context then
    (rlawtThrow .win32 o "unable to make current" w1, false)
  else (w1, true)

/-- The descriptor `pfd` that `createGLContext` builds from the context. -/
def wglPfd (c : AWTContext) : PIXELFORMATDESCRIPTOR :=
  { nSize := sizeofPFD
    nVersion := 1
    dwFlags := PFD_DRAW_TO_WINDOW ||| PFD_SUPPORT_OPENGL ||| PFD_DOUBLEBUFFER
    iPixelType := PFD_TYPE_RGBA
    cColorBits := 24
    cRedBits := 8
    cBlueBits := 8
    cGreenBits := 8
    cAlphaBits := toBYTE c.alphaDepth
    cDepthBits := toBYTE c.depthDepth
    cStencilBits := toBYTE c.stencilDepth }

/-- Label `unlock:` of `createGLContext`. -/
def unlock (w : World) : World :=
  let exception := w.exception
  let w1 := emit (.dsUnlock w.ctx.ds) w
  rethrow exception w1

/-- Label `freeContext:`, falling through to `unlock:`. -/
def freeContext (w : World) : World :=
  unlock (emit (.wglDeleteContext w.ctx.context) w)

/-- The probe of the swap-control extension after a successful bind. -/
def probeSwapControl (o : Native) (w : World) : World :=
  let w1 := emit (.wglGetProcAddress "wglGetExtensionsStringEXT") w
  if o.getProcAddress "wglGetExtensionsStringEXT" ≠ 0 then
    let w2 := emit .wglGetExtensionsStringEXT w1
    if o.extSwapControl then
      let w3 := emit (.wglGetProcAddress "wglSwapIntervalEXT") w2
      setCtx (fun c => { c with
          wglSwapIntervalEXT := o.getProcAddress "wglSwapIntervalEXT"
          wglSwapControlTear := o.extSwapControlTear }) w3
    else w2
  else w1

/-- The part of `createGLContext` from the construction of `pfd` on, with a
    validated device context `hdc = ctx->dspi->hdc`. -/
def createWithDC (o : Native) (hdc : Nat) (w : World) : World :=
  let pfd := wglPfd w.ctx
  let w1 := emit (.ChoosePixelFormat hdc pfd) w
  let format := o.ChoosePixelFormat pfd
  if format = 0 then unlock (rlawtThrow .win32 o "unable to choose format" w1)
  else
    let w2 := emit (.SetPixelFormat hdc format pfd) w1
    if ¬ o.SetPixelFormat then unlock (rlawtThrow .win32 o "unable to set pixel format" w2)
    else
      let r := makeCurrent o hdc 0 w2
      if ¬ r.2 then unlock r.1
      else
        let w3 := emit (.wglCreateContext hdc) r.1
        let w4 : World := setCtx (fun c => { c with context := o.wglCreateContext }) w3
        if w4.ctx.context = 0 then unlock (rlawtThrow .win32 o "unable to create context" w4)
        else
          let r2 := makeCurrent o hdc w4.ctx.context w4
          if ¬ r2.2 then freeContext r2.1
          else
            let w5 := probeSwapControl o r2.1
            let w6 := emit (.dsUnlock w5.ctx.ds) w5
            setCtx (fun c => { c with contextCreated := true }) w6

/-- The entry point `createGLContext` of rlawt_windows.c. -/
def createGLContext (o : Native) (w : World) : World × Int :=
  let g := enter .win32 o false w
  if ¬ g.2 then (g.1, 0)
  else
    let w1 := emit (.dsLock g.1.ctx.ds) g.1
    if o.dsLock &&& JAWT_LOCK_ERROR ≠ 0 then
      (rlawtThrow .win32 o "unable to lock ds" w1, 0)
    else
      let w2 := emit (.GetDrawingSurfaceInfo w1.ctx.ds) w1
      let w3 : World := setCtx (fun c => { c with dsi := o.dsi }) w2
      if w3.ctx.dsi = 0 then (unlock (rlawtThrow .win32 o "unable to get dsi" w3), 0)
      else
        let w4 : World := setCtx (fun c => { c with dspi := o.win32Info }) w3
        if w4.ctx.dspi.isNone ∨ hdcOf w4.ctx = 0 then
          let w5 := emit (.FreeDrawingSurfaceInfo w4.ctx.dsi) w4
          let w6 : World := setCtx (fun c => { c with dsi := 0 }) w5
          (unlock (rlawtThrow .win32 o "unable to get platform dsi" w6), 0)
        else (createWithDC o (hdcOf w4.ctx) w4, 0)

/-- The function `rlawtContextFreePlatform` of rlawt_windows.c. -/
def rlawtContextFreePlatform (w : World) : World :=
  let w1 := if w.ctx.context ≠ 0 then emit (.wglDeleteContext w.ctx.context) w else w
  if w1.ctx.dsi ≠ 0 then emit (.FreeDrawingSurfaceInfo w1.ctx.dsi) w1 else w1

/-- The entry point `setSwapInterval` of rlawt_windows.c; `interval` is a
    `jint` and its negation is taken in 32 bits. -/
def setSwapInterval (o : Native) (interval : Int) (w : World) : World × Int :=
  let g := enter .win32 o true w
  if ¬ g.2 then (g.1, 0)
  else
    let w1 := emit .awtLock g.1
    let interval1 : Int :=
      if interval < 0 ∧ ¬ w1.ctx.wglSwapControlTear then wrap32 (-interval) else interval
    if w1.ctx.wglSwapIntervalEXT ≠ 0 then
      (rlawtUnlockAWT (emit (.wglSwapIntervalEXT interval1) w1), interval1)
    else (rlawtUnlockAWT w1, 0)

/-- The entry point `makeCurrent` of rlawt_windows.c. -/
def makeCurrentOp (o : Native) (w : World) : World × Int :=
  let g := enter .win32 o true w
  if ¬ g.2 then (g.1, 0)
  else ((makeCurrent o (hdcOf g.1.ctx) g.1.ctx.context g.1).1, 0)

/-- The entry point `detachCurrent` of rlawt_windows.c. -/
def detachCurrent (o : Native) (w : World) : World × Int :=
  let g := enter .win32 o true w
  if ¬ g.2 then (g.1, 0)
  else ((makeCurrent o (hdcOf g.1.ctx) 0 g.1).1, 0)

/-- The entry point `swapBuffers` of rlawt_windows.c. -/
def swapBuffers (o : Native) (w : World) : World × Int :=
  let g := enter .win32 o true w
  if ¬ g.2 then (g.1, 0)
  else
    let w1 := emit (.SwapBuffers (hdcOf g.1.ctx)) g.1
    if ¬ o.SwapBuffers then (rlawtThrow .win32 o "unable to SwapBuffers" w1, 0) else (w1, 0)

end Win

/-! ## destroy (rlawt.c) and the operations as data -/

/-- The function `rlawtContextFreePlatform` the backend links in. -/
def rlawtContextFreePlatform (b : Backend) (w : World) : World :=
  match b with
  | .unix => Nix.rlawtContextFreePlatform w
  | .win32 => Win.rlawtContextFreePlatform w

/-- The entry point `destroy`: `SetLongField(self, AWTContext_instance, 0)`
    zeroes the host object's handle before anything is released. -/
def destroy (b : Backend) (o : Native) (w : World) : World × Int :=
  let r := rlawtGetContext o w
  if r.2 = 0 then (r.1, 0)
  else
    let w1 : World := { r.1 with selfInstance := 0 }
    let w2 := rlawtContextFreePlatform b w1
    let w3 := if w2.ctx.ds ≠ 0 then emit (.FreeDrawingSurface w2.ctx.ds) w2 else w2
    (emit (.free r.2) w3, 0)

/-- The entry points of the host binding, with their arguments. -/
inductive Op where
  | configureInsets (x y : Int)
  | configurePixelFormat (alpha depth stencil : Int)
  | configureMultisamples (samples : Int)
  | createGLContext
  | getGLContext
  | getCGLShareGroup
  | getGLXDisplay
  | getWGLHDC
  | getFramebuffer (front : Bool)
  | setSwapInterval (interval : Int)
  | makeCurrent
  | detachCurrent
  | swapBuffers
  | destroy
  deriving DecidableEq, Repr

/-- Run one entry point on a backend: the state afterwards and the value
    returned to the host (0 for `void`). -/
def run (b : Backend) (o : Native) : Op → World → World × Int
  | .configureInsets x y, w => configureInsets b o x y w
  | .configurePixelFormat a d s, w => configurePixelFormat b o a d s w
  | .configureMultisamples n, w => configureMultisamples b o n w
  | .createGLContext, w =>
    match b with
    | .unix => Nix.createGLContext o w
    | .win32 => Win.createGLContext o w
  | .getGLContext, w => getGLContext b o w
  | .getCGLShareGroup, w => getCGLShareGroup b o w
  | .getGLXDisplay, w => getGLXDisplay b o w
  | .getWGLHDC, w => getWGLHDC b o w
  | .getFramebuffer f, w => getFramebuffer b o f w
  | .setSwapInterval i, w =>
    match b with
    | .unix => Nix.setSwapInterval o i w
    | .win32 => Win.setSwapInterval o i w
  | .makeCurrent, w =>
    match b with
    | .unix => Nix.makeCurrentOp o w
    | .win32 => Win.makeCurrentOp o w
  | .detachCurrent, w =>
    match b with
    | .unix => Nix.detachCurrent o w
    | .win32 => Win.detachCurrent o w
  | .swapBuffers, w =>
    match b with
    | .unix => Nix.swapBuffers o w
    | .win32 => Win.swapBuffers o w
  | .destroy, w => destroy b o w

/-- A native method is entered with no exception pending: the exception a
    previous call raised has been delivered to the host. -/
def hostReturn (w : World) : World := { w with exception := none }

/-- Run a sequence of entry points, each with its own native results. -/
def runSeq (b : Backend) : List (Op × Native) → World → World
  | [], w => w
  | (op, o) :: rest, w => runSeq b rest (run b o op (hostReturn w)).1

/-! ## Vocabulary of the statements -/

/-- The operations that require a created context. -/
def createdOnly : Op → Bool
  | .getGLContext => true
  | .getCGLShareGroup => true
  | .getGLXDisplay => true
  | .getWGLHDC => true
  | .getFramebuffer _ => true
  | .setSwapInterval _ => true
  | .makeCurrent => true
  | .detachCurrent => true
  | .swapBuffers => true
  | _ => false

/-- The operations that require a context that is not yet created. -/
def preCreationOnly : Op → Bool
  | .configureInsets _ _ => true
  | .configurePixelFormat _ _ _ => true
  | .configureMultisamples _ => true
  | .createGLContext => true
  | _ => false

/-- The native error text `rlawtThrow` appends to a cause when it raises in
    this state: the captured X error on GLX, the last error code on Win32,
    nothing when none is recorded. -/
def nativeSuffix (b : Backend) (o : Native) (w : World) : String :=
  match b with
  | .unix => if w.lastError.display ≠ 0 then glxSuffix w.lastError else ""
  | .win32 => if o.GetLastError ≠ 0 then winSuffix o.GetLastError else ""

/-- The host object holds a context and its `instance` field can be resolved:
    `rlawtGetContext` returns the record. -/
def holdsContext (o : Native) (w : World) : Prop :=
  w.selfInstance ≠ 0 ∧ (w.AWTContext_instance ≠ 0 ∨ o.GetFieldID ≠ 0)

instance (o : Native) (w : World) : Decidable (holdsContext o w) := by
  unfold holdsContext; infer_instance

/-- The events an operation adds when run from the given state: the log of
    the run started with an empty log. -/
def eventsOf (b : Backend) (o : Native) (op : Op) (w : World) : List Event :=
  (run b o op { w with trace := [] }).1.trace

/-- The configuration setters. -/
def isConfigure : Op → Bool
  | .configureInsets _ _ => true
  | .configurePixelFormat _ _ _ => true
  | .configureMultisamples _ => true
  | _ => false

/-- Arguments of the last `configurePixelFormat` call of a sequence, if any. -/
def lastPixelFormat : List Op → Option (Int × Int × Int)
  | [] => none
  | op :: rest =>
    match lastPixelFormat rest with
    | some v => some v
    | none =>
      match op with
      | .configurePixelFormat a d s => some (a, d, s)
      | _ => none

/-- Argument of the last `configureMultisamples` call of a sequence, if any. -/
def lastMultisamples : List Op → Option Int
  | [] => none
  | op :: rest =>
    match lastMultisamples rest with
    | some v => some v
    | none =>
      match op with
      | .configureMultisamples n => some n
      | _ => none

/-- Value that follows the key in a GLX attribute list of (key, value) pairs. -/
def attribValue (key : Int) : List Int → Option Int
  | k :: v :: rest => if k = key then some v else attribValue key rest
  | _ => none

/-- The attribute lists handed to `glXChooseFBConfig`, in order of the calls. -/
def chooseRequests (t : List Event) : List (List Int) :=
  t.filterMap (fun e => match e with
    | .glXChooseFBConfig _ a => some a
    | _ => none)

/-- The descriptors handed to `ChoosePixelFormat`, in order of the calls. -/
def pixelFormatRequests (t : List Event) : List PIXELFORMATDESCRIPTOR :=
  t.filterMap (fun e => match e with
    | .ChoosePixelFormat _ pfd => some pfd
    | _ => none)

/-- The first config of an array whose visual id equals the drawable's. -/
def firstVisualMatch (o : Native) (visualID : Int) (l : List GLXFBConfig) : Option GLXFBConfig :=
  l.find? (fun c => decide (o.fbVid c = visualID))

/-- A found config replaces the previous value of `fbConfig`. -/
def orKeep (found prev : Option GLXFBConfig) : Option GLXFBConfig :=
  match found with
  | some c => some c
  | none => prev

/-- The attribute list `createGLContext` builds from a record for the search
    with `doubleBuffered = d`. -/
def requestFor (c : AWTContext) (d : Bool) : List Int :=
  Nix.glxAttribs { c with doubleBuffered := d }

/-- The calls the visual-id scan of an array logs. -/
def scanEvents (o : Native) (visualID : Int) (dpy : Nat) : List GLXFBConfig → List Event
  | [] => []
  | c :: cs =>
    Event.glXGetFBConfigAttrib dpy c ::
      (if o.fbVid c = visualID then [] else scanEvents o visualID dpy cs)

/-- What the search loop leaves behind for the remaining values of `db`: the
    `doubleBuffered` flag and the value of `fbConfig`. -/
def searchOutcome (o : Native) (visualID : Int) (attribs : Bool → List Int) :
    List Nat → Bool → Option GLXFBConfig → Bool × Option GLXFBConfig
  | [], flag, fb => (flag, fb)
  | db :: rest, _, fb =>
    match o.glXChooseFBConfig (attribs (decide (db = 0))) with
    | none => searchOutcome o visualID attribs rest (decide (db = 0)) fb
    | some l =>
      if (orKeep (firstVisualMatch o visualID l) fb).isSome then
        (decide (db = 0), orKeep (firstVisualMatch o visualID l) fb)
      else searchOutcome o visualID attribs rest (decide (db = 0)) l.head?

/-- The calls the search loop logs for the remaining values of `db`. -/
def searchEvents (o : Native) (visualID : Int) (dpy : Nat) (attribs : Bool → List Int) :
    List Nat → Option GLXFBConfig → List Event
  | [], _ => []
  | db :: rest, fb =>
    Event.glXChooseFBConfig dpy (attribs (decide (db = 0))) ::
      (match o.glXChooseFBConfig (attribs (decide (db = 0))) with
        | none => searchEvents o visualID dpy attribs rest fb
        | some l =>
          scanEvents o visualID dpy l ++ Event.XFree ::
            (if (orKeep (firstVisualMatch o visualID l) fb).isSome then []
             else searchEvents o visualID dpy attribs rest l.head?))

/-- The steps of the GLX `createGLContext` before the fb config search
    succeed: the surface locks, its info and platform info are usable, the
    display copy opens and GLX is supported. -/
def Nix.surfaceReady (o : Native) : Bool :=
  (o.dsLock &&& JAWT_LOCK_ERROR == 0) && (o.dsi != 0) &&
  (match o.x11Info with
    | some i => (i.display != 0) && (i.drawable != 0)
    | none => false) &&
  (o.XOpenDisplay != 0) && o.glXQueryExtension

/-- The steps of the WGL `createGLContext` before the format choice succeed:
    the surface locks and its info carries a device context. -/
def Win.surfaceReady (o : Native) : Bool :=
  (o.dsLock &&& JAWT_LOCK_ERROR == 0) && (o.dsi != 0) &&
  (match o.win32Info with
    | some i => i.hdc != 0
    | none => false)

/-! ## Sample states for the closed examples -/

/-- A world used by the closed examples: a host object holding the context
    at address 64, whose record is freshly allocated with drawing surface 7,
    the toolkit's own X error handler installed, nothing pending, empty log. -/
def sampleWorld : World :=
  { ctx := { callocAWTContext with ds := 7 }
    selfInstance := 64
    AWTContext_instance := 5
    exception := none
    lastError := ⟨0, 0, 0, 0⟩
    xErrorHandler := .other 0
    trace := [] }

/-- Native results used by the closed examples: every call succeeds; both
    searches of `glXChooseFBConfig` return the single config 1, whose visual
    id is 33 like the drawable's; no swap-control extension. -/
def sampleNative : Native :=
  { GetFieldID := 5
    calloc := 64
    JAWT_GetAWT := true
    GetDrawingSurface := 7
    GetLastError := 0
    dsLock := 0
    dsi := 9
    x11Info := some ⟨11, 12, 33⟩
    win32Info := some ⟨13⟩
    XOpenDisplay := 14
    glXQueryExtension := true
    glXChooseFBConfig := fun _ => some [1]
    fbVid := fun _ => 33
    extARBCreateContext := false
    extSwapControl := false
    extSwapControlTear := false
    extSGISwapControl := false
    getProcAddress := fun _ => 0
    glXCreateContextAttribsARB := fun _ => 21
    glXCreateNewContext := fun _ => 22
    glXMakeCurrent := fun _ _ => true
    xerrCreate := []
    xerrMakeCurrent := []
    xerrSync := []
    xerrSwap := []
    ChoosePixelFormat := fun _ => 3
    SetPixelFormat := true
    wglMakeCurrent := fun _ => true
    wglCreateContext := 23
    SwapBuffers := true }

/-- The sample world after a successful `createGLContext` on the GLX backend. -/
def sampleCreatedNix : World :=
  hostReturn (run .unix sampleNative .createGLContext sampleWorld).1

/-- The sample world after a successful `createGLContext` on the WGL backend. -/
def sampleCreatedWin : World :=
  hostReturn (run .win32 sampleNative .createGLContext sampleWorld).1


/-- The configuration sequence of the closed examples: format (8, 24, 8),
    then 4 samples. -/
def sampleConfig : List (Op × Native) :=
  [(.configurePixelFormat 8 24 8, sampleNative), (.configureMultisamples 4, sampleNative)]

/-- The sample world after a successful GLX `createGLContext` on a platform
    that lists only `GLX_SGI_swap_control` (entry point 31). -/
def sampleCreatedSGI : World :=
  hostReturn (run .unix
    { sampleNative with extSGISwapControl := true, getProcAddress := fun _ => 31 }
    .createGLContext sampleWorld).1

/-! ## Vocabulary of the swap interval -/

/-- A swap-control function was cached at creation. -/
def swapFunctionCached (b : Backend) (c : AWTContext) : Bool :=
  match b with
  | .unix => (c.glXSwapIntervalEXT != 0) || (c.glXSwapIntervalSGI != 0)
  | .win32 => c.wglSwapIntervalEXT != 0

/-- The tear-capable extension was found at creation. -/
def tearCapable (b : Backend) (c : AWTContext) : Bool :=
  match b with
  | .unix => c.glxSwapControlTear
  | .win32 => c.wglSwapControlTear

/-- The effective interval in the words of the specification: 0 without a
    cached swap-control function; else the request when it is not negative or
    the tear-capable extension is present; else its negation. -/
def effectiveInterval (b : Backend) (c : AWTContext) (requested : Int) : Int :=
  if swapFunctionCached b c = false then 0
  else if requested ≥ 0 ∨ tearCapable b c = true then requested
  else -requested

/-- The call of the cached swap-control function with a value, if one is cached. -/
def swapCall (b : Backend) (c : AWTContext) (v : Int) : List Event :=
  match b with
  | .unix =>
    if c.glXSwapIntervalEXT ≠ 0 then [Event.glXSwapIntervalEXT c.dpy c.drawable v]
    else if c.glXSwapIntervalSGI ≠ 0 then [Event.glXSwapIntervalSGI v]
    else []
  | .win32 => if c.wglSwapIntervalEXT ≠ 0 then [Event.wglSwapIntervalEXT v] else []

/-! ## Vocabulary of the fb config selection -/

/-- The operation left a `RuntimeException` pending whose message is the
    cause followed by the native error text `rlawtThrow` appends (possibly
    empty). -/
def failsWith (cause : String) (w : World) : Prop :=
  ∃ sfx, w.exception = some ⟨RuntimeException, cause ++ sfx⟩

/-- The configs handed to the native context creation, in order of the calls. -/
def createdWith (t : List Event) : List GLXFBConfig :=
  t.filterMap (fun e => match e with
    | .glXCreateNewContext _ c => some c
    | .glXCreateContextAttribsARB _ c _ => some c
    | _ => none)

/-- The sample context configured with format (8, 24, 8) and no multisampling. -/
def sampleConfigured : World :=
  hostReturn (runSeq .unix [(.configurePixelFormat 8 24 8, sampleNative)] sampleWorld)

/-- Native results of a platform without double-buffered configs: the
    double-buffered search returns NULL, the single-buffered search returns
    configs 5 (visual id 10) and 6 (visual id 33, the drawable's). -/
def singleOnlyNative : Native :=
  { sampleNative with
    glXChooseFBConfig := fun a =>
      if attribValue GLX_DOUBLEBUFFER a = some 1 then none else some [5, 6]
    fbVid := fun c => if c = 6 then 33 else 10 }

/-- The outcome of an operation: no exception pending (`none`), or the
    failure with the given cause. -/
def outcomeIs (cause : Option String) (w : World) : Prop :=
  match cause with
  | none => w.exception = none
  | some c => failsWith c w

/-! ## Vocabulary of the releases -/

/-- The destruction of a native GL context. -/
def isContextDestroy : Event → Bool
  | .glXDestroyContext _ _ => true
  | .wglDeleteContext _ => true
  | _ => false

/-- The release of the drawing surface. -/
def isSurfaceRelease : Event → Bool
  | .FreeDrawingSurface _ => true
  | _ => false

/-- The release of the context record. -/
def isFree : Event → Bool
  | .free _ => true
  | _ => false

/-- The calls of `rlawtContextFreePlatform` on a record. -/
def freePlatformEvents (b : Backend) (c : AWTContext) : List Event :=
  match b with
  | .unix =>
    if c.contextCreated then
      [Event.glXMakeCurrent c.dpy XNone XNone, Event.glXDestroyContext c.dpy c.context,
        Event.XCloseDisplay c.dpy]
    else []
  | .win32 =>
    (if c.context ≠ 0 then [Event.wglDeleteContext c.context] else []) ++
    (if c.dsi ≠ 0 then [Event.FreeDrawingSurfaceInfo c.dsi] else [])

/-- The calls of a `destroy` that finds its context at address `ptr`. -/
def destroyEvents (b : Backend) (c : AWTContext) (ptr : Nat) : List Event :=
  freePlatformEvents b c ++
    ((if c.ds ≠ 0 then [Event.FreeDrawingSurface c.ds] else []) ++ [Event.free ptr])

/-- Native results where context creation succeeds (GLX handle 22, WGL handle
    23) and the bind of the new context fails: `glXMakeCurrent` fails, and
    `wglMakeCurrent` succeeds only for the NULL context. Everything else as in
    `sampleNative`. -/
def bindFailNative : Native :=
  { sampleNative with
    glXMakeCurrent := fun _ _ => false
    wglMakeCurrent := fun c => c == 0 }

/-- The state invariant of the record in the direction the code keeps: a
    created context has a native context handle. -/
def createdHasHandle (c : AWTContext) : Prop :=
  c.contextCreated = true → c.context ≠ 0

/-! ## Vocabulary of the lock discipline -/

/-- The operations the lock discipline is stated for. -/
def lockOp : Op → Bool
  | .createGLContext => true
  | .setSwapInterval _ => true
  | .makeCurrent => true
  | .detachCurrent => true
  | .swapBuffers => true
  | _ => false

/-- Acquisition or release of the toolkit-wide AWT lock. -/
def isToolkitLock : Event → Bool
  | .awtLock => true
  | .awtUnlock => true
  | _ => false

/-- The call `ds->Lock(ds)`. -/
def isDsLock : Event → Bool
  | .dsLock _ => true
  | _ => false

/-- The call `ds->Unlock(ds)`. -/
def isDsUnlock : Event → Bool
  | .dsUnlock _ => true
  | _ => false

/-- A call on the drawing surface: Lock, Unlock, GetDrawingSurfaceInfo,
    FreeDrawingSurfaceInfo. -/
def isSurfaceCall : Event → Bool
  | .dsLock _ => true
  | .dsUnlock _ => true
  | .GetDrawingSurfaceInfo _ => true
  | .FreeDrawingSurfaceInfo _ => true
  | _ => false

/-- The toolkit lock calls of a log, in order. -/
def toolkitCalls (t : List Event) : List Event := t.filter isToolkitLock

/-- The drawing surface calls of a log, in order. -/
def surfaceCalls (t : List Event) : List Event := t.filter isSurfaceCall

/-- Native results where the surface info is obtained and the display copy
    cannot be opened. Everything else as in `sampleNative`. -/
def noDisplayNative : Native :=
  { sampleNative with XOpenDisplay := 0 }

/-- A predicate that holds of no call of the fb config search, of the context
    creation, of the swap-control probe, of Xlib or of GLX: it can only pick
    toolkit lock calls and drawing surface calls out of a log. -/
def locksOnly (p : Event → Bool) : Prop :=
  ∀ e, p e = true → (isToolkitLock e = true ∨ isSurfaceCall e = true)


/-- The discipline read off the lock and surface calls of one operation. -/
def disciplined (b : Backend) (o : Native) (l : List Event) : Prop :=
  l.countP (fun e => e == Event.awtLock) = l.countP (fun e => e == Event.awtUnlock) ∧
  (l.filter isToolkitLock = [] ∨ l.filter isToolkitLock = [Event.awtLock, Event.awtUnlock]) ∧
  l.countP isDsLock ≤ 1 ∧
  l.countP isDsUnlock = (if o.dsLock &&& JAWT_LOCK_ERROR ≠ 0 then 0 else l.countP isDsLock) ∧
  (b = .unix → ∀ ds, Event.GetDrawingSurfaceInfo ds ∈ l → o.dsi ≠ 0 →
    l.filter isSurfaceCall
      = [Event.dsLock ds, Event.GetDrawingSurfaceInfo ds, Event.FreeDrawingSurfaceInfo o.dsi,
          Event.dsUnlock ds])

/-! ## Summaries of the GLX `createGLContext`

The log and the record that `createGLContext` produces, written as functions
of the native results and of the record at entry. They are proved equal to
what the embedding of the source produces (`Nix.createGLContext_trace`,
`Nix.createGLContext_ctx`) and carry the case analysis of the statements. -/

namespace Nix

/-- The context is created through `glXCreateContextAttribsARB`. -/
def usesARB (o : Native) : Bool :=
  o.extARBCreateContext && (o.getProcAddress "glXCreateContextAttribsARB" != 0)

/-- The handle stored in `ctx->context` for the selected config. -/
def createdHandle (o : Native) (fb : GLXFBConfig) : Nat :=
  if usesARB o then o.glXCreateContextAttribsARB fb else o.glXCreateNewContext fb

/-- Log of `createNative`. -/
def createNativeEvents (o : Native) (dpy : Nat) (fb : GLXFBConfig) : List Event :=
  Event.glXQueryExtensionsString dpy ::
    ((if o.extARBCreateContext then [Event.glXGetProcAddress "glXCreateContextAttribsARB"]
      else []) ++
    [if usesARB o then
        Event.glXCreateContextAttribsARB dpy fb
          [GLX_CONTEXT_MAJOR_VERSION_ARB, 3, GLX_CONTEXT_MINOR_VERSION_ARB, 3, 0]
      else Event.glXCreateNewContext dpy fb])

/-- Log of the labels `freeDSI:`, `unlockDS:`, `unlock:`. -/
def unwindDSI (old : XErrorHandler) (dsi ds : Nat) : List Event :=
  [Event.FreeDrawingSurfaceInfo dsi, Event.dsUnlock ds, Event.XSetErrorHandler old,
    Event.awtUnlock]

/-- Log of the labels from `freeDisplay:` on. -/
def unwindDisplay (old : XErrorHandler) (dsi ds dpy : Nat) : List Event :=
  Event.XSync dpy :: Event.XCloseDisplay dpy :: unwindDSI old dsi ds

/-- Log of `probeSwapControl`. -/
def probeEvents (o : Native) : List Event :=
  if o.extSwapControl then [Event.glXGetProcAddress "glXSwapIntervalEXT"]
  else if o.extSGISwapControl then [Event.glXGetProcAddress "glXSwapIntervalSGI"]
  else []

/-- Record after `probeSwapControl`. -/
def probeCtx (o : Native) (c : AWTContext) : AWTContext :=
  if o.extSwapControl then
    { c with
      glXSwapIntervalEXT := o.getProcAddress "glXSwapIntervalEXT"
      glxSwapControlTear := o.extSwapControlTear }
  else if o.extSGISwapControl then
    { c with glXSwapIntervalSGI := o.getProcAddress "glXSwapIntervalSGI" }
  else c

/-- Log of `createWithConfig` on a record. -/
def createWithConfigEvents (o : Native) (old : XErrorHandler) (dsi : Nat) (fb : GLXFBConfig)
    (c : AWTContext) : List Event :=
  createNativeEvents o c.dpy fb ++
    (if createdHandle o fb = 0 then unwindDisplay old dsi c.ds c.dpy
     else
      Event.glXMakeCurrent c.dpy c.drawable (createdHandle o fb) ::
        (if o.glXMakeCurrent c.drawable (createdHandle o fb) then
          probeEvents o ++
            [Event.FreeDrawingSurfaceInfo dsi, Event.XSync c.dpy, Event.XSetErrorHandler old,
              Event.dsUnlock c.ds, Event.awtUnlock]
         else Event.glXDestroyContext c.dpy (createdHandle o fb) ::
            unwindDisplay old dsi c.ds c.dpy))

/-- Record after `createWithConfig`. -/
def createWithConfigCtx (o : Native) (fb : GLXFBConfig) (c : AWTContext) : AWTContext :=
  if createdHandle o fb = 0 then { c with context := createdHandle o fb }
  else if o.glXMakeCurrent c.drawable (createdHandle o fb) then
    { probeCtx o { c with context := createdHandle o fb } with contextCreated := true }
  else { c with context := createdHandle o fb }

/-- What the search of `createGLContext` leaves behind on a record: the
    `doubleBuffered` flag and the selected config. -/
def searchResult (o : Native) (visualID : Int) (c : AWTContext) : Bool × Option GLXFBConfig :=
  searchOutcome o visualID (requestFor c) [0, 1] c.doubleBuffered none

/-- Log of `searchAndCreate` on a record. -/
def searchAndCreateEvents (o : Native) (old : XErrorHandler) (dsi : Nat) (visualID : Int)
    (c : AWTContext) : List Event :=
  searchEvents o visualID c.dpy (requestFor c) [0, 1] none ++
    (match (searchResult o visualID c).2 with
      | none => unwindDisplay old dsi c.ds c.dpy
      | some fb => createWithConfigEvents o old dsi fb c)

/-- Record after `searchAndCreate`. -/
def searchAndCreateCtx (o : Native) (visualID : Int) (c : AWTContext) : AWTContext :=
  match (searchResult o visualID c).2 with
  | none => { c with doubleBuffered := (searchResult o visualID c).1 }
  | some fb => createWithConfigCtx o fb { c with doubleBuffered := (searchResult o visualID c).1 }

/-- Log of `createWithSurface` on a record. -/
def createWithSurfaceEvents (o : Native) (old : XErrorHandler) (dsi : Nat)
    (dspi : JAWT_X11DrawingSurfaceInfo) (c : AWTContext) : List Event :=
  Event.XOpenDisplay dspi.display ::
    (if o.XOpenDisplay = 0 then unwindDSI old dsi c.ds
     else
      Event.glXQueryExtension o.XOpenDisplay ::
        (if o.glXQueryExtension then
          searchAndCreateEvents o old dsi dspi.visualID
            { c with drawable := dspi.drawable, dpy := o.XOpenDisplay }
         else unwindDisplay old dsi c.ds o.XOpenDisplay))

/-- Record after `createWithSurface`. -/
def createWithSurfaceCtx (o : Native) (dspi : JAWT_X11DrawingSurfaceInfo) (c : AWTContext) :
    AWTContext :=
  if o.XOpenDisplay = 0 then { c with drawable := dspi.drawable, dpy := o.XOpenDisplay }
  else if o.glXQueryExtension then
    searchAndCreateCtx o dspi.visualID { c with drawable := dspi.drawable, dpy := o.XOpenDisplay }
  else { c with drawable := dspi.drawable, dpy := o.XOpenDisplay }

/-- Log of `createGLContext` once the guard has passed, on a record and with
    the X error handler found installed. -/
def createEvents (o : Native) (old : XErrorHandler) (c : AWTContext) : List Event :=
  Event.awtLock :: Event.XSetErrorHandler .rlawtXErrorHandler :: Event.dsLock c.ds ::
    (if o.dsLock &&& JAWT_LOCK_ERROR ≠ 0 then [Event.XSetErrorHandler old, Event.awtUnlock]
     else
      Event.GetDrawingSurfaceInfo c.ds ::
        (if o.dsi = 0 then [Event.dsUnlock c.ds, Event.XSetErrorHandler old, Event.awtUnlock]
         else
          match o.x11Info with
          | none => unwindDSI old o.dsi c.ds
          | some dspi =>
            if dspi.display = 0 ∨ dspi.drawable = 0 then unwindDSI old o.dsi c.ds
            else createWithSurfaceEvents o old o.dsi dspi c))

/-- Record after `createGLContext` once the guard has passed. -/
def createCtx (o : Native) (c : AWTContext) : AWTContext :=
  if o.dsLock &&& JAWT_LOCK_ERROR ≠ 0 then c
  else if o.dsi = 0 then c
  else
    match o.x11Info with
    | none => c
    | some dspi =>
      if dspi.display = 0 ∨ dspi.drawable = 0 then c else createWithSurfaceCtx o dspi c

/-- Cause of the failure of `createWithConfig`, `none` for success. -/
def createWithConfigCause (o : Native) (fb : GLXFBConfig) (c : AWTContext) : Option String :=
  if createdHandle o fb = 0 then some "unable to create glx context"
  else if o.glXMakeCurrent c.drawable (createdHandle o fb) then none
  else some "unable to make current"

/-- Cause of the failure of `searchAndCreate`, `none` for success. -/
def searchAndCreateCause (o : Native) (visualID : Int) (c : AWTContext) : Option String :=
  match (searchResult o visualID c).2 with
  | none => some "unable to find a fb config"
  | some fb => createWithConfigCause o fb c

/-- Cause of the failure of `createWithSurface`, `none` for success. -/
def createWithSurfaceCause (o : Native) (dspi : JAWT_X11DrawingSurfaceInfo) (c : AWTContext) :
    Option String :=
  if o.XOpenDisplay = 0 then some "unable to open display copy"
  else if o.glXQueryExtension then
    searchAndCreateCause o dspi.visualID { c with drawable := dspi.drawable, dpy := o.XOpenDisplay }
  else some "glx is not supported"

/-- Cause of the failure of `createGLContext` once the guard has passed,
    `none` for success. -/
def createCause (o : Native) (c : AWTContext) : Option String :=
  if o.dsLock &&& JAWT_LOCK_ERROR ≠ 0 then some "unable to lock ds"
  else if o.dsi = 0 then some "unable to get dsi"
  else
    match o.x11Info with
    | none => some "unable to get platform dsi"
    | some dspi =>
      if dspi.display = 0 ∨ dspi.drawable = 0 then some "unable to get platform dsi"
      else createWithSurfaceCause o dspi c

end Nix

/-! ## Summaries of the WGL `createGLContext` -/

namespace Win

/-- Log of `probeSwapControl`. -/
def probeEvents (o : Native) : List Event :=
  Event.wglGetProcAddress "wglGetExtensionsStringEXT" ::
    (if o.getProcAddress "wglGetExtensionsStringEXT" ≠ 0 then
      Event.wglGetExtensionsStringEXT ::
        (if o.extSwapControl then [Event.wglGetProcAddress "wglSwapIntervalEXT"] else [])
     else [])

/-- Record after `probeSwapControl`. -/
def probeCtx (o : Native) (c : AWTContext) : AWTContext :=
  if o.getProcAddress "wglGetExtensionsStringEXT" ≠ 0 ∧ o.extSwapControl = true then
    { c with
      wglSwapIntervalEXT := o.getProcAddress "wglSwapIntervalEXT"
      wglSwapControlTear := o.extSwapControlTear }
  else c

/-- Log of `createWithDC` on a record. -/
def createWithDCEvents (o : Native) (hdc : Nat) (c : AWTContext) : List Event :=
  Event.ChoosePixelFormat hdc (wglPfd c) ::
    (if o.ChoosePixelFormat (wglPfd c) = 0 then [Event.dsUnlock c.ds]
     else
      Event.SetPixelFormat hdc (o.ChoosePixelFormat (wglPfd c)) (wglPfd c) ::
        (if o.SetPixelFormat = false then [Event.dsUnlock c.ds]
         else
          Event.wglMakeCurrent hdc 0 ::
            (if o.wglMakeCurrent 0 = false then [Event.dsUnlock c.ds]
             else
              Event.wglCreateContext hdc ::
                (if o.wglCreateContext = 0 then [Event.dsUnlock c.ds]
                 else
                  Event.wglMakeCurrent hdc o.wglCreateContext ::
                    (if o.wglMakeCurrent o.wglCreateContext = false then
                      [Event.wglDeleteContext o.wglCreateContext, Event.dsUnlock c.ds]
                     else probeEvents o ++ [Event.dsUnlock c.ds])))))

/-- Record after `createWithDC`. -/
def createWithDCCtx (o : Native) (c : AWTContext) : AWTContext :=
  if o.ChoosePixelFormat (wglPfd c) = 0 then c
  else if o.SetPixelFormat = false then c
  else if o.wglMakeCurrent 0 = false then c
  else if o.wglCreateContext = 0 then { c with context := o.wglCreateContext }
  else if o.wglMakeCurrent o.wglCreateContext = false then
    { c with context := o.wglCreateContext }
  else { probeCtx o { c with context := o.wglCreateContext } with contextCreated := true }

/-- The platform info carries no device context. -/
def noDC (o : Native) : Bool :=
  match o.win32Info with
  | some i => i.hdc == 0
  | none => true

/-- The value of `ctx->dspi->hdc` read from the platform info. -/
def dcOf (o : Native) : Nat :=
  match o.win32Info with
  | some i => i.hdc
  | none => 0

/-- Log of `createGLContext` once the guard has passed, on a record. -/
def createEvents (o : Native) (c : AWTContext) : List Event :=
  Event.dsLock c.ds ::
    (if o.dsLock &&& JAWT_LOCK_ERROR ≠ 0 then []
     else
      Event.GetDrawingSurfaceInfo c.ds ::
        (if o.dsi = 0 then [Event.dsUnlock c.ds]
         else if noDC o then [Event.FreeDrawingSurfaceInfo o.dsi, Event.dsUnlock c.ds]
         else createWithDCEvents o (dcOf o) { c with dsi := o.dsi, dspi := o.win32Info }))

/-- Record after `createGLContext` once the guard has passed. -/
def createCtx (o : Native) (c : AWTContext) : AWTContext :=
  if o.dsLock &&& JAWT_LOCK_ERROR ≠ 0 then c
  else if o.dsi = 0 then { c with dsi := o.dsi }
  else if noDC o then { c with dsi := 0, dspi := o.win32Info }
  else createWithDCCtx o { c with dsi := o.dsi, dspi := o.win32Info }

end Win

/-! ## Summaries of the lock and surface calls -/

/-- The lock and surface calls of the GLX unwinding from `freeDSI:` on, and of
    the GLX success exit, in order. -/
def Nix.unwindLocks (dsi ds : Nat) : List Event :=
  [Event.FreeDrawingSurfaceInfo dsi, Event.dsUnlock ds, Event.awtUnlock]

/-- The lock and surface calls of the GLX `createGLContext` once the guard has
    passed, in order. -/
def Nix.createLocks (o : Native) (c : AWTContext) : List Event :=
  Event.awtLock :: Event.dsLock c.ds ::
    (if o.dsLock &&& JAWT_LOCK_ERROR ≠ 0 then [Event.awtUnlock]
     else Event.GetDrawingSurfaceInfo c.ds ::
      (if o.dsi = 0 then [Event.dsUnlock c.ds, Event.awtUnlock]
       else Nix.unwindLocks o.dsi c.ds))

/-- The surface calls of the WGL `createGLContext` once the guard has passed,
    in order (it takes no toolkit lock). The surface info is freed here only
    when it carries no device context; otherwise it is kept in the record. -/
def Win.createLocks (o : Native) (c : AWTContext) : List Event :=
  Event.dsLock c.ds ::
    (if o.dsLock &&& JAWT_LOCK_ERROR ≠ 0 then []
     else Event.GetDrawingSurfaceInfo c.ds ::
      (if o.dsi = 0 then [Event.dsUnlock c.ds]
       else if Win.noDC o then [Event.FreeDrawingSurfaceInfo o.dsi, Event.dsUnlock c.ds]
       else [Event.dsUnlock c.ds]))

/-- The lock and surface calls of an operation once its guard has passed, in
    order: the toolkit lock is taken by the GLX operations and by
    `setSwapInterval` of both backends; the surface is locked by
    `createGLContext` only. -/
def opLocks (b : Backend) (o : Native) (op : Op) (c : AWTContext) : List Event :=
  match op, b with
  | .createGLContext, .unix => Nix.createLocks o c
  | .createGLContext, .win32 => Win.createLocks o c
  | .setSwapInterval _, _ => [Event.awtLock, Event.awtUnlock]
  | .makeCurrent, .unix => [Event.awtLock, Event.awtUnlock]
  | .detachCurrent, .unix => [Event.awtLock, Event.awtUnlock]
  | .swapBuffers, .unix => [Event.awtLock, Event.awtUnlock]
  | _, _ => []

/-- The state an operation requires. -/
def requiresCreated (op : Op) : Bool :=
  match op with
  | .configureInsets _ _ => false
  | .configurePixelFormat _ _ _ => false
  | .configureMultisamples _ => false
  | .createGLContext => false
  | _ => true

/-! ## Vocabulary of the buffering flag -/

/-- Native results of a platform whose double-buffered configs do not carry
    the drawable's visual and that has no single-buffered config: the
    double-buffered search returns config 1, whose visual id is 10, the
    single-buffered search returns NULL, and the drawable's visual id is 33.
    Everything else as in `sampleNative`. -/
def doubleOnlyNative : Native :=
  { sampleNative with
    glXChooseFBConfig := fun a =>
      if attribValue GLX_DOUBLEBUFFER a = some 1 then some [1] else none
    fbVid := fun _ => 10 }

/-! ## Vocabulary of the error reporter -/

/-- The cause literals the sources hand to `rlawtThrow` on the GLX backend
    (rlawt.c and rlawt_nix.c). -/
def glxCauses : List String :=
  [ "context must be already created", "context cannot be created", "cannot get the awt",
    "cannot get the ds", "not supported", "unable to make current", "unable to lock ds",
    "unable to get dsi", "unable to get platform dsi", "unable to open display copy",
    "glx is not supported", "unable to find a fb config", "unable to create glx context" ]

/-- The exception `rlawtGetContext` raises for a zero `instance`. -/
def noInstance : JThrowable := ⟨"java/lang/NullPointerException", "no instance"⟩

/-- Number of X errors held in the slot `lastError`: 1 when `display` is set,
    0 for the empty slot. -/
def slotHeld (w : World) : Nat := if w.lastError.display ≠ 0 then 1 else 0

/-- The failure message carries X error text: it ends with the closing
    bracket of the text the GLX `rlawtThrow` appends. No cause literal of the
    sources ends with one. -/
def carriesXError : Option JThrowable → Bool
  | some t => t.msg.data.getLast? == some ')'
  | none => false

/-- The X errors of one operation that have not yet left the library: the
    one appended to the pending failure message, if any, and the one held in
    the slot, if any. -/
def xErrorsInFlight (w : World) : Nat :=
  (if carriesXError w.exception = true then 1 else 0) + slotHeld w

/-- What each operation of a sequence leaves pending for the host, in order:
    the failure it raised, or `none`. -/
def raisedBy (b : Backend) : List (Op × Native) → World → List (Option JThrowable)
  | [], _ => []
  | (op, o) :: rest, w =>
    (run b o op (hostReturn w)).1.exception :: raisedBy b rest (run b o op (hostReturn w)).1

/-- Number of X errors Xlib reports while one operation runs, at most: each
    of the four batches is delivered at most once per operation. -/
def reported (o : Native) : Nat :=
  o.xerrCreate.length + o.xerrMakeCurrent.length + o.xerrSync.length + o.xerrSwap.length

/-- The slot still holds the error `e` and no failure was raised through
    `rlawtThrow`, or the failure raised carries `e` after one of the causes. -/
def heldOrConsumed (e : XErrorEvent) (w : World) : Prop :=
  (w.lastError = e ∧ (w.exception = none ∨ w.exception = some noInstance)) ∨
  (∃ c ∈ glxCauses, w.exception = some ⟨RuntimeException, c ++ glxSuffix e⟩)

/-- Runs of the steps of the GLX backend as far as the pending exception and
    the slot `lastError` are concerned, from a start state: steps that touch
    neither, deliveries of X errors to the installed handler, calls of
    `rlawtThrow` with a cause of the sources, and the `NullPointerException`
    of `rlawtGetContext`. The number bounds the X errors delivered. -/
inductive ReporterSteps (w : World) : Nat → World → Prop where
  | refl (n : Nat) : ReporterSteps w n w
  | other {n : Nat} {w1 : World} (w2 : World) : ReporterSteps w n w1 →
      w2.exception = w1.exception → w2.lastError = w1.lastError → ReporterSteps w n w2
  | deliver {n m : Nat} {w1 : World} (errs : List XErrorEvent) : ReporterSteps w n w1 →
      n + errs.length ≤ m → ReporterSteps w m (deliver errs w1)
  | throw {n : Nat} {w1 : World} (o : Native) (msg : String) : msg ∈ glxCauses →
      ReporterSteps w n w1 → ReporterSteps w n (rlawtThrow .unix o msg w1)
  | npe {n : Nat} {w1 : World} (w2 : World) : ReporterSteps w n w1 → w1.exception = none →
      w2.exception = some noInstance → w2.lastError = w1.lastError → ReporterSteps w n w2

/-- Native results of a swap during which Xlib reports one X error on
    display 14: minor code 5, request code 152, error code 8. Everything else
    as in `sampleNative`. -/
def swapErrorNative : Native :=
  { sampleNative with xerrSwap := [⟨14, 5, 152, 8⟩] }

/-- The sample created GLX context after a `swapBuffers` that did not fail
    and during which the X error of `swapErrorNative` was reported. -/
def sampleAfterSwapError : World :=
  hostReturn (run .unix swapErrorNative .swapBuffers sampleCreatedNix).1

/-! # Theorems -/

/-! ## Lemmas on the shared helpers -/

@[simp] theorem rlawtThrow_ctx (b : Backend) (o : Native) (m : String) (w : World) :
    (rlawtThrow b o m w).ctx = w.ctx := by
  unfold rlawtThrow
  cases b <;> simp <;> split_ifs <;> rfl

@[simp] theorem rlawtThrow_trace (b : Backend) (o : Native) (m : String) (w : World) :
    (rlawtThrow b o m w).trace = w.trace := by
  unfold rlawtThrow
  cases b <;> simp <;> split_ifs <;> rfl

@[simp] theorem rlawtThrow_selfInstance (b : Backend) (o : Native) (m : String) (w : World) :
    (rlawtThrow b o m w).selfInstance = w.selfInstance := by
  unfold rlawtThrow
  cases b <;> simp <;> split_ifs <;> rfl

theorem rlawtThrow_xErrorHandler (b : Backend) (o : Native) (m : String) (w : World) :
    (rlawtThrow b o m w).xErrorHandler = w.xErrorHandler := by
  unfold rlawtThrow
  cases b <;> simp <;> split_ifs <;> rfl

theorem rlawtThrow_exception (b : Backend) (o : Native) (m : String) (w : World)
    (h : w.exception = none) :
    (rlawtThrow b o m w).exception = some ⟨RuntimeException, m ++ nativeSuffix b o w⟩ := by
  unfold rlawtThrow nativeSuffix
  cases b <;> simp [h] <;> split_ifs <;> simp

/-- With the wrong state the guard stops the operation: it raises the
    invalid-state error and changes neither the record, the log, the host's
    handle nor the X error handler. -/
theorem enter_wrong_state (b : Backend) (o : Native) (created : Bool) (w : World)
    (hc : holdsContext o w) (hs : w.ctx.contextCreated ≠ created) :
    (enter b o created w).2 = false ∧ (enter b o created w).1.ctx = w.ctx ∧
    (enter b o created w).1.trace = w.trace ∧
    (enter b o created w).1.selfInstance = w.selfInstance ∧
    (enter b o created w).1.xErrorHandler = w.xErrorHandler ∧
    (w.exception = none → (enter b o created w).1.exception = some ⟨RuntimeException,
      (if created then "context must be already created" else "context cannot be created")
        ++ nativeSuffix b o w⟩) := by
  obtain ⟨h1, h2⟩ := hc
  unfold enter rlawtGetContext rlawtContextState
  by_cases hf : w.AWTContext_instance = 0
  · have h3 : o.GetFieldID ≠ 0 := by
      rcases h2 with h2 | h2
      · exact absurd hf h2
      · exact h2
    simp [hf, h1, h3, hs, rlawtThrow_ctx, rlawtThrow_trace, rlawtThrow_selfInstance,
      rlawtThrow_xErrorHandler]
    intro he
    exact (rlawtThrow_exception b o _ { w with AWTContext_instance := o.GetFieldID } he).trans
      (by cases b <;> rfl)
  · simp [hf, h1, hs, rlawtThrow_ctx, rlawtThrow_trace, rlawtThrow_selfInstance,
      rlawtThrow_xErrorHandler]
    intro he
    rw [rlawtThrow_exception _ _ _ _ he]

/-! ## Frame lemmas: what each helper does to the log, the record and the pending exception -/

@[simp] theorem emit_trace (e : Event) (w : World) : (emit e w).trace = w.trace ++ [e] := rfl

@[simp] theorem emit_ctx (e : Event) (w : World) : (emit e w).ctx = w.ctx := rfl

@[simp] theorem emit_exception (e : Event) (w : World) : (emit e w).exception = w.exception := rfl

@[simp] theorem emit_selfInstance (e : Event) (w : World) :
    (emit e w).selfInstance = w.selfInstance := rfl

@[simp] theorem emit_xErrorHandler (e : Event) (w : World) :
    (emit e w).xErrorHandler = w.xErrorHandler := rfl

@[simp] theorem emit_lastError (e : Event) (w : World) : (emit e w).lastError = w.lastError := rfl

@[simp] theorem setCtx_xErrorHandler (f : AWTContext → AWTContext) (w : World) :
    (setCtx f w).xErrorHandler = w.xErrorHandler := rfl

@[simp] theorem setCtx_lastError (f : AWTContext → AWTContext) (w : World) :
    (setCtx f w).lastError = w.lastError := rfl

@[simp] theorem XSetErrorHandler_old (h : XErrorHandler) (w : World) :
    (XSetErrorHandler h w).2 = w.xErrorHandler := rfl

@[simp] theorem XSetErrorHandler_new (h : XErrorHandler) (w : World) :
    (XSetErrorHandler h w).1.xErrorHandler = h := rfl

@[simp] theorem XSetErrorHandler_lastError (h : XErrorHandler) (w : World) :
    (XSetErrorHandler h w).1.lastError = w.lastError := rfl

@[simp] theorem setCtx_trace (f : AWTContext → AWTContext) (w : World) :
    (setCtx f w).trace = w.trace := rfl

@[simp] theorem setCtx_ctx (f : AWTContext → AWTContext) (w : World) :
    (setCtx f w).ctx = f w.ctx := rfl

@[simp] theorem setCtx_exception (f : AWTContext → AWTContext) (w : World) :
    (setCtx f w).exception = w.exception := rfl

@[simp] theorem setCtx_selfInstance (f : AWTContext → AWTContext) (w : World) :
    (setCtx f w).selfInstance = w.selfInstance := rfl

@[simp] theorem rethrow_trace (ex : Option JThrowable) (w : World) :
    (rethrow ex w).trace = w.trace := by
  unfold rethrow
  split_ifs <;> rfl

@[simp] theorem rethrow_ctx (ex : Option JThrowable) (w : World) :
    (rethrow ex w).ctx = w.ctx := by
  unfold rethrow
  split_ifs <;> rfl

@[simp] theorem rethrow_selfInstance (ex : Option JThrowable) (w : World) :
    (rethrow ex w).selfInstance = w.selfInstance := by
  unfold rethrow
  split_ifs <;> rfl

/-- Throwing again the exception that was pending before a cleanup call that
    leaves the pending exception alone restores exactly that state. -/
theorem rethrow_exception (ex : Option JThrowable) (w : World) (h : w.exception = ex) :
    (rethrow ex w).exception = ex := by
  unfold rethrow
  split_ifs
  · rfl
  · exact h

theorem foldl_handler_frame (errs : List XErrorEvent) (w : World) :
    ∃ le, errs.foldl (fun acc e => rlawtXErrorHandler e acc) w = { w with lastError := le } := by
  induction errs generalizing w with
  | nil => exact ⟨w.lastError, rfl⟩
  | cons e rest ih =>
    simp only [List.foldl_cons]
    obtain ⟨le, hle⟩ := ih (rlawtXErrorHandler e w)
    rw [hle]
    unfold rlawtXErrorHandler
    split_ifs
    · exact ⟨le, rfl⟩
    · exact ⟨le, rfl⟩

theorem deliver_frame (errs : List XErrorEvent) (w : World) :
    ∃ le, deliver errs w = { w with lastError := le } := by
  unfold deliver
  split
  · exact foldl_handler_frame errs w
  · exact ⟨w.lastError, rfl⟩

@[simp] theorem deliver_trace (errs : List XErrorEvent) (w : World) :
    (deliver errs w).trace = w.trace := by
  obtain ⟨le, h⟩ := deliver_frame errs w
  rw [h]

@[simp] theorem deliver_ctx (errs : List XErrorEvent) (w : World) :
    (deliver errs w).ctx = w.ctx := by
  obtain ⟨le, h⟩ := deliver_frame errs w
  rw [h]

@[simp] theorem deliver_exception (errs : List XErrorEvent) (w : World) :
    (deliver errs w).exception = w.exception := by
  obtain ⟨le, h⟩ := deliver_frame errs w
  rw [h]

@[simp] theorem deliver_selfInstance (errs : List XErrorEvent) (w : World) :
    (deliver errs w).selfInstance = w.selfInstance := by
  obtain ⟨le, h⟩ := deliver_frame errs w
  rw [h]

@[simp] theorem rlawtUnlockAWT_trace (w : World) :
    (rlawtUnlockAWT w).trace = w.trace ++ [Event.awtUnlock] := by
  simp [rlawtUnlockAWT]

@[simp] theorem rlawtUnlockAWT_ctx (w : World) : (rlawtUnlockAWT w).ctx = w.ctx := by
  simp [rlawtUnlockAWT]

@[simp] theorem rlawtUnlockAWT_exception (w : World) :
    (rlawtUnlockAWT w).exception = w.exception := by
  unfold rlawtUnlockAWT
  exact rethrow_exception _ _ rfl

@[simp] theorem rlawtUnlockAWT_selfInstance (w : World) :
    (rlawtUnlockAWT w).selfInstance = w.selfInstance := by
  simp [rlawtUnlockAWT]

@[simp] theorem XSetErrorHandler_trace (h : XErrorHandler) (w : World) :
    (XSetErrorHandler h w).1.trace = w.trace ++ [Event.XSetErrorHandler h] := rfl

@[simp] theorem XSetErrorHandler_ctx (h : XErrorHandler) (w : World) :
    (XSetErrorHandler h w).1.ctx = w.ctx := rfl

@[simp] theorem XSetErrorHandler_exception (h : XErrorHandler) (w : World) :
    (XSetErrorHandler h w).1.exception = w.exception := rfl

@[simp] theorem XSetErrorHandler_selfInstance (h : XErrorHandler) (w : World) :
    (XSetErrorHandler h w).1.selfInstance = w.selfInstance := rfl

/-- After `rlawtThrow` an exception is pending. -/
theorem rlawtThrow_pending (b : Backend) (o : Native) (m : String) (w : World) :
    (rlawtThrow b o m w).exception.isSome = true := by
  unfold rlawtThrow
  by_cases h : w.exception.isSome = true
  · simp [h]
  · cases b <;> simp [h] <;> split_ifs <;> rfl

namespace Nix

@[simp] theorem unlock_trace (old : XErrorHandler) (w : World) :
    (unlock old w).trace = w.trace ++ [Event.XSetErrorHandler old, Event.awtUnlock] := by
  simp [unlock]

@[simp] theorem unlock_ctx (old : XErrorHandler) (w : World) : (unlock old w).ctx = w.ctx := by
  simp [unlock]

@[simp] theorem unlock_exception (old : XErrorHandler) (w : World) :
    (unlock old w).exception = w.exception := by
  simp [unlock]

@[simp] theorem unlock_selfInstance (old : XErrorHandler) (w : World) :
    (unlock old w).selfInstance = w.selfInstance := by
  simp [unlock]

@[simp] theorem unlockDS_trace (old : XErrorHandler) (w : World) :
    (unlockDS old w).trace
      = w.trace ++ [Event.dsUnlock w.ctx.ds, Event.XSetErrorHandler old, Event.awtUnlock] := by
  simp [unlockDS]

@[simp] theorem unlockDS_ctx (old : XErrorHandler) (w : World) : (unlockDS old w).ctx = w.ctx := by
  simp [unlockDS]

@[simp] theorem unlockDS_exception (old : XErrorHandler) (w : World) :
    (unlockDS old w).exception = w.exception := by
  unfold unlockDS
  simp only [unlock_exception, rethrow_exception _ _ (emit_exception _ _)]

@[simp] theorem unlockDS_selfInstance (old : XErrorHandler) (w : World) :
    (unlockDS old w).selfInstance = w.selfInstance := by
  simp [unlockDS]

@[simp] theorem freeDSI_trace (old : XErrorHandler) (dsi : Nat) (w : World) :
    (freeDSI old dsi w).trace
      = w.trace ++ [Event.FreeDrawingSurfaceInfo dsi, Event.dsUnlock w.ctx.ds,
          Event.XSetErrorHandler old, Event.awtUnlock] := by
  simp [freeDSI]

@[simp] theorem freeDSI_ctx (old : XErrorHandler) (dsi : Nat) (w : World) :
    (freeDSI old dsi w).ctx = w.ctx := by
  simp [freeDSI]

@[simp] theorem freeDSI_exception (old : XErrorHandler) (dsi : Nat) (w : World) :
    (freeDSI old dsi w).exception = w.exception := by
  unfold freeDSI
  simp only [unlockDS_exception, rethrow_exception _ _ (emit_exception _ _)]

@[simp] theorem freeDSI_selfInstance (old : XErrorHandler) (dsi : Nat) (w : World) :
    (freeDSI old dsi w).selfInstance = w.selfInstance := by
  simp [freeDSI]

@[simp] theorem xSync_trace (o : Native) (w : World) :
    (xSync o w).trace = w.trace ++ [Event.XSync w.ctx.dpy] := by
  simp [xSync]

@[simp] theorem xSync_ctx (o : Native) (w : World) : (xSync o w).ctx = w.ctx := by
  simp [xSync]

@[simp] theorem xSync_exception (o : Native) (w : World) :
    (xSync o w).exception = w.exception := by
  simp [xSync]

@[simp] theorem xSync_selfInstance (o : Native) (w : World) :
    (xSync o w).selfInstance = w.selfInstance := by
  simp [xSync]

@[simp] theorem freeDisplay_trace (o : Native) (old : XErrorHandler) (dsi : Nat) (w : World) :
    (freeDisplay o old dsi w).trace
      = w.trace ++ [Event.XSync w.ctx.dpy, Event.XCloseDisplay w.ctx.dpy,
          Event.FreeDrawingSurfaceInfo dsi, Event.dsUnlock w.ctx.ds,
          Event.XSetErrorHandler old, Event.awtUnlock] := by
  simp [freeDisplay]

@[simp] theorem freeDisplay_ctx (o : Native) (old : XErrorHandler) (dsi : Nat) (w : World) :
    (freeDisplay o old dsi w).ctx = w.ctx := by
  simp [freeDisplay]

@[simp] theorem freeDisplay_exception (o : Native) (old : XErrorHandler) (dsi : Nat) (w : World) :
    (freeDisplay o old dsi w).exception = w.exception := by
  simp [freeDisplay]

@[simp] theorem freeDisplay_selfInstance (o : Native) (old : XErrorHandler) (dsi : Nat)
    (w : World) : (freeDisplay o old dsi w).selfInstance = w.selfInstance := by
  simp [freeDisplay]

@[simp] theorem freeContext_trace (o : Native) (old : XErrorHandler) (dsi : Nat) (w : World) :
    (freeContext o old dsi w).trace
      = w.trace ++ [Event.glXDestroyContext w.ctx.dpy w.ctx.context, Event.XSync w.ctx.dpy,
          Event.XCloseDisplay w.ctx.dpy, Event.FreeDrawingSurfaceInfo dsi,
          Event.dsUnlock w.ctx.ds, Event.XSetErrorHandler old, Event.awtUnlock] := by
  simp [freeContext]

@[simp] theorem freeContext_ctx (o : Native) (old : XErrorHandler) (dsi : Nat) (w : World) :
    (freeContext o old dsi w).ctx = w.ctx := by
  simp [freeContext]

@[simp] theorem freeContext_exception (o : Native) (old : XErrorHandler) (dsi : Nat) (w : World) :
    (freeContext o old dsi w).exception = w.exception := by
  simp [freeContext]

@[simp] theorem freeContext_selfInstance (o : Native) (old : XErrorHandler) (dsi : Nat)
    (w : World) : (freeContext o old dsi w).selfInstance = w.selfInstance := by
  simp [freeContext]

end Nix

/-- With the right state the guard lets the operation go on; it only caches
    the field id. -/
theorem enter_right_state (b : Backend) (o : Native) (created : Bool) (w : World)
    (hc : holdsContext o w) (hs : w.ctx.contextCreated = created) :
    enter b o created w =
      ({ w with AWTContext_instance :=
          if w.AWTContext_instance = 0 then o.GetFieldID else w.AWTContext_instance }, true) := by
  obtain ⟨h1, h2⟩ := hc
  unfold enter rlawtGetContext rlawtContextState
  by_cases hf : w.AWTContext_instance = 0
  · have h3 : o.GetFieldID ≠ 0 := by
      rcases h2 with h2 | h2
      · exact absurd hf h2
      · exact h2
    simp [hf, h1, h3, hs]
  · simp [hf, h1, hs]

/-- The guard never touches the record or the log. -/
theorem enter_frame (b : Backend) (o : Native) (created : Bool) (w : World) :
    (enter b o created w).1.ctx = w.ctx ∧ (enter b o created w).1.trace = w.trace := by
  unfold enter rlawtGetContext rlawtContextState
  simp only
  split_ifs <;> simp

@[simp] theorem enter_ctx (b : Backend) (o : Native) (created : Bool) (w : World) :
    (enter b o created w).1.ctx = w.ctx := (enter_frame b o created w).1

@[simp] theorem enter_trace (b : Backend) (o : Native) (created : Bool) (w : World) :
    (enter b o created w).1.trace = w.trace := (enter_frame b o created w).2

theorem enter_xErrorHandler (b : Backend) (o : Native) (created : Bool) (w : World) :
    (enter b o created w).1.xErrorHandler = w.xErrorHandler := by
  unfold enter rlawtGetContext rlawtContextState
  simp only
  split_ifs <;> simp [rlawtThrow_xErrorHandler]

theorem enter_selfInstance (b : Backend) (o : Native) (created : Bool) (w : World) :
    (enter b o created w).1.selfInstance = w.selfInstance := by
  unfold enter rlawtGetContext rlawtContextState
  simp only
  split_ifs <;> simp

/-- The guard lets the operation go on exactly when the host object holds a
    context in the required state. -/
theorem enter_ok_iff (b : Backend) (o : Native) (created : Bool) (w : World) :
    (enter b o created w).2 = true ↔ (holdsContext o w ∧ w.ctx.contextCreated = created) := by
  constructor
  · intro h
    by_cases hc : holdsContext o w
    · by_cases hs : w.ctx.contextCreated = created
      · exact ⟨hc, hs⟩
      · rw [(enter_wrong_state b o created w hc hs).1] at h
        exact absurd h (by simp)
    · exfalso
      unfold holdsContext at hc
      unfold enter rlawtGetContext at h
      simp only at h
      split_ifs at h <;> simp_all
  · rintro ⟨hc, hs⟩
    rw [enter_right_state b o created w hc hs]

/-- Whether the guard lets the operation go on does not depend on the log. -/
theorem enter_ok_clear (b : Backend) (o : Native) (created : Bool) (w : World) :
    (enter b o created { w with trace := [] }).2 = (enter b o created w).2 := by
  have h1 := enter_ok_iff b o created { w with trace := [] }
  have h2 := enter_ok_iff b o created w
  have h3 : holdsContext o { w with trace := [] } ↔ holdsContext o w := Iff.rfl
  cases hA : (enter b o created { w with trace := [] }).2 <;>
    cases hB : (enter b o created w).2 <;> simp_all

/-- One configuration call on a context that is not created. -/
theorem configure_step (b : Backend) (o : Native) (op : Op) (w : World)
    (hop : isConfigure op = true) (hc : holdsContext o w)
    (hnot : w.ctx.contextCreated = false) :
    (run b o op (hostReturn w)).1.ctx =
      (match op with
        | .configurePixelFormat a d s =>
          { w.ctx with alphaDepth := a, depthDepth := d, stencilDepth := s }
        | .configureMultisamples n => { w.ctx with multisamples := n }
        | _ => w.ctx) ∧
    (run b o op (hostReturn w)).1.selfInstance = w.selfInstance ∧
    (run b o op (hostReturn w)).1.AWTContext_instance ≠ 0 := by
  have hc2 : holdsContext o (hostReturn w) := hc
  have hn2 : (hostReturn w).ctx.contextCreated = false := hnot
  have he := enter_right_state b o false (hostReturn w) hc2 hn2
  obtain ⟨h1, h2⟩ := hc
  have hid : (if w.AWTContext_instance = 0 then o.GetFieldID else w.AWTContext_instance) ≠ 0 := by
    split_ifs with hf
    · rcases h2 with h2 | h2
      · exact absurd hf h2
      · exact h2
    · exact hf
  cases op <;> simp [isConfigure] at hop <;>
    simp only [run, configureInsets, configurePixelFormat, configureMultisamples, he] <;>
    simp [hostReturn] <;>
    exact hid

/-- The format fields after a sequence of configuration calls, from any
    context that is not created. -/
theorem configure_seq (b : Backend) (ops : List (Op × Native)) (w : World)
    (hcfg : ∀ p ∈ ops, isConfigure p.1 = true)
    (hreach : ∀ p ∈ ops, holdsContext p.2 w)
    (hnot : w.ctx.contextCreated = false) :
    ((runSeq b ops w).ctx.alphaDepth, (runSeq b ops w).ctx.depthDepth,
        (runSeq b ops w).ctx.stencilDepth)
      = (lastPixelFormat (ops.map Prod.fst)).getD
          (w.ctx.alphaDepth, w.ctx.depthDepth, w.ctx.stencilDepth) ∧
    (runSeq b ops w).ctx.multisamples
      = (lastMultisamples (ops.map Prod.fst)).getD w.ctx.multisamples ∧
    (runSeq b ops w).ctx.contextCreated = false := by
  induction ops generalizing w with
  | nil => simp [runSeq, lastPixelFormat, lastMultisamples, hnot]
  | cons p rest ih =>
    obtain ⟨op, o⟩ := p
    have hop : isConfigure op = true := hcfg (op, o) (List.mem_cons_self _ _)
    have hc : holdsContext o w := hreach (op, o) (List.mem_cons_self _ _)
    obtain ⟨s1, s2, s3⟩ := configure_step b o op w hop hc hnot
    have hreach2 : ∀ q ∈ rest, holdsContext q.2 (run b o op (hostReturn w)).1 := by
      intro q _
      exact ⟨by rw [s2]; exact hc.1, Or.inl s3⟩
    have hnot2 : (run b o op (hostReturn w)).1.ctx.contextCreated = false := by
      rw [s1]
      cases op <;> simp [hnot]
    obtain ⟨i1, i2, i3⟩ := ih (run b o op (hostReturn w)).1
      (fun q hq => hcfg q (List.mem_cons_of_mem _ hq)) hreach2 hnot2
    simp only [runSeq, List.map_cons, lastPixelFormat, lastMultisamples]
    refine ⟨?_, ?_, i3⟩
    · rw [i1, s1]
      cases hl : lastPixelFormat (List.map Prod.fst rest) with
      | some v => simp
      | none => cases op <;> simp
    · rw [i2, s1]
      cases hl : lastMultisamples (List.map Prod.fst rest) with
      | some v => simp
      | none => cases op <;> simp

namespace Nix

/-- The visual-id scan: its log and its result. -/
theorem scanVisual_eq (o : Native) (v : Int) (cs : List GLXFBConfig) (w : World)
    (fb : Option GLXFBConfig) :
    scanVisual o v cs w fb
      = ({ w with trace := w.trace ++ scanEvents o v w.ctx.dpy cs },
          orKeep (firstVisualMatch o v cs) fb) := by
  induction cs generalizing w with
  | nil => simp [scanVisual, scanEvents, firstVisualMatch, orKeep]
  | cons c rest ih =>
    unfold scanVisual
    simp only
    split_ifs with h
    · simp [scanEvents, firstVisualMatch, orKeep, h, emit]
    · rw [ih]
      simp [scanEvents, firstVisualMatch, h, emit]

theorem requestFor_setDoubleBuffered (c : AWTContext) (x : Bool) :
    requestFor { c with doubleBuffered := x } = requestFor c := rfl

theorem glxAttribs_setDoubleBuffered (c : AWTContext) (x : Bool) :
    glxAttribs { c with doubleBuffered := x } = requestFor c x := rfl

/-- The search loop: it changes the record only in `doubleBuffered` and logs
    only its search calls. -/
theorem fbConfigLoop_eq (o : Native) (v : Int) (dbs : List Nat) (w : World)
    (fb : Option GLXFBConfig) :
    fbConfigLoop o v dbs w fb
      = ({ setCtx (fun c => { c with doubleBuffered :=
              (searchOutcome o v (requestFor w.ctx) dbs w.ctx.doubleBuffered fb).1 }) w with
            trace := w.trace ++ searchEvents o v w.ctx.dpy (requestFor w.ctx) dbs fb },
          (searchOutcome o v (requestFor w.ctx) dbs w.ctx.doubleBuffered fb).2) := by
  induction dbs generalizing w fb with
  | nil => simp [fbConfigLoop, searchOutcome, searchEvents, setCtx]
  | cons db rest ih =>
    unfold fbConfigLoop
    simp only [setCtx_ctx, emit_ctx, emit_trace, setCtx_trace, glxAttribs_setDoubleBuffered]
    cases hc : o.glXChooseFBConfig (requestFor w.ctx (decide (db = 0))) with
    | none =>
      simp only [ih, setCtx_ctx, emit_ctx, emit_trace, setCtx_trace,
        requestFor_setDoubleBuffered]
      simp [searchOutcome, searchEvents, hc, emit, setCtx]
    | some l =>
      simp only [scanVisual_eq, emit_ctx, emit_trace, setCtx_ctx, setCtx_trace]
      split_ifs with hs
      · simp [searchOutcome, searchEvents, hc, hs, emit, setCtx]
      · simp only [ih, emit_ctx, emit_trace, setCtx_ctx, setCtx_trace,
          requestFor_setDoubleBuffered]
        simp [searchOutcome, searchEvents, hc, hs, emit, setCtx]

@[simp] theorem fbConfigLoop_trace (o : Native) (v : Int) (dbs : List Nat) (w : World)
    (fb : Option GLXFBConfig) :
    (fbConfigLoop o v dbs w fb).1.trace
      = w.trace ++ searchEvents o v w.ctx.dpy (requestFor w.ctx) dbs fb := by
  rw [fbConfigLoop_eq]

@[simp] theorem fbConfigLoop_ctx (o : Native) (v : Int) (dbs : List Nat) (w : World)
    (fb : Option GLXFBConfig) :
    (fbConfigLoop o v dbs w fb).1.ctx
      = { w.ctx with doubleBuffered :=
          (searchOutcome o v (requestFor w.ctx) dbs w.ctx.doubleBuffered fb).1 } := by
  rw [fbConfigLoop_eq]
  rfl

@[simp] theorem fbConfigLoop_result (o : Native) (v : Int) (dbs : List Nat) (w : World)
    (fb : Option GLXFBConfig) :
    (fbConfigLoop o v dbs w fb).2
      = (searchOutcome o v (requestFor w.ctx) dbs w.ctx.doubleBuffered fb).2 := by
  rw [fbConfigLoop_eq]

@[simp] theorem fbConfigLoop_exception (o : Native) (v : Int) (dbs : List Nat) (w : World)
    (fb : Option GLXFBConfig) : (fbConfigLoop o v dbs w fb).1.exception = w.exception := by
  rw [fbConfigLoop_eq]
  rfl

@[simp] theorem fbConfigLoop_lastError (o : Native) (v : Int) (dbs : List Nat) (w : World)
    (fb : Option GLXFBConfig) : (fbConfigLoop o v dbs w fb).1.lastError = w.lastError := by
  rw [fbConfigLoop_eq]
  rfl

@[simp] theorem fbConfigLoop_selfInstance (o : Native) (v : Int) (dbs : List Nat) (w : World)
    (fb : Option GLXFBConfig) :
    (fbConfigLoop o v dbs w fb).1.selfInstance = w.selfInstance := by
  rw [fbConfigLoop_eq]
  rfl

end Nix

/-! ## The GLX `createGLContext` equals its summaries -/

namespace Nix

@[simp] theorem makeCurrent_trace (o : Native) (dpy drawable context : Nat) (w : World) :
    (makeCurrent o dpy drawable context w).1.trace
      = w.trace ++ [Event.glXMakeCurrent dpy drawable context] := by
  unfold makeCurrent
  simp only
  split_ifs <;> simp

@[simp] theorem makeCurrent_ctx (o : Native) (dpy drawable context : Nat) (w : World) :
    (makeCurrent o dpy drawable context w).1.ctx = w.ctx := by
  unfold makeCurrent
  simp only
  split_ifs <;> simp

@[simp] theorem makeCurrent_selfInstance (o : Native) (dpy drawable context : Nat) (w : World) :
    (makeCurrent o dpy drawable context w).1.selfInstance = w.selfInstance := by
  unfold makeCurrent
  simp only
  split_ifs <;> simp

@[simp] theorem makeCurrent_ok (o : Native) (dpy drawable context : Nat) (w : World) :
    (makeCurrent o dpy drawable context w).2 = o.glXMakeCurrent drawable context := by
  unfold makeCurrent
  simp only
  split_ifs with h
  · simpa using h
  · simpa using h

@[simp] theorem probeSwapControl_trace (o : Native) (w : World) :
    (probeSwapControl o w).trace = w.trace ++ probeEvents o := by
  unfold probeSwapControl probeEvents
  split_ifs <;> simp

@[simp] theorem probeSwapControl_ctx (o : Native) (w : World) :
    (probeSwapControl o w).ctx = probeCtx o w.ctx := by
  unfold probeSwapControl probeCtx
  split_ifs <;> simp

@[simp] theorem probeSwapControl_selfInstance (o : Native) (w : World) :
    (probeSwapControl o w).selfInstance = w.selfInstance := by
  unfold probeSwapControl
  split_ifs <;> simp

@[simp] theorem probeSwapControl_exception (o : Native) (w : World) :
    (probeSwapControl o w).exception = w.exception := by
  unfold probeSwapControl
  split_ifs <;> simp

@[simp] theorem probeCtx_frame (o : Native) (c : AWTContext) :
    (probeCtx o c).ds = c.ds ∧ (probeCtx o c).dpy = c.dpy ∧
    (probeCtx o c).drawable = c.drawable ∧ (probeCtx o c).context = c.context ∧
    (probeCtx o c).contextCreated = c.contextCreated ∧
    (probeCtx o c).doubleBuffered = c.doubleBuffered := by
  unfold probeCtx
  split_ifs <;> simp

@[simp] theorem createNative_trace (o : Native) (fb : GLXFBConfig) (w : World) :
    (createNative o fb w).trace = w.trace ++ createNativeEvents o w.ctx.dpy fb := by
  unfold createNative createNativeEvents usesARB
  simp only
  split_ifs <;> simp_all

@[simp] theorem createNative_ctx (o : Native) (fb : GLXFBConfig) (w : World) :
    (createNative o fb w).ctx = { w.ctx with context := createdHandle o fb } := by
  unfold createNative createdHandle usesARB
  simp only
  split_ifs <;> simp_all

@[simp] theorem createNative_selfInstance (o : Native) (fb : GLXFBConfig) (w : World) :
    (createNative o fb w).selfInstance = w.selfInstance := by
  unfold createNative
  simp only
  split_ifs <;> simp

@[simp] theorem createNative_exception (o : Native) (fb : GLXFBConfig) (w : World) :
    (createNative o fb w).exception = w.exception := by
  unfold createNative
  simp only
  split_ifs <;> simp

@[simp] theorem finishCreate_trace (o : Native) (old : XErrorHandler) (dsi : Nat) (w : World) :
    (finishCreate o old dsi w).trace
      = w.trace ++ [Event.FreeDrawingSurfaceInfo dsi, Event.XSync w.ctx.dpy,
          Event.XSetErrorHandler old, Event.dsUnlock w.ctx.ds, Event.awtUnlock] := by
  simp [finishCreate]

@[simp] theorem finishCreate_ctx (o : Native) (old : XErrorHandler) (dsi : Nat) (w : World) :
    (finishCreate o old dsi w).ctx = { w.ctx with contextCreated := true } := by
  simp [finishCreate]

@[simp] theorem finishCreate_selfInstance (o : Native) (old : XErrorHandler) (dsi : Nat)
    (w : World) : (finishCreate o old dsi w).selfInstance = w.selfInstance := by
  simp [finishCreate]

@[simp] theorem finishCreate_exception (o : Native) (old : XErrorHandler) (dsi : Nat)
    (w : World) : (finishCreate o old dsi w).exception = w.exception := by
  simp [finishCreate]

theorem createWithConfig_trace (o : Native) (old : XErrorHandler) (dsi : Nat)
    (fb : GLXFBConfig) (w : World) :
    (createWithConfig o old dsi fb w).trace
      = w.trace ++ createWithConfigEvents o old dsi fb w.ctx := by
  unfold createWithConfig createWithConfigEvents unwindDisplay unwindDSI
  simp only [createNative_ctx, makeCurrent_ok]
  split_ifs <;> simp_all

theorem createWithConfig_ctx (o : Native) (old : XErrorHandler) (dsi : Nat)
    (fb : GLXFBConfig) (w : World) :
    (createWithConfig o old dsi fb w).ctx = createWithConfigCtx o fb w.ctx := by
  unfold createWithConfig createWithConfigCtx
  simp only [createNative_ctx, makeCurrent_ok]
  split_ifs <;> simp_all

theorem createWithConfig_selfInstance (o : Native) (old : XErrorHandler) (dsi : Nat)
    (fb : GLXFBConfig) (w : World) :
    (createWithConfig o old dsi fb w).selfInstance = w.selfInstance := by
  unfold createWithConfig
  simp only
  split_ifs <;> simp

@[simp] theorem createWithConfigEvents_setDoubleBuffered (o : Native) (old : XErrorHandler)
    (dsi : Nat) (fb : GLXFBConfig) (c : AWTContext) (x : Bool) :
    createWithConfigEvents o old dsi fb { c with doubleBuffered := x }
      = createWithConfigEvents o old dsi fb c := rfl

theorem searchAndCreate_trace (o : Native) (old : XErrorHandler) (dsi : Nat) (v : Int)
    (w : World) :
    (searchAndCreate o old dsi v w).trace = w.trace ++ searchAndCreateEvents o old dsi v w.ctx := by
  unfold searchAndCreate searchAndCreateEvents searchResult unwindDisplay unwindDSI
  simp only [fbConfigLoop_result]
  split <;> simp [createWithConfig_trace]

theorem searchAndCreate_ctx (o : Native) (old : XErrorHandler) (dsi : Nat) (v : Int)
    (w : World) :
    (searchAndCreate o old dsi v w).ctx = searchAndCreateCtx o v w.ctx := by
  unfold searchAndCreate searchAndCreateCtx searchResult
  simp only [fbConfigLoop_result]
  split <;> simp [createWithConfig_ctx]

theorem searchAndCreate_selfInstance (o : Native) (old : XErrorHandler) (dsi : Nat) (v : Int)
    (w : World) : (searchAndCreate o old dsi v w).selfInstance = w.selfInstance := by
  unfold searchAndCreate
  simp only
  split <;> simp [createWithConfig_selfInstance]

theorem createWithSurface_trace (o : Native) (old : XErrorHandler) (dsi : Nat)
    (dspi : JAWT_X11DrawingSurfaceInfo) (w : World) :
    (createWithSurface o old dsi dspi w).trace
      = w.trace ++ createWithSurfaceEvents o old dsi dspi w.ctx := by
  unfold createWithSurface createWithSurfaceEvents unwindDisplay unwindDSI
  simp only [setCtx_ctx, emit_ctx]
  split_ifs <;> simp_all [searchAndCreate_trace]

theorem createWithSurface_ctx (o : Native) (old : XErrorHandler) (dsi : Nat)
    (dspi : JAWT_X11DrawingSurfaceInfo) (w : World) :
    (createWithSurface o old dsi dspi w).ctx = createWithSurfaceCtx o dspi w.ctx := by
  unfold createWithSurface createWithSurfaceCtx
  simp only [setCtx_ctx, emit_ctx]
  split_ifs <;> simp_all [searchAndCreate_ctx]

theorem createWithSurface_selfInstance (o : Native) (old : XErrorHandler) (dsi : Nat)
    (dspi : JAWT_X11DrawingSurfaceInfo) (w : World) :
    (createWithSurface o old dsi dspi w).selfInstance = w.selfInstance := by
  unfold createWithSurface
  simp only
  split_ifs <;> simp [searchAndCreate_selfInstance]

/-- The log of the GLX `createGLContext`: nothing when the guard stops it,
    else the summary `createEvents`. -/
theorem createGLContext_trace (o : Native) (w : World) :
    (createGLContext o w).1.trace
      = w.trace ++ (if (enter .unix o false w).2 then createEvents o w.xErrorHandler w.ctx
          else []) := by
  unfold createGLContext createEvents unwindDSI
  simp only [XSetErrorHandler_ctx, XSetErrorHandler_old, emit_xErrorHandler, emit_ctx, enter_ctx,
    enter_xErrorHandler]
  by_cases hg : (enter .unix o false w).2 = true
  · simp only [hg, not_true_eq_false, if_false, if_true]
    by_cases h2 : o.dsLock &&& JAWT_LOCK_ERROR ≠ 0
    · simp [h2]
    · by_cases h3 : o.dsi = 0
      · simp [h2, h3]
      · cases hx11 : o.x11Info with
        | none => simp [h2, h3]
        | some dspi =>
          by_cases h4 : dspi.display = 0 ∨ dspi.drawable = 0
          · simp [h2, h3, h4]
          · simp [h2, h3, h4, createWithSurface_trace]
  · simp [hg]

/-- The record after the GLX `createGLContext`. -/
theorem createGLContext_ctx (o : Native) (w : World) :
    (createGLContext o w).1.ctx
      = if (enter .unix o false w).2 then createCtx o w.ctx else w.ctx := by
  unfold createGLContext createCtx
  simp only [XSetErrorHandler_ctx, emit_ctx, enter_ctx]
  by_cases hg : (enter .unix o false w).2 = true
  · simp only [hg, not_true_eq_false, if_false, if_true]
    by_cases h2 : o.dsLock &&& JAWT_LOCK_ERROR ≠ 0
    · simp [h2]
    · by_cases h3 : o.dsi = 0
      · simp [h2, h3]
      · cases hx11 : o.x11Info with
        | none => simp [h2, h3]
        | some dspi =>
          by_cases h4 : dspi.display = 0 ∨ dspi.drawable = 0
          · simp [h2, h3, h4]
          · simp [h2, h3, h4, createWithSurface_ctx]
  · simp [hg]

theorem createGLContext_selfInstance (o : Native) (w : World) :
    (createGLContext o w).1.selfInstance = w.selfInstance := by
  unfold createGLContext
  simp only
  by_cases hg : (enter .unix o false w).2 = true
  · simp only [hg, not_true_eq_false, if_false]
    by_cases h2 : o.dsLock &&& JAWT_LOCK_ERROR ≠ 0
    · simp [h2, enter_selfInstance]
    · by_cases h3 : o.dsi = 0
      · simp [h2, h3, enter_selfInstance]
      · cases hx11 : o.x11Info with
        | none => simp [h2, h3, enter_selfInstance]
        | some dspi =>
          by_cases h4 : dspi.display = 0 ∨ dspi.drawable = 0
          · simp [h2, h3, h4, enter_selfInstance]
          · simp [h2, h3, h4, createWithSurface_selfInstance, enter_selfInstance]
  · simp [hg, enter_selfInstance]

end Nix
/-! ## The WGL `createGLContext` equals its summaries -/

namespace Win

@[simp] theorem wgl_makeCurrent_trace (o : Native) (dc context : Nat) (w : World) :
    (makeCurrent o dc context w).1.trace = w.trace ++ [Event.wglMakeCurrent dc context] := by
  unfold makeCurrent
  simp only
  split_ifs <;> simp

@[simp] theorem wgl_makeCurrent_ctx (o : Native) (dc context : Nat) (w : World) :
    (makeCurrent o dc context w).1.ctx = w.ctx := by
  unfold makeCurrent
  simp only
  split_ifs <;> simp

@[simp] theorem wgl_makeCurrent_selfInstance (o : Native) (dc context : Nat) (w : World) :
    (makeCurrent o dc context w).1.selfInstance = w.selfInstance := by
  unfold makeCurrent
  simp only
  split_ifs <;> simp

@[simp] theorem wgl_makeCurrent_ok (o : Native) (dc context : Nat) (w : World) :
    (makeCurrent o dc context w).2 = o.wglMakeCurrent context := by
  unfold makeCurrent
  simp only
  split_ifs with h
  · simpa using h
  · simpa using h

@[simp] theorem wgl_unlock_trace (w : World) :
    (unlock w).trace = w.trace ++ [Event.dsUnlock w.ctx.ds] := by
  simp [unlock]

@[simp] theorem wgl_unlock_ctx (w : World) : (unlock w).ctx = w.ctx := by
  simp [unlock]

@[simp] theorem wgl_unlock_selfInstance (w : World) : (unlock w).selfInstance = w.selfInstance := by
  simp [unlock]

@[simp] theorem wgl_unlock_exception (w : World) : (unlock w).exception = w.exception := by
  unfold unlock
  exact rethrow_exception _ _ rfl

@[simp] theorem wgl_freeContext_trace (w : World) :
    (freeContext w).trace
      = w.trace ++ [Event.wglDeleteContext w.ctx.context, Event.dsUnlock w.ctx.ds] := by
  simp [freeContext]

@[simp] theorem wgl_freeContext_ctx (w : World) : (freeContext w).ctx = w.ctx := by
  simp [freeContext]

@[simp] theorem wgl_freeContext_selfInstance (w : World) :
    (freeContext w).selfInstance = w.selfInstance := by
  simp [freeContext]

@[simp] theorem wgl_freeContext_exception (w : World) :
    (freeContext w).exception = w.exception := by
  simp [freeContext]

@[simp] theorem wgl_probeSwapControl_trace (o : Native) (w : World) :
    (probeSwapControl o w).trace = w.trace ++ probeEvents o := by
  unfold probeSwapControl probeEvents
  simp only
  split_ifs <;> simp

@[simp] theorem wgl_probeSwapControl_ctx (o : Native) (w : World) :
    (probeSwapControl o w).ctx = probeCtx o w.ctx := by
  unfold probeSwapControl probeCtx
  simp only
  split_ifs <;> simp_all

@[simp] theorem wgl_probeSwapControl_selfInstance (o : Native) (w : World) :
    (probeSwapControl o w).selfInstance = w.selfInstance := by
  unfold probeSwapControl
  simp only
  split_ifs <;> simp

@[simp] theorem wgl_probeSwapControl_exception (o : Native) (w : World) :
    (probeSwapControl o w).exception = w.exception := by
  unfold probeSwapControl
  simp only
  split_ifs <;> simp

@[simp] theorem wgl_probeCtx_frame (o : Native) (c : AWTContext) :
    (probeCtx o c).ds = c.ds ∧ (probeCtx o c).dsi = c.dsi ∧ (probeCtx o c).dspi = c.dspi ∧
    (probeCtx o c).context = c.context ∧
    (probeCtx o c).contextCreated = c.contextCreated := by
  unfold probeCtx
  split_ifs <;> simp

theorem createWithDC_trace (o : Native) (hdc : Nat) (w : World) :
    (createWithDC o hdc w).trace = w.trace ++ createWithDCEvents o hdc w.ctx := by
  unfold createWithDC createWithDCEvents
  simp only [wgl_makeCurrent_ok, setCtx_ctx, emit_ctx, wgl_makeCurrent_ctx]
  split_ifs <;> simp_all

theorem createWithDC_ctx (o : Native) (hdc : Nat) (w : World) :
    (createWithDC o hdc w).ctx = createWithDCCtx o w.ctx := by
  unfold createWithDC createWithDCCtx
  simp only [wgl_makeCurrent_ok, setCtx_ctx, emit_ctx, wgl_makeCurrent_ctx]
  split_ifs <;> simp_all

theorem createWithDC_selfInstance (o : Native) (hdc : Nat) (w : World) :
    (createWithDC o hdc w).selfInstance = w.selfInstance := by
  unfold createWithDC
  simp only
  split_ifs <;> simp

theorem surface_cond (o : Native) (c : AWTContext) :
    ((({ c with dsi := o.dsi, dspi := o.win32Info } : AWTContext).dspi.isNone = true ∨
      hdcOf { c with dsi := o.dsi, dspi := o.win32Info } = 0) ↔ noDC o = true) ∧
    hdcOf { c with dsi := o.dsi, dspi := o.win32Info } = dcOf o := by
  unfold hdcOf noDC dcOf
  cases o.win32Info <;> simp

theorem noDC_iff (o : Native) : (o.win32Info = none ∨ dcOf o = 0) ↔ noDC o = true := by
  unfold noDC dcOf
  cases o.win32Info <;> simp

/-- The log of the WGL `createGLContext`: nothing when the guard stops it,
    else the summary `createEvents`. -/
theorem wgl_createGLContext_trace (o : Native) (w : World) :
    (createGLContext o w).1.trace
      = w.trace ++ (if (enter .win32 o false w).2 then createEvents o w.ctx else []) := by
  unfold createGLContext createEvents
  simp only [emit_ctx, enter_ctx, setCtx_ctx, (surface_cond o w.ctx).1, (surface_cond o w.ctx).2]
  by_cases hg : (enter .win32 o false w).2 = true
  · simp only [hg, not_true_eq_false, if_false, if_true]
    by_cases h2 : o.dsLock &&& JAWT_LOCK_ERROR ≠ 0
    · simp [h2]
    · by_cases h3 : o.dsi = 0
      · simp [h2, h3]
      · by_cases h4 : noDC o = true
        · simp [h2, h3, h4, noDC_iff]
        · simp [h2, h3, h4, noDC_iff, createWithDC_trace]
  · simp [hg]

/-- The record after the WGL `createGLContext`. -/
theorem wgl_createGLContext_ctx (o : Native) (w : World) :
    (createGLContext o w).1.ctx
      = if (enter .win32 o false w).2 then createCtx o w.ctx else w.ctx := by
  unfold createGLContext createCtx
  simp only [emit_ctx, enter_ctx, setCtx_ctx, (surface_cond o w.ctx).1, (surface_cond o w.ctx).2]
  by_cases hg : (enter .win32 o false w).2 = true
  · simp only [hg, not_true_eq_false, if_false, if_true]
    by_cases h2 : o.dsLock &&& JAWT_LOCK_ERROR ≠ 0
    · simp [h2]
    · by_cases h3 : o.dsi = 0
      · simp [h2, h3]
      · by_cases h4 : noDC o = true
        · simp [h2, h3, h4, noDC_iff]
        · simp [h2, h3, h4, noDC_iff, createWithDC_ctx]
  · simp [hg]

theorem wgl_createGLContext_selfInstance (o : Native) (w : World) :
    (createGLContext o w).1.selfInstance = w.selfInstance := by
  unfold createGLContext
  simp only
  by_cases hg : (enter .win32 o false w).2 = true
  · simp only [hg, not_true_eq_false, if_false]
    split_ifs <;> simp [enter_selfInstance, createWithDC_selfInstance]
  · simp [hg, enter_selfInstance]

end Win

/-! ## The outcome of the GLX `createGLContext` -/

theorem rlawtThrow_failsWith (b : Backend) (o : Native) (m : String) (w : World)
    (h : w.exception = none) : failsWith m (rlawtThrow b o m w) :=
  ⟨nativeSuffix b o w, rlawtThrow_exception b o m w h⟩

theorem failsWith_congr (cause : String) (w1 w2 : World) (h : w1.exception = w2.exception) :
    failsWith cause w1 ↔ failsWith cause w2 := by
  unfold failsWith
  rw [h]

theorem outcomeIs_congr (cause : Option String) (w1 w2 : World)
    (h : w1.exception = w2.exception) : outcomeIs cause w1 ↔ outcomeIs cause w2 := by
  cases cause with
  | none => simp [outcomeIs, h]
  | some c => exact failsWith_congr c w1 w2 h

namespace Nix

theorem unlock_failsWith (cause : String) (o : Native) (old : XErrorHandler) (w : World)
    (h : w.exception = none) : failsWith cause (unlock old (rlawtThrow .unix o cause w)) :=
  (failsWith_congr _ _ _ (by simp)).mpr (rlawtThrow_failsWith .unix o cause w h)

theorem unlockDS_failsWith (cause : String) (o : Native) (old : XErrorHandler) (w : World)
    (h : w.exception = none) : failsWith cause (unlockDS old (rlawtThrow .unix o cause w)) :=
  (failsWith_congr _ _ _ (by simp)).mpr (rlawtThrow_failsWith .unix o cause w h)

theorem freeDSI_failsWith (cause : String) (o : Native) (old : XErrorHandler) (dsi : Nat)
    (w : World) (h : w.exception = none) :
    failsWith cause (freeDSI old dsi (rlawtThrow .unix o cause w)) :=
  (failsWith_congr _ _ _ (by simp)).mpr (rlawtThrow_failsWith .unix o cause w h)

theorem freeDisplay_failsWith (cause : String) (o : Native) (old : XErrorHandler) (dsi : Nat)
    (w : World) (h : w.exception = none) :
    failsWith cause (freeDisplay o old dsi (rlawtThrow .unix o cause w)) :=
  (failsWith_congr _ _ _ (by simp)).mpr (rlawtThrow_failsWith .unix o cause w h)

theorem makeCurrent_outcome (o : Native) (dpy drawable context : Nat) (w : World)
    (h : w.exception = none) :
    outcomeIs (if o.glXMakeCurrent drawable context then none else some "unable to make current")
      (makeCurrent o dpy drawable context w).1 := by
  unfold makeCurrent
  by_cases h1 : o.glXMakeCurrent drawable context = true
  · simp [h1, outcomeIs, h]
  · simp only [h1, not_false_eq_true, if_true, if_false, outcomeIs]
    exact rlawtThrow_failsWith _ _ _ _ (by simp [h])

theorem createWithConfig_outcome (o : Native) (old : XErrorHandler) (dsi : Nat)
    (fb : GLXFBConfig) (w : World) (h : w.exception = none) :
    outcomeIs (createWithConfigCause o fb w.ctx) (createWithConfig o old dsi fb w) := by
  unfold createWithConfig createWithConfigCause
  simp only [createNative_ctx, makeCurrent_ok]
  have hn : (createNative o fb w).exception = none := by simp [h]
  by_cases h1 : createdHandle o fb = 0
  · simp only [h1, if_true, outcomeIs]
    exact freeDisplay_failsWith _ _ _ _ _ hn
  · have hm := makeCurrent_outcome o w.ctx.dpy w.ctx.drawable (createdHandle o fb)
      (createNative o fb w) hn
    by_cases h2 : o.glXMakeCurrent w.ctx.drawable (createdHandle o fb) = true
    · simp only [h1, h2, if_true, if_false, not_true_eq_false] at hm ⊢
      refine (outcomeIs_congr _ _ _ ?_).mpr hm
      simp
    · simp only [h1, h2, if_false, if_true, not_false_eq_true] at hm ⊢
      refine (outcomeIs_congr _ _ _ ?_).mpr hm
      simp

theorem searchAndCreate_outcome (o : Native) (old : XErrorHandler) (dsi : Nat) (v : Int)
    (w : World) (c : AWTContext) (hc : w.ctx = c) (h : w.exception = none) :
    outcomeIs (searchAndCreateCause o v c) (searchAndCreate o old dsi v w) := by
  subst hc
  unfold searchAndCreate searchAndCreateCause searchResult
  simp only [fbConfigLoop_result]
  have hn : (fbConfigLoop o v [0, 1] w none).1.exception = none := by simp [h]
  split
  · exact freeDisplay_failsWith _ _ _ _ _ hn
  · rename_i fb hfb
    have hcc := createWithConfig_outcome o old dsi fb (fbConfigLoop o v [0, 1] w none).1 hn
    simpa [createWithConfigCause] using hcc

theorem createWithSurface_outcome (o : Native) (old : XErrorHandler) (dsi : Nat)
    (dspi : JAWT_X11DrawingSurfaceInfo) (w : World) (c : AWTContext) (hc : w.ctx = c)
    (h : w.exception = none) :
    outcomeIs (createWithSurfaceCause o dspi c) (createWithSurface o old dsi dspi w) := by
  subst hc
  unfold createWithSurface createWithSurfaceCause
  simp only [setCtx_ctx, emit_ctx]
  by_cases h1 : o.XOpenDisplay = 0
  · simp only [h1, if_true, outcomeIs]
    refine freeDSI_failsWith _ _ _ _ _ ?_
    simp [h]
  · by_cases h2 : o.glXQueryExtension = true
    · simp only [h1, h2, if_true, if_false, not_true_eq_false]
      refine searchAndCreate_outcome o old dsi dspi.visualID _ _ ?_ ?_
      · simp
      · simp [h]
    · simp only [h1, h2, if_true, if_false, not_false_eq_true, outcomeIs]
      refine freeDisplay_failsWith _ _ _ _ _ ?_
      simp [h]

/-- The outcome of the GLX `createGLContext` on a context that is not
    created, entered with no exception pending. -/
theorem createGLContext_outcome (o : Native) (w : World) (hc : holdsContext o w)
    (hnot : w.ctx.contextCreated = false) (hexc : w.exception = none) :
    outcomeIs (createCause o w.ctx) (createGLContext o w).1 := by
  have he := enter_right_state .unix o false w hc hnot
  have hg : (enter .unix o false w).2 = true := by rw [he]
  have hx : (enter .unix o false w).1.exception = none := by rw [he]; exact hexc
  unfold createGLContext createCause
  simp only [hg, not_true_eq_false, if_false]
  by_cases h2 : o.dsLock &&& JAWT_LOCK_ERROR ≠ 0
  · simp only [h2, ne_eq, not_false_eq_true, not_true_eq_false, if_true, if_false, outcomeIs]
    refine unlock_failsWith _ _ _ _ ?_
    simp [hx]
  · by_cases h3 : o.dsi = 0
    · simp only [h2, h3, ne_eq, not_false_eq_true, not_true_eq_false, if_true, if_false, outcomeIs]
      refine unlockDS_failsWith _ _ _ _ ?_
      simp [hx]
    · cases hx11 : o.x11Info with
      | none =>
        simp only [h2, h3, ne_eq, not_false_eq_true, not_true_eq_false, if_true, if_false, outcomeIs]
        refine freeDSI_failsWith _ _ _ _ _ ?_
        simp [hx]
      | some dspi =>
        by_cases h4 : dspi.display = 0 ∨ dspi.drawable = 0
        · simp only [h2, h3, h4, ne_eq, not_false_eq_true, not_true_eq_false, if_true, if_false, outcomeIs]
          refine freeDSI_failsWith _ _ _ _ _ ?_
          simp [hx]
        · simp only [h2, h3, h4, ne_eq, not_false_eq_true, not_true_eq_false, if_true, if_false]
          refine createWithSurface_outcome o _ o.dsi dspi _ _ ?_ ?_
          · simp
          · simp [hx]

end Nix
/-! ## C1, C2: the state guards -/

/-- C1. On both backends, every created-only operation (getGLContext,
    getCGLShareGroup, getGLXDisplay, getWGLHDC, getFramebuffer,
    setSwapInterval, makeCurrent, detachCurrent, swapBuffers) called on a
    context whose `contextCreated` flag is false raises the invalid-state
    error with cause "context must be already created" (followed only by the
    native error text `rlawtThrow` appends, which is empty when no native
    error is recorded), returns 0, and leaves the context record, the log of
    toolkit and native calls (so no lock is taken and no GL/GLX/WGL call
    made), the host's handle and the X error handler unchanged. -/
theorem created_only_rejected_when_not_created (b : Backend) (o : Native) (op : Op) (w : World)
    (hop : createdOnly op = true) (hc : holdsContext o w) (hexc : w.exception = none)
    (hnot : w.ctx.contextCreated = false) :
    (run b o op w).1.exception = some ⟨RuntimeException,
      "context must be already created" ++ nativeSuffix b o w⟩ ∧
    (run b o op w).2 = 0 ∧
    (run b o op w).1.ctx = w.ctx ∧
    (run b o op w).1.trace = w.trace ∧
    (run b o op w).1.selfInstance = w.selfInstance ∧
    (run b o op w).1.xErrorHandler = w.xErrorHandler := by
  have hs : w.ctx.contextCreated ≠ true := by simp [hnot]
  obtain ⟨e1, e2, e3, e4, e5, e6⟩ := enter_wrong_state b o true w hc hs
  have e7 := e6 hexc
  simp only [if_true] at e7
  cases op <;> simp [createdOnly] at hop <;> cases b <;>
    simp [run, getGLContext, getCGLShareGroup, getGLXDisplay, getWGLHDC, getFramebuffer,
      Nix.setSwapInterval, Win.setSwapInterval, Nix.makeCurrentOp, Win.makeCurrentOp,
      Nix.detachCurrent, Win.detachCurrent, Nix.swapBuffers, Win.swapBuffers,
      e1, e2, e3, e4, e5, e7]

/-- Witness for C1: `swapBuffers` on the fresh sample context, GLX backend. -/
theorem created_only_rejected_when_not_created_witness :
    (run .unix sampleNative .swapBuffers sampleWorld).1.exception = some ⟨RuntimeException,
      "context must be already created" ++ nativeSuffix .unix sampleNative sampleWorld⟩ ∧
    (run .unix sampleNative .swapBuffers sampleWorld).2 = 0 ∧
    (run .unix sampleNative .swapBuffers sampleWorld).1.ctx = sampleWorld.ctx ∧
    (run .unix sampleNative .swapBuffers sampleWorld).1.trace = sampleWorld.trace ∧
    (run .unix sampleNative .swapBuffers sampleWorld).1.selfInstance = sampleWorld.selfInstance ∧
    (run .unix sampleNative .swapBuffers sampleWorld).1.xErrorHandler
      = sampleWorld.xErrorHandler :=
  created_only_rejected_when_not_created .unix sampleNative .swapBuffers sampleWorld
    (by decide) (by decide) (by decide) (by decide)

/-- C2. On both backends, every pre-creation-only operation (configureInsets,
    configurePixelFormat, configureMultisamples, createGLContext) called on a
    context whose `contextCreated` flag is true raises the invalid-state error
    with cause "context cannot be created" (followed only by the native error
    text `rlawtThrow` appends, empty when no native error is recorded),
    returns 0 and leaves the whole context record unchanged (the format
    fields, the native context handle, the display and drawable fields), as
    well as the log of toolkit and native calls, the host's handle and the X
    error handler. -/
theorem pre_creation_only_rejected_when_created (b : Backend) (o : Native) (op : Op) (w : World)
    (hop : preCreationOnly op = true) (hc : holdsContext o w) (hexc : w.exception = none)
    (hcr : w.ctx.contextCreated = true) :
    (run b o op w).1.exception = some ⟨RuntimeException,
      "context cannot be created" ++ nativeSuffix b o w⟩ ∧
    (run b o op w).2 = 0 ∧
    (run b o op w).1.ctx = w.ctx ∧
    (run b o op w).1.trace = w.trace ∧
    (run b o op w).1.selfInstance = w.selfInstance ∧
    (run b o op w).1.xErrorHandler = w.xErrorHandler := by
  have hs : w.ctx.contextCreated ≠ false := by simp [hcr]
  obtain ⟨e1, e2, e3, e4, e5, e6⟩ := enter_wrong_state b o false w hc hs
  have e7 := e6 hexc
  simp only [Bool.false_eq_true, if_false] at e7
  cases op <;> simp [preCreationOnly] at hop <;> cases b <;>
    simp [run, configureInsets, configurePixelFormat, configureMultisamples,
      Nix.createGLContext, Win.createGLContext, e1, e2, e3, e4, e5, e7]

/-- Witness for C2: a second `createGLContext` on the created sample context,
    GLX backend. -/
theorem pre_creation_only_rejected_when_created_witness :
    (run .unix sampleNative .createGLContext sampleCreatedNix).1.exception
      = some ⟨RuntimeException,
        "context cannot be created" ++ nativeSuffix .unix sampleNative sampleCreatedNix⟩ ∧
    (run .unix sampleNative .createGLContext sampleCreatedNix).2 = 0 ∧
    (run .unix sampleNative .createGLContext sampleCreatedNix).1.ctx = sampleCreatedNix.ctx ∧
    (run .unix sampleNative .createGLContext sampleCreatedNix).1.trace
      = sampleCreatedNix.trace ∧
    (run .unix sampleNative .createGLContext sampleCreatedNix).1.selfInstance
      = sampleCreatedNix.selfInstance ∧
    (run .unix sampleNative .createGLContext sampleCreatedNix).1.xErrorHandler
      = sampleCreatedNix.xErrorHandler :=
  pre_creation_only_rejected_when_created .unix sampleNative .createGLContext sampleCreatedNix
    (by decide) (by decide) (by decide) (by decide)

/-! ## C3: the format request -/

theorem chooseRequests_append (t u : List Event) :
    chooseRequests (t ++ u) = chooseRequests t ++ chooseRequests u := by
  simp [chooseRequests, List.filterMap_append]

theorem chooseRequests_cons (e : Event) (t : List Event) :
    chooseRequests (e :: t)
      = (match e with
          | .glXChooseFBConfig _ a => [a]
          | _ => []) ++ chooseRequests t := by
  cases e <;> simp [chooseRequests, List.filterMap_cons]

theorem chooseRequests_scanEvents (o : Native) (v : Int) (dpy : Nat) (l : List GLXFBConfig) :
    chooseRequests (scanEvents o v dpy l) = [] := by
  induction l with
  | nil => rfl
  | cons c rest ih =>
    unfold scanEvents
    split_ifs
    · rfl
    · simpa [chooseRequests] using ih

/-- Every request of the search is the attribute list for one buffering mode. -/
theorem chooseRequests_searchEvents (o : Native) (v : Int) (dpy : Nat)
    (attribs : Bool → List Int) (dbs : List Nat) (fb : Option GLXFBConfig) :
    ∀ a ∈ chooseRequests (searchEvents o v dpy attribs dbs fb), ∃ d, a = attribs d := by
  induction dbs generalizing fb with
  | nil => simp [searchEvents, chooseRequests]
  | cons db rest ih =>
    intro a ha
    unfold searchEvents at ha
    have hcons : ∀ (e : Event) (t : List Event),
        chooseRequests (e :: t) = chooseRequests [e] ++ chooseRequests t := fun e t =>
      chooseRequests_append [e] t
    rw [hcons] at ha
    rcases List.mem_append.mp ha with ha | ha
    · exact ⟨decide (db = 0), by simpa [chooseRequests] using ha⟩
    · split at ha
      · exact ih fb a ha
      · rw [chooseRequests_append, chooseRequests_scanEvents, hcons] at ha
        split_ifs at ha
        · simp [chooseRequests] at ha
        · simp only [List.nil_append] at ha
          rcases List.mem_append.mp ha with ha | ha
          · simp [chooseRequests] at ha
          · exact ih _ a ha

/-- The attribute list carries the four format values of the record. -/
theorem glxAttribs_carry (c : AWTContext) :
    attribValue GLX_ALPHA_SIZE (Nix.glxAttribs c) = some c.alphaDepth ∧
    attribValue GLX_DEPTH_SIZE (Nix.glxAttribs c) = some c.depthDepth ∧
    attribValue GLX_STENCIL_SIZE (Nix.glxAttribs c) = some c.stencilDepth ∧
    attribValue GLX_SAMPLES (Nix.glxAttribs c) = some c.multisamples ∧
    attribValue GLX_SAMPLE_BUFFERS (Nix.glxAttribs c)
      = some (boolToInt (decide (c.multisamples > 0))) := by
  refine ⟨?_, ?_, ?_, ?_, ?_⟩ <;> rfl

namespace Nix

theorem chooseRequests_createWithConfigEvents (o : Native) (old : XErrorHandler) (dsi : Nat)
    (fb : GLXFBConfig) (c : AWTContext) :
    chooseRequests (createWithConfigEvents o old dsi fb c) = [] := by
  unfold createWithConfigEvents createNativeEvents unwindDisplay unwindDSI probeEvents
  split_ifs <;> simp [chooseRequests, List.filterMap_append]

theorem chooseRequests_searchAndCreateEvents (o : Native) (old : XErrorHandler) (dsi : Nat)
    (v : Int) (c : AWTContext) :
    chooseRequests (searchAndCreateEvents o old dsi v c)
      = chooseRequests (searchEvents o v c.dpy (requestFor c) [0, 1] none) := by
  unfold searchAndCreateEvents
  rw [chooseRequests_append]
  split
  · simp [chooseRequests, unwindDisplay, unwindDSI]
  · simp [chooseRequests_createWithConfigEvents]

theorem requestFor_setSurface (c : AWTContext) (x y : Nat) :
    requestFor { c with drawable := x, dpy := y } = requestFor c := rfl

/-- Every request `createGLContext` issues is built from the record at entry. -/
theorem chooseRequests_createEvents (o : Native) (old : XErrorHandler) (c : AWTContext) :
    ∀ a ∈ chooseRequests (createEvents o old c), ∃ d, a = requestFor c d := by
  intro a ha
  unfold createEvents createWithSurfaceEvents at ha
  by_cases h2 : o.dsLock &&& JAWT_LOCK_ERROR ≠ 0
  · simp [h2, chooseRequests] at ha
  · by_cases h3 : o.dsi = 0
    · simp [h2, h3, chooseRequests] at ha
    · cases hx11 : o.x11Info with
      | none => simp [h2, h3, hx11, chooseRequests, unwindDSI] at ha
      | some dspi =>
        by_cases h4 : dspi.display = 0 ∨ dspi.drawable = 0
        · simp [h2, h3, hx11, h4, chooseRequests, unwindDSI] at ha
        · by_cases h5 : o.XOpenDisplay = 0
          · simp [h2, h3, hx11, h4, h5, chooseRequests, unwindDSI] at ha
          · by_cases h6 : o.glXQueryExtension = true
            · simp only [h2, h3, hx11, h4, h5, h6, if_true, if_false] at ha
              simp only [chooseRequests_cons, chooseRequests_searchAndCreateEvents,
                requestFor_setSurface, List.nil_append] at ha
              exact chooseRequests_searchEvents o _ _ (requestFor c) [0, 1] none a ha
            · simp [h2, h3, hx11, h4, h5, h6, chooseRequests, unwindDisplay, unwindDSI] at ha

/-- When the steps before the search succeed, the double-buffered request is
    issued. -/
theorem chooseRequests_createEvents_ready (o : Native) (old : XErrorHandler) (c : AWTContext)
    (hr : surfaceReady o = true) :
    requestFor c true ∈ chooseRequests (createEvents o old c) := by
  unfold surfaceReady at hr
  cases hx11 : o.x11Info with
  | none => simp [hx11] at hr
  | some dspi =>
    simp [hx11] at hr
    obtain ⟨⟨⟨⟨h2, h3⟩, h4a, h4b⟩, h5⟩, h6⟩ := hr
    unfold createEvents createWithSurfaceEvents searchAndCreateEvents
    simp [h2, h3, hx11, h4a, h4b, h5, h6, chooseRequests, searchEvents,
      List.filterMap_append, List.filterMap_cons, requestFor_setSurface]

end Nix

namespace Win

theorem pixelFormatRequests_cons (e : Event) (t : List Event) :
    pixelFormatRequests (e :: t)
      = (match e with
          | .ChoosePixelFormat _ p => [p]
          | _ => []) ++ pixelFormatRequests t := by
  cases e <;> simp [pixelFormatRequests, List.filterMap_cons]

theorem pixelFormatRequests_append (t u : List Event) :
    pixelFormatRequests (t ++ u) = pixelFormatRequests t ++ pixelFormatRequests u := by
  simp [pixelFormatRequests, List.filterMap_append]

theorem pixelFormatRequests_probeEvents (o : Native) :
    pixelFormatRequests (probeEvents o) = [] := by
  unfold probeEvents
  split_ifs <;> simp [pixelFormatRequests]

theorem pixelFormatRequests_createWithDCEvents (o : Native) (hdc : Nat) (c : AWTContext) :
    pixelFormatRequests (createWithDCEvents o hdc c) = [wglPfd c] := by
  unfold createWithDCEvents
  split_ifs <;>
    simp [pixelFormatRequests_cons, pixelFormatRequests_append, pixelFormatRequests_probeEvents] <;>
    simp [pixelFormatRequests]

theorem wglPfd_setSurface (c : AWTContext) (x : Nat) (i : Option JAWT_Win32DrawingSurfaceInfo) :
    wglPfd { c with dsi := x, dspi := i } = wglPfd c := rfl

/-- The descriptors `createGLContext` hands to `ChoosePixelFormat`: the one
    built from the record at entry when the surface steps succeed, none
    otherwise. -/
theorem pixelFormatRequests_createEvents (o : Native) (c : AWTContext) :
    pixelFormatRequests (createEvents o c) = if surfaceReady o then [wglPfd c] else [] := by
  have hnd : noDC o = true ↔ ¬ (match o.win32Info with
      | some i => (i.hdc != 0)
      | none => false) = true := by
    unfold noDC
    cases o.win32Info <;> simp
  unfold createEvents surfaceReady
  by_cases h2 : o.dsLock &&& JAWT_LOCK_ERROR ≠ 0
  · simp [h2, pixelFormatRequests_cons]
    simp [pixelFormatRequests]
  · by_cases h3 : o.dsi = 0
    · simp [h2, h3, pixelFormatRequests_cons]
      simp [pixelFormatRequests]
    · by_cases h4 : noDC o = true
      · have h4b := hnd.mp h4
        simp [h2, h3, h4, pixelFormatRequests_cons]
        simp [pixelFormatRequests]
        intro _
        simpa using h4b
      · have h4b : (match o.win32Info with
            | some i => (i.hdc != 0)
            | none => false) = true := by
          by_contra hcon
          exact h4 (hnd.mpr hcon)
        simp at h2
        simp [h2, h3, h4, pixelFormatRequests_cons, pixelFormatRequests_createWithDCEvents,
          wglPfd_setSurface, h4b]

end Win

theorem toBYTE_cast (x : Int) : ((toBYTE x : Nat) : Int) = x % 256 := by
  unfold toBYTE
  exact Int.toNat_of_nonneg (Int.emod_nonneg x (by norm_num))

theorem eventsOf_createGLContext_unix (o : Native) (w : World) :
    eventsOf .unix o .createGLContext w
      = if (enter .unix o false w).2 then Nix.createEvents o w.xErrorHandler w.ctx else [] := by
  unfold eventsOf
  simp only [run, Nix.createGLContext_trace, enter_ok_clear, List.nil_append]

theorem eventsOf_createGLContext_win32 (o : Native) (w : World) :
    eventsOf .win32 o .createGLContext w
      = if (enter .win32 o false w).2 then Win.createEvents o w.ctx else [] := by
  unfold eventsOf
  simp only [run, Win.wgl_createGLContext_trace, enter_ok_clear, List.nil_append]

/-- C3 (as amended). For every sequence of configurePixelFormat,
    configureMultisamples and configureInsets calls issued on a fresh context
    that is not yet created, on either backend, alphaDepth, depthDepth and
    stencilDepth equal the arguments of the last configurePixelFormat call and
    multisamples equals the argument of the last configureMultisamples call
    (0 for a field never set). The GLX `createGLContext` then hands to
    `glXChooseFBConfig` only attribute lists that carry exactly these four
    values, with `GLX_SAMPLE_BUFFERS` set to 1 when multisamples is positive
    and to 0 otherwise (and it does issue the double-buffered one when the
    steps before the search succeed). The WGL `createGLContext` hands to
    `ChoosePixelFormat` only a descriptor whose alpha, depth and stencil
    bytes are these three values reduced modulo 256 (and it does so when the
    surface steps succeed); multisamples is not part of the WGL request: the
    calls of the WGL `createGLContext` are the same whatever its value. -/
theorem configuration_reaches_format_request (ops : List (Op × Native)) (w : World)
    (hfresh : w.ctx = { callocAWTContext with ds := w.ctx.ds })
    (hcfg : ∀ p ∈ ops, isConfigure p.1 = true)
    (hreach : ∀ p ∈ ops, holdsContext p.2 w) :
    (∀ b : Backend,
      ((runSeq b ops w).ctx.alphaDepth, (runSeq b ops w).ctx.depthDepth,
          (runSeq b ops w).ctx.stencilDepth)
        = (lastPixelFormat (ops.map Prod.fst)).getD (0, 0, 0) ∧
      (runSeq b ops w).ctx.multisamples = (lastMultisamples (ops.map Prod.fst)).getD 0 ∧
      (runSeq b ops w).ctx.contextCreated = false) ∧
    (∀ o : Native,
      (∀ a ∈ chooseRequests (eventsOf .unix o .createGLContext (runSeq .unix ops w)),
        attribValue GLX_ALPHA_SIZE a = some (runSeq .unix ops w).ctx.alphaDepth ∧
        attribValue GLX_DEPTH_SIZE a = some (runSeq .unix ops w).ctx.depthDepth ∧
        attribValue GLX_STENCIL_SIZE a = some (runSeq .unix ops w).ctx.stencilDepth ∧
        attribValue GLX_SAMPLES a = some (runSeq .unix ops w).ctx.multisamples ∧
        attribValue GLX_SAMPLE_BUFFERS a
          = some (boolToInt (decide ((runSeq .unix ops w).ctx.multisamples > 0)))) ∧
      (holdsContext o (runSeq .unix ops w) → Nix.surfaceReady o = true →
        chooseRequests (eventsOf .unix o .createGLContext (runSeq .unix ops w)) ≠ [])) ∧
    (∀ o : Native,
      (∀ p ∈ pixelFormatRequests (eventsOf .win32 o .createGLContext (runSeq .win32 ops w)),
        (p.cAlphaBits : Int) = (runSeq .win32 ops w).ctx.alphaDepth % 256 ∧
        (p.cDepthBits : Int) = (runSeq .win32 ops w).ctx.depthDepth % 256 ∧
        (p.cStencilBits : Int) = (runSeq .win32 ops w).ctx.stencilDepth % 256) ∧
      (holdsContext o (runSeq .win32 ops w) → Win.surfaceReady o = true →
        pixelFormatRequests (eventsOf .win32 o .createGLContext (runSeq .win32 ops w)) ≠ []) ∧
      (∀ m : Int,
        eventsOf .win32 o .createGLContext
            (setCtx (fun c => { c with multisamples := m }) (runSeq .win32 ops w))
          = eventsOf .win32 o .createGLContext (runSeq .win32 ops w))) := by
  have hnot : w.ctx.contextCreated = false := by rw [hfresh]; rfl
  have hz : w.ctx.alphaDepth = 0 ∧ w.ctx.depthDepth = 0 ∧ w.ctx.stencilDepth = 0 ∧
      w.ctx.multisamples = 0 := by
    rw [hfresh]
    exact ⟨rfl, rfl, rfl, rfl⟩
  have hseq := fun b => configure_seq b ops w hcfg hreach hnot
  refine ⟨?_, ?_, ?_⟩
  · intro b
    obtain ⟨s1, s2, s3⟩ := hseq b
    rw [hz.1, hz.2.1, hz.2.2.1] at s1
    rw [hz.2.2.2] at s2
    exact ⟨s1, s2, s3⟩
  · intro o
    obtain ⟨_, _, s3⟩ := hseq .unix
    constructor
    · intro a ha
      rw [eventsOf_createGLContext_unix] at ha
      split_ifs at ha with hg
      · obtain ⟨d, hd⟩ := Nix.chooseRequests_createEvents o _ _ a ha
        subst hd
        obtain ⟨c1, c2, c3, c4, c5⟩ :=
          glxAttribs_carry { (runSeq .unix ops w).ctx with doubleBuffered := d }
        exact ⟨c1, c2, c3, c4, c5⟩
      · simp [chooseRequests] at ha
    · intro hc hr
      rw [eventsOf_createGLContext_unix, (enter_ok_iff .unix o false _).mpr ⟨hc, s3⟩]
      simp only [if_true]
      exact List.ne_nil_of_mem (Nix.chooseRequests_createEvents_ready o _ _ hr)
  · intro o
    obtain ⟨_, _, s3⟩ := hseq .win32
    refine ⟨?_, ?_, ?_⟩
    · intro p hp
      rw [eventsOf_createGLContext_win32, apply_ite pixelFormatRequests,
        Win.pixelFormatRequests_createEvents] at hp
      split_ifs at hp with hg hr
      · simp only [List.mem_singleton] at hp
        subst hp
        exact ⟨toBYTE_cast _, toBYTE_cast _, toBYTE_cast _⟩
      · simp at hp
      · simp [pixelFormatRequests] at hp
    · intro hc hr
      rw [eventsOf_createGLContext_win32, (enter_ok_iff .win32 o false _).mpr ⟨hc, s3⟩]
      simp [Win.pixelFormatRequests_createEvents, hr]
    · intro m
      rw [eventsOf_createGLContext_win32, eventsOf_createGLContext_win32]
      have hgd : (enter .win32 o false
          (setCtx (fun c => { c with multisamples := m }) (runSeq .win32 ops w))).2
          = (enter .win32 o false (runSeq .win32 ops w)).2 := by
        rw [Bool.eq_iff_iff, enter_ok_iff, enter_ok_iff]
        exact Iff.rfl
      rw [hgd]
      rfl

/-- Witness for C3: format (8, 24, 8) then 4 samples on the sample context. -/
theorem configuration_reaches_format_request_witness :
    ((runSeq .unix sampleConfig sampleWorld).ctx.alphaDepth,
        (runSeq .unix sampleConfig sampleWorld).ctx.depthDepth,
        (runSeq .unix sampleConfig sampleWorld).ctx.stencilDepth) = (8, 24, 8) ∧
    (runSeq .unix sampleConfig sampleWorld).ctx.multisamples = 4 ∧
    chooseRequests (eventsOf .unix sampleNative .createGLContext
      (runSeq .unix sampleConfig sampleWorld)) ≠ [] ∧
    pixelFormatRequests (eventsOf .win32 sampleNative .createGLContext
      (runSeq .win32 sampleConfig sampleWorld)) ≠ [] := by
  have h := configuration_reaches_format_request sampleConfig sampleWorld (by decide)
    (by decide) (by decide)
  exact ⟨(h.1 .unix).1, (h.1 .unix).2.1, (h.2.1 sampleNative).2 (by decide) (by decide),
    (h.2.2 sampleNative).2.1 (by decide) (by decide)⟩

/-- C3, counterexample. On the WGL backend the format request does not carry
    multisamples: after `configureMultisamples(4)` the context holds 4, yet
    `createGLContext` makes exactly the calls it makes on the context that
    never had multisamples set, with the same descriptor, and succeeds. -/
theorem wgl_request_omits_multisamples :
    (runSeq .win32 [(.configureMultisamples 4, sampleNative)] sampleWorld).ctx.multisamples = 4 ∧
    sampleWorld.ctx.multisamples = 0 ∧
    eventsOf .win32 sampleNative .createGLContext
        (runSeq .win32 [(.configureMultisamples 4, sampleNative)] sampleWorld)
      = eventsOf .win32 sampleNative .createGLContext sampleWorld ∧
    pixelFormatRequests (eventsOf .win32 sampleNative .createGLContext
        (runSeq .win32 [(.configureMultisamples 4, sampleNative)] sampleWorld))
      = [Win.wglPfd sampleWorld.ctx] ∧
    (run .win32 sampleNative .createGLContext
        (runSeq .win32 [(.configureMultisamples 4, sampleNative)] sampleWorld)).1.ctx.contextCreated
      = true := by
  decide
/-! ## C4: the swap interval -/

theorem wrap32_of_range (x : Int) (h1 : -2 ^ 31 ≤ x) (h2 : x < 2 ^ 31) : wrap32 x = x := by
  unfold wrap32
  have e1 : (2 : Int) ^ 31 = 2147483648 := by norm_num
  have e2 : (2 : Int) ^ 32 = 4294967296 := by norm_num
  rw [e1] at h1 h2 ⊢
  rw [e2]
  omega

/-- C4 (as amended). For every created context, on either backend, and every
    requested 32-bit interval other than -2^31, setSwapInterval returns the
    effective interval: 0 when no swap-control function was cached (whatever
    the request); otherwise the request unchanged when it is >= 0 or the
    tear-capable extension is present; otherwise the negation of the request.
    Its calls are exactly: take the toolkit lock, call the cached function
    (if any) with exactly the returned value, release the toolkit lock; the
    record is unchanged. In particular a request of -1 returns 1 with a
    cached function and no tear-capable extension, -1 with a cached function
    and the tear-capable extension, and 0 with no cached function. -/
theorem setSwapInterval_effective (b : Backend) (o : Native) (w : World) (r : Int)
    (hc : holdsContext o w) (hcr : w.ctx.contextCreated = true)
    (hlo : -2 ^ 31 < r) (hhi : r < 2 ^ 31) :
    (run b o (.setSwapInterval r) w).2 = effectiveInterval b w.ctx r ∧
    eventsOf b o (.setSwapInterval r) w
      = [Event.awtLock] ++ swapCall b w.ctx (run b o (.setSwapInterval r) w).2
          ++ [Event.awtUnlock] ∧
    (run b o (.setSwapInterval r) w).1.ctx = w.ctx ∧
    (r = -1 → swapFunctionCached b w.ctx = true → tearCapable b w.ctx = false →
      (run b o (.setSwapInterval r) w).2 = 1) ∧
    (r = -1 → swapFunctionCached b w.ctx = true → tearCapable b w.ctx = true →
      (run b o (.setSwapInterval r) w).2 = -1) ∧
    (swapFunctionCached b w.ctx = false → (run b o (.setSwapInterval r) w).2 = 0) := by
  have he := enter_right_state b o true w hc hcr
  have hc2 : holdsContext o { w with trace := [] } := hc
  have he2 := enter_right_state b o true { w with trace := [] } hc2 hcr
  have hw : ∀ x : Int, x = r → x < 0 → wrap32 (-x) = -x := by
    intro x hx hneg
    subst hx
    apply wrap32_of_range
    · have e1 : (2 : Int) ^ 31 = 2147483648 := by norm_num
      rw [e1] at hhi ⊢
      omega
    · have e1 : (2 : Int) ^ 31 = 2147483648 := by norm_num
      rw [e1] at hlo ⊢
      omega
  have hres : (run b o (.setSwapInterval r) w).2 = effectiveInterval b w.ctx r := by
    cases b
    · simp only [run, Nix.setSwapInterval, he, effectiveInterval, swapFunctionCached,
        tearCapable]
      by_cases hneg : r < 0
      · by_cases ht : w.ctx.glxSwapControlTear = true
        · by_cases h1 : w.ctx.glXSwapIntervalEXT = 0 <;>
            by_cases h2 : w.ctx.glXSwapIntervalSGI = 0 <;> simp [hneg, ht, h1, h2]
        · by_cases h1 : w.ctx.glXSwapIntervalEXT = 0 <;>
            by_cases h2 : w.ctx.glXSwapIntervalSGI = 0 <;>
            simp [hneg, ht, h1, h2, hw r rfl hneg, not_le.mpr hneg]
      · by_cases h1 : w.ctx.glXSwapIntervalEXT = 0 <;>
          by_cases h2 : w.ctx.glXSwapIntervalSGI = 0 <;>
          simp [hneg, h1, h2, not_lt.mp hneg]
    · simp only [run, Win.setSwapInterval, he, effectiveInterval, swapFunctionCached,
        tearCapable]
      by_cases hneg : r < 0
      · by_cases ht : w.ctx.wglSwapControlTear = true
        · by_cases h1 : w.ctx.wglSwapIntervalEXT = 0 <;> simp [hneg, ht, h1]
        · by_cases h1 : w.ctx.wglSwapIntervalEXT = 0 <;>
            simp [hneg, ht, h1, hw r rfl hneg, not_le.mpr hneg]
      · by_cases h1 : w.ctx.wglSwapIntervalEXT = 0 <;> simp [hneg, h1, not_lt.mp hneg]
  refine ⟨hres, ?_, ?_, ?_, ?_, ?_⟩
  · cases b
    · simp only [eventsOf, run, Nix.setSwapInterval, he, he2, swapCall]
      by_cases h1 : w.ctx.glXSwapIntervalEXT = 0 <;>
        by_cases h2 : w.ctx.glXSwapIntervalSGI = 0 <;> simp [h1, h2]
    · simp only [eventsOf, run, Win.setSwapInterval, he, he2, swapCall]
      by_cases h1 : w.ctx.wglSwapIntervalEXT = 0 <;> simp [h1]
  · cases b
    · simp only [run, Nix.setSwapInterval, he]
      split_ifs <;> simp
    · simp only [run, Win.setSwapInterval, he]
      split_ifs <;> simp
  · intro h1 h2 h3
    rw [hres]
    simp [effectiveInterval, h1, h2, h3]
  · intro h1 h2 h3
    rw [hres]
    simp [effectiveInterval, h1, h2, h3]
  · intro h1
    rw [hres]
    simp [effectiveInterval, h1]

/-- Witness for C4: a request of -1 on a GLX context with only the SGI
    extension returns 1 and calls `glXSwapIntervalSGI(1)`. -/
theorem setSwapInterval_effective_witness :
    (run .unix sampleNative (.setSwapInterval (-1)) sampleCreatedSGI).2 = 1 ∧
    eventsOf .unix sampleNative (.setSwapInterval (-1)) sampleCreatedSGI
      = [Event.awtLock, Event.glXSwapIntervalSGI 1, Event.awtUnlock] := by
  have h := setSwapInterval_effective .unix sampleNative sampleCreatedSGI (-1)
    (by decide) (by decide) (by decide) (by decide)
  refine ⟨h.2.2.2.1 rfl (by decide) (by decide), ?_⟩
  rw [h.2.1, h.2.2.2.1 rfl (by decide) (by decide)]
  decide

/-- C4, counterexample. The request -2^31 on a GLX context with only the SGI
    extension (a cached function, no tear-capable extension) is not returned
    negated: its negation 2^31 is no 32-bit value, and the 32-bit negation
    yields -2^31 again. -/
theorem setSwapInterval_int_min :
    swapFunctionCached .unix sampleCreatedSGI.ctx = true ∧
    tearCapable .unix sampleCreatedSGI.ctx = false ∧
    (run .unix sampleNative (.setSwapInterval (-2147483648)) sampleCreatedSGI).2
      = -2147483648 ∧
    (run .unix sampleNative (.setSwapInterval (-2147483648)) sampleCreatedSGI).2
      ≠ effectiveInterval .unix sampleCreatedSGI.ctx (-2147483648) := by
  decide
/-! ## C5, C6: the fb config selection -/

theorem cause_ne_1 (s1 s2 : String) :
    "unable to find a fb config" ++ s1 ≠ "unable to create glx context" ++ s2 := by
  intro h
  have h2 := congrArg String.data h
  simp only [String.data_append] at h2
  have h3 := congrArg (fun l => l.get? 10) h2
  simp at h3

theorem cause_ne_2 (s1 s2 : String) :
    "unable to find a fb config" ++ s1 ≠ "unable to make current" ++ s2 := by
  intro h
  have h2 := congrArg String.data h
  simp only [String.data_append] at h2
  have h3 := congrArg (fun l => l.get? 10) h2
  simp at h3
theorem createdWith_cons (e : Event) (t : List Event) :
    createdWith (e :: t)
      = (match e with
          | .glXCreateNewContext _ c => [c]
          | .glXCreateContextAttribsARB _ c _ => [c]
          | _ => []) ++ createdWith t := by
  cases e <;> simp [createdWith, List.filterMap_cons]

theorem createdWith_append (t u : List Event) :
    createdWith (t ++ u) = createdWith t ++ createdWith u := by
  simp [createdWith, List.filterMap_append]

theorem createdWith_scanEvents (o : Native) (v : Int) (dpy : Nat) (l : List GLXFBConfig) :
    createdWith (scanEvents o v dpy l) = [] := by
  induction l with
  | nil => rfl
  | cons c rest ih =>
    unfold scanEvents
    split_ifs
    · rfl
    · simpa [createdWith_cons] using ih

theorem createdWith_searchEvents (o : Native) (v : Int) (dpy : Nat)
    (attribs : Bool → List Int) (dbs : List Nat) (fb : Option GLXFBConfig) :
    createdWith (searchEvents o v dpy attribs dbs fb) = [] := by
  induction dbs generalizing fb with
  | nil => rfl
  | cons db rest ih =>
    unfold searchEvents
    simp only [createdWith_cons, List.nil_append]
    split
    · exact ih fb
    · rw [createdWith_append, createdWith_scanEvents]
      simp only [createdWith_cons, List.nil_append]
      split_ifs
      · rfl
      · exact ih _

namespace Nix

theorem createdWith_createWithConfigEvents (o : Native) (old : XErrorHandler) (dsi : Nat)
    (fb : GLXFBConfig) (c : AWTContext) :
    createdWith (createWithConfigEvents o old dsi fb c) = [fb] := by
  unfold createWithConfigEvents createNativeEvents unwindDisplay unwindDSI probeEvents
  split_ifs <;> simp [createdWith_cons, createdWith_append] <;> simp [createdWith]

theorem searchResult_setSurface (o : Native) (v : Int) (c : AWTContext) (x y : Nat) :
    searchResult o v { c with drawable := x, dpy := y } = searchResult o v c := rfl

/-- The configs `createGLContext` creates a context with, when the steps
    before the search succeed: the selected config, if any. -/
theorem createdWith_createEvents (o : Native) (old : XErrorHandler) (c : AWTContext)
    (dspi : JAWT_X11DrawingSurfaceInfo) (hr : surfaceReady o = true)
    (hx11 : o.x11Info = some dspi) :
    createdWith (createEvents o old c)
      = match (searchResult o dspi.visualID c).2 with
        | none => []
        | some fb => [fb] := by
  unfold surfaceReady at hr
  simp [hx11] at hr
  obtain ⟨⟨⟨⟨h2, h3⟩, h4a, h4b⟩, h5⟩, h6⟩ := hr
  unfold createEvents createWithSurfaceEvents searchAndCreateEvents
  simp only [hx11, h2, h3, h4a, h4b, h5, h6, ne_eq, not_true_eq_false, if_false, if_true,
    or_self, searchResult_setSurface, createdWith_cons, createdWith_append,
    createdWith_searchEvents, List.nil_append]
  cases hsel : (searchResult o dspi.visualID c).2 with
  | none =>
    simp only [unwindDisplay, unwindDSI, createdWith_cons, List.nil_append]
    rfl
  | some fb =>
    simp only
    exact createdWith_createWithConfigEvents o old o.dsi _ _

/-- The selection when the double-buffered search returns nothing. -/
theorem searchResult_fallback (o : Native) (v : Int) (c : AWTContext)
    (hdb : o.glXChooseFBConfig (requestFor c true) = none) :
    (searchResult o v c).2
      = match o.glXChooseFBConfig (requestFor c false) with
        | none => none
        | some l => orKeep (firstVisualMatch o v l) l.head? := by
  unfold searchResult
  simp only [searchOutcome, decide_True, hdb]
  have h10 : decide ((1 : Nat) = 0) = false := by decide
  simp only [h10]
  cases hsb : o.glXChooseFBConfig (requestFor c false) with
  | none => rfl
  | some l =>
    simp only
    split_ifs with hs
    · cases hf : firstVisualMatch o v l with
      | none => simp [orKeep, hf] at hs
      | some x => simp [orKeep]
    · cases hf : firstVisualMatch o v l with
      | none => simp [orKeep]
      | some x => simp [orKeep, hf] at hs

/-- With non-empty search results, no config is selected only when both
    searches return nothing. -/
theorem searchResult_none_iff (o : Native) (v : Int) (c : AWTContext)
    (hne : ∀ d l, o.glXChooseFBConfig (requestFor c d) = some l → l ≠ []) :
    (searchResult o v c).2 = none ↔
      (o.glXChooseFBConfig (requestFor c true) = none ∧
        o.glXChooseFBConfig (requestFor c false) = none) := by
  have hhead : ∀ l : List GLXFBConfig, l ≠ [] → ∃ x, l.head? = some x := by
    intro l hl
    cases l with
    | nil => exact absurd rfl hl
    | cons x xs => exact ⟨x, rfl⟩
  have hkeep : ∀ (f : Option GLXFBConfig) (x : GLXFBConfig), orKeep f (some x) ≠ none := by
    intro f x
    cases f <;> simp [orKeep]
  cases hdb : o.glXChooseFBConfig (requestFor c true) with
  | none =>
    rw [searchResult_fallback o v c hdb]
    cases hsb : o.glXChooseFBConfig (requestFor c false) with
    | none => simp
    | some l =>
      obtain ⟨x, hx⟩ := hhead l (hne false l hsb)
      simp only [hx, reduceCtorEq, and_false, iff_false]
      exact hkeep _ x
  | some l1 =>
    obtain ⟨x1, hx1⟩ := hhead l1 (hne true l1 hdb)
    simp only [reduceCtorEq, false_and, iff_false]
    unfold searchResult
    simp only [searchOutcome, decide_True, hdb]
    have h10 : decide ((1 : Nat) = 0) = false := by decide
    simp only [h10, hx1]
    split_ifs with hs
    · intro hcon
      simp only at hcon
      simp [hcon] at hs
    · cases hsb : o.glXChooseFBConfig (requestFor c false) with
      | none => simp
      | some l2 =>
        simp only
        split_ifs with hs2
        · exact hkeep _ x1
        · obtain ⟨x2, hx2⟩ := hhead l2 (hne false l2 hsb)
          simp [hx2]

end Nix

theorem orKeep_mem (o : Native) (v : Int) (l : List GLXFBConfig) (fb : GLXFBConfig)
    (h : orKeep (firstVisualMatch o v l) l.head? = some fb) : fb ∈ l := by
  cases hf : firstVisualMatch o v l with
  | none =>
    rw [hf] at h
    simp only [orKeep] at h
    exact List.mem_of_mem_head? h
  | some x =>
    rw [hf] at h
    simp only [orKeep, Option.some.injEq] at h
    subst h
    exact List.mem_of_find?_eq_some hf

/-- C6. GLX format negotiation in `createGLContext`, entered on a context
    that is not created with no exception pending, when the steps before the
    search succeed and every non-NULL search result is non-empty. If the
    double-buffered search returns nothing and the single-buffered search
    returns matches, the context is created with a single-buffered config:
    the first whose visual id equals the drawable's, else the first returned.
    `createGLContext` fails with cause "unable to find a fb config" if and
    only if both searches return nothing; then no context is created and
    `contextCreated` stays false. -/
theorem single_buffered_fallback (o : Native) (w : World) (dspi : JAWT_X11DrawingSurfaceInfo)
    (hc : holdsContext o w) (hnot : w.ctx.contextCreated = false) (hexc : w.exception = none)
    (hready : Nix.surfaceReady o = true) (hx11 : o.x11Info = some dspi)
    (hne : ∀ d l, o.glXChooseFBConfig (requestFor w.ctx d) = some l → l ≠ []) :
    (∀ l, o.glXChooseFBConfig (requestFor w.ctx true) = none →
      o.glXChooseFBConfig (requestFor w.ctx false) = some l →
      ∃ fb, fb ∈ l ∧ orKeep (firstVisualMatch o dspi.visualID l) l.head? = some fb ∧
        createdWith (eventsOf .unix o .createGLContext w) = [fb]) ∧
    (failsWith "unable to find a fb config" (run .unix o .createGLContext w).1 ↔
      (o.glXChooseFBConfig (requestFor w.ctx true) = none ∧
        o.glXChooseFBConfig (requestFor w.ctx false) = none)) ∧
    ((o.glXChooseFBConfig (requestFor w.ctx true) = none ∧
        o.glXChooseFBConfig (requestFor w.ctx false) = none) →
      (run .unix o .createGLContext w).1.ctx.contextCreated = false ∧
      createdWith (eventsOf .unix o .createGLContext w) = []) := by
  have hg : (enter .unix o false w).2 = true := (enter_ok_iff .unix o false w).mpr ⟨hc, hnot⟩
  have hev : createdWith (eventsOf .unix o .createGLContext w)
      = match (Nix.searchResult o dspi.visualID w.ctx).2 with
        | none => []
        | some fb => [fb] := by
    rw [eventsOf_createGLContext_unix, hg]
    exact Nix.createdWith_createEvents o _ _ dspi hready hx11
  have hout := Nix.createGLContext_outcome o w hc hnot hexc
  have hr := hready
  unfold Nix.surfaceReady at hr
  simp [hx11] at hr
  obtain ⟨⟨⟨⟨h2, h3⟩, h4a, h4b⟩, h5⟩, h6⟩ := hr
  have hcause : Nix.createCause o w.ctx
      = match (Nix.searchResult o dspi.visualID w.ctx).2 with
        | none => some "unable to find a fb config"
        | some fb => Nix.createWithConfigCause o fb
            { w.ctx with drawable := dspi.drawable, dpy := o.XOpenDisplay } := by
    unfold Nix.createCause Nix.createWithSurfaceCause Nix.searchAndCreateCause
    simp only [hx11, h2, h3, h4a, h4b, h5, h6, ne_eq, not_true_eq_false, if_false, if_true,
      or_self, Nix.searchResult_setSurface]
    try rfl
  have hnone := Nix.searchResult_none_iff o dspi.visualID w.ctx hne
  refine ⟨?_, ?_, ?_⟩
  · intro l hdb hsb
    have hsel := Nix.searchResult_fallback o dspi.visualID w.ctx hdb
    rw [hsb] at hsel
    simp only at hsel
    cases hfb : orKeep (firstVisualMatch o dspi.visualID l) l.head? with
    | none =>
      exfalso
      rw [hfb] at hsel
      have := hnone.mp hsel
      rw [hsb] at this
      exact absurd this.2 (by simp)
    | some fb =>
      refine ⟨fb, orKeep_mem o dspi.visualID l fb hfb, rfl, ?_⟩
      rw [hev, hsel, hfb]
  · constructor
    · intro hf
      by_contra hcon
      have hsome : (Nix.searchResult o dspi.visualID w.ctx).2 ≠ none := fun h => hcon (hnone.mp h)
      cases hsel : (Nix.searchResult o dspi.visualID w.ctx).2 with
      | none => exact hsome hsel
      | some fb =>
        rw [hcause, hsel] at hout
        simp only [Nix.createWithConfigCause] at hout
        obtain ⟨s1, hs1⟩ := hf
        simp only [run] at hs1
        split_ifs at hout
        · obtain ⟨s2, hs2⟩ := hout
          rw [hs1] at hs2
          simp only [Option.some.injEq, JThrowable.mk.injEq, true_and] at hs2
          exact cause_ne_1 _ _ hs2
        · simp only [outcomeIs] at hout
          rw [hs1] at hout
          exact absurd hout (by simp)
        · obtain ⟨s2, hs2⟩ := hout
          rw [hs1] at hs2
          simp only [Option.some.injEq, JThrowable.mk.injEq, true_and] at hs2
          exact cause_ne_2 _ _ hs2
    · intro hboth
      have hsel := hnone.mpr hboth
      rw [hcause, hsel] at hout
      exact hout
  · intro hboth
    have hsel := hnone.mpr hboth
    refine ⟨?_, ?_⟩
    · simp only [run, Nix.createGLContext_ctx, hg, if_true]
      unfold Nix.createCtx Nix.createWithSurfaceCtx Nix.searchAndCreateCtx
      simp only [hx11, h2, h3, h4a, h4b, h5, h6, ne_eq, not_true_eq_false, if_false, if_true,
        or_self, Nix.searchResult_setSurface, hsel]
      exact hnot
    · rw [hev, hsel]

/-- Witness for C6: no double-buffered config, single-buffered configs 5 and
    6, of which 6 has the drawable's visual id: the context is created with
    config 6 and the operation does not fail. -/
theorem single_buffered_fallback_witness :
    createdWith (eventsOf .unix singleOnlyNative .createGLContext sampleConfigured) = [6] ∧
    ¬ failsWith "unable to find a fb config"
        (run .unix singleOnlyNative .createGLContext sampleConfigured).1 := by
  have h := single_buffered_fallback singleOnlyNative sampleConfigured ⟨11, 12, 33⟩
    (by decide) (by decide) (by decide) (by decide) (by decide)
    (by
      intro d l hl
      simp only [singleOnlyNative] at hl
      split_ifs at hl
      have h56 : [5, 6] = l := Option.some.inj hl
      rw [← h56]
      simp)
  obtain ⟨fb, _, hfb, hcw⟩ := h.1 [5, 6] (by decide) (by decide)
  have hfb6 : fb = 6 := by
    have : orKeep (firstVisualMatch singleOnlyNative 33 [5, 6]) [5, 6].head? = some 6 := by
      decide
    rw [this] at hfb
    exact (Option.some.inj hfb).symm
  refine ⟨by rw [hcw, hfb6], ?_⟩
  intro hf
  have := h.2.1.mp hf
  exact absurd this.2 (by decide)
/-! ## C7: destroy twice -/

theorem rlawtGetContext_ok (o : Native) (w : World) (hc : holdsContext o w) :
    rlawtGetContext o w =
      ({ w with AWTContext_instance :=
          if w.AWTContext_instance = 0 then o.GetFieldID else w.AWTContext_instance },
        w.selfInstance) := by
  obtain ⟨h1, h2⟩ := hc
  unfold rlawtGetContext
  by_cases hf : w.AWTContext_instance = 0
  · have h3 : o.GetFieldID ≠ 0 := by
      rcases h2 with h2 | h2
      · exact absurd hf h2
      · exact h2
    simp [hf, h1, h3]
  · simp [hf, h1]

/-- Without an instance `rlawtGetContext` returns NULL and makes no call. -/
theorem rlawtGetContext_no_instance (o : Native) (w : World) (h : w.selfInstance = 0) :
    (rlawtGetContext o w).2 = 0 ∧ (rlawtGetContext o w).1.trace = w.trace := by
  unfold rlawtGetContext
  simp only
  split_ifs <;> simp_all

theorem rlawtContextFreePlatform_selfInstance (b : Backend) (w : World) :
    (rlawtContextFreePlatform b w).selfInstance = w.selfInstance := by
  cases b
  · simp only [rlawtContextFreePlatform, Nix.rlawtContextFreePlatform]
    split_ifs <;> simp
  · simp only [rlawtContextFreePlatform, Win.rlawtContextFreePlatform]
    split_ifs <;> simp

theorem rlawtContextFreePlatform_ctx (b : Backend) (w : World) :
    (rlawtContextFreePlatform b w).ctx = w.ctx := by
  cases b
  · simp only [rlawtContextFreePlatform, Nix.rlawtContextFreePlatform]
    split_ifs <;> simp
  · simp only [rlawtContextFreePlatform, Win.rlawtContextFreePlatform]
    split_ifs <;> simp

theorem rlawtContextFreePlatform_trace (b : Backend) (w : World) :
    (rlawtContextFreePlatform b w).trace = w.trace ++ freePlatformEvents b w.ctx := by
  cases b
  · simp only [rlawtContextFreePlatform, Nix.rlawtContextFreePlatform, freePlatformEvents]
    split_ifs <;> simp
  · simp only [rlawtContextFreePlatform, Win.rlawtContextFreePlatform, freePlatformEvents]
    split_ifs <;> simp_all

/-- The calls of a `destroy` that finds its context. -/
theorem destroy_trace (b : Backend) (o : Native) (w : World) (hc : holdsContext o w) :
    (destroy b o w).1.trace = w.trace ++ destroyEvents b w.ctx w.selfInstance := by
  have hne : w.selfInstance ≠ 0 := hc.1
  unfold destroy destroyEvents
  simp only [rlawtGetContext_ok o w hc, hne, if_false, rlawtContextFreePlatform_ctx]
  split_ifs <;> simp [rlawtContextFreePlatform_trace]

theorem destroy_selfInstance (b : Backend) (o : Native) (w : World) (hc : holdsContext o w) :
    (destroy b o w).1.selfInstance = 0 := by
  have hne : w.selfInstance ≠ 0 := hc.1
  unfold destroy
  simp only [rlawtGetContext_ok o w hc, hne, if_false]
  split_ifs <;> simp [rlawtContextFreePlatform_selfInstance]

theorem destroy_no_instance (b : Backend) (o : Native) (w : World) (h : w.selfInstance = 0) :
    (destroy b o w).1.trace = w.trace := by
  obtain ⟨g1, g2⟩ := rlawtGetContext_no_instance o w h
  unfold destroy
  simp only [g1, if_true, g2]

theorem eventsOf_destroy (b : Backend) (o : Native) (w : World) (hc : holdsContext o w) :
    eventsOf b o .destroy w = destroyEvents b w.ctx w.selfInstance := by
  have hc0 : holdsContext o { w with trace := [] } := hc
  unfold eventsOf
  simp only [run, destroy_trace b o _ hc0, List.nil_append]

/-- C7. Calling destroy twice on a host object that holds a context (created
    or not), on either backend: the first call zeroes the host object's
    instance handle; the second call finds no instance and returns without any
    call (no `rlawtContextFreePlatform`, `FreeDrawingSurface` or `free`), so
    the log of both calls is the log of the first; and the first call destroys
    the native context at most once, frees the drawing surface at most once
    and frees the context record exactly once. -/
theorem destroy_twice_releases_once (b : Backend) (o1 o2 : Native) (w : World)
    (hc : holdsContext o1 w) :
    (run b o1 .destroy w).1.selfInstance = 0 ∧
    eventsOf b o2 .destroy (hostReturn (run b o1 .destroy w).1) = [] ∧
    (runSeq b [(.destroy, o1), (.destroy, o2)] { w with trace := [] }).trace
      = eventsOf b o1 .destroy w ∧
    (eventsOf b o1 .destroy w).countP isContextDestroy ≤ 1 ∧
    (eventsOf b o1 .destroy w).countP isSurfaceRelease ≤ 1 ∧
    (eventsOf b o1 .destroy w).countP isFree = 1 := by
  have hc0 : holdsContext o1 (hostReturn { w with trace := [] }) := hc
  have hev := eventsOf_destroy b o1 w hc
  refine ⟨destroy_selfInstance b o1 w hc, ?_, ?_, ?_, ?_, ?_⟩
  · unfold eventsOf
    simp only [run]
    exact destroy_no_instance b o2 _ (destroy_selfInstance b o1 w hc)
  · simp only [runSeq, run]
    have hz : (hostReturn (destroy b o1 (hostReturn { w with trace := [] })).1).selfInstance
        = 0 := destroy_selfInstance b o1 _ hc0
    rw [destroy_no_instance b o2 _ hz, hev]
    show (destroy b o1 (hostReturn { w with trace := [] })).1.trace = _
    rw [destroy_trace b o1 _ hc0]
    rfl
  · rw [hev]
    unfold destroyEvents freePlatformEvents
    cases b <;> simp only <;> split_ifs <;> simp [isContextDestroy, List.countP_cons]
  · rw [hev]
    unfold destroyEvents freePlatformEvents
    cases b <;> simp only <;> split_ifs <;> simp [isSurfaceRelease, List.countP_cons]
  · rw [hev]
    unfold destroyEvents freePlatformEvents
    cases b <;> simp only <;> split_ifs <;> simp [isFree, List.countP_cons]

/-- Witness for C7: destroy twice on the created GLX sample context. -/
theorem destroy_twice_releases_once_witness :
    (run .unix sampleNative .destroy sampleCreatedNix).1.selfInstance = 0 ∧
    eventsOf .unix sampleNative .destroy
      (hostReturn (run .unix sampleNative .destroy sampleCreatedNix).1) = [] ∧
    eventsOf .unix sampleNative .destroy sampleCreatedNix
      = [Event.glXMakeCurrent 14 0 0, Event.glXDestroyContext 14 22, Event.XCloseDisplay 14,
          Event.FreeDrawingSurface 7, Event.free 64] := by
  have h := destroy_twice_releases_once .unix sampleNative sampleNative sampleCreatedNix
    (by decide)
  exact ⟨h.1, h.2.1, by decide⟩
/-! ## C8: native contexts destroyed exactly once -/

/-- C8, evaluation at the failing input. On the WGL backend, a
    `createGLContext` whose `wglCreateContext` returns handle 23 and whose
    bind `wglMakeCurrent(hdc, 23)` fails deletes context 23 while unwinding,
    leaves `ctx->context = 23` with `contextCreated` false, and the `destroy`
    that follows deletes context 23 a second time. On the GLX backend the same
    run destroys the created context 22 exactly once. -/
theorem wgl_bind_failure_deletes_twice :
    eventsOf .win32 bindFailNative .createGLContext sampleWorld
      = [Event.dsLock 7, Event.GetDrawingSurfaceInfo 7,
          Event.ChoosePixelFormat 13 (Win.wglPfd sampleWorld.ctx),
          Event.SetPixelFormat 13 3 (Win.wglPfd sampleWorld.ctx),
          Event.wglMakeCurrent 13 0, Event.wglCreateContext 13, Event.wglMakeCurrent 13 23,
          Event.wglDeleteContext 23, Event.dsUnlock 7] ∧
    (run .win32 bindFailNative .createGLContext sampleWorld).1.ctx.context = 23 ∧
    (run .win32 bindFailNative .createGLContext sampleWorld).1.ctx.contextCreated = false ∧
    eventsOf .win32 sampleNative .destroy
        (hostReturn (run .win32 bindFailNative .createGLContext sampleWorld).1)
      = [Event.wglDeleteContext 23, Event.FreeDrawingSurfaceInfo 9,
          Event.FreeDrawingSurface 7, Event.free 64] ∧
    (runSeq .win32 [(.createGLContext, bindFailNative), (.destroy, sampleNative)]
        sampleWorld).trace.count (Event.wglDeleteContext 23) = 2 ∧
    (runSeq .win32 [(.createGLContext, bindFailNative), (.destroy, sampleNative)]
        sampleWorld).trace.count (Event.wglCreateContext 13) = 1 ∧
    (runSeq .unix [(.createGLContext, bindFailNative), (.destroy, sampleNative)]
        sampleWorld).trace.countP isContextDestroy = 1 := by
  decide

/-! ## C9: the state invariant -/

/-- C9, counterexample. On both backends a `createGLContext` that fails at
    the bind step, run on the fresh sample context, returns with the native
    context handle non-null (22 on GLX, 23 on WGL) while `contextCreated` is
    false. -/
theorem bind_failure_leaves_handle :
    (runSeq .unix [(.createGLContext, bindFailNative)] sampleWorld).ctx.context = 22 ∧
    (runSeq .unix [(.createGLContext, bindFailNative)] sampleWorld).ctx.contextCreated = false ∧
    (runSeq .win32 [(.createGLContext, bindFailNative)] sampleWorld).ctx.context = 23 ∧
    (runSeq .win32 [(.createGLContext, bindFailNative)] sampleWorld).ctx.contextCreated = false ∧
    sampleWorld.ctx = { callocAWTContext with ds := 7 } := by
  decide

theorem createdHasHandle_of_not_created (c : AWTContext) (h : c.contextCreated = false) :
    createdHasHandle c := by
  intro hc
  rw [h] at hc
  exact absurd hc (by simp)

namespace Nix

theorem createWithConfigCtx_createdHasHandle (o : Native) (fb : GLXFBConfig) (c : AWTContext)
    (hnot : c.contextCreated = false) : createdHasHandle (createWithConfigCtx o fb c) := by
  unfold createWithConfigCtx
  by_cases h1 : createdHandle o fb = 0
  · simp only [h1, if_true]
    exact createdHasHandle_of_not_created _ hnot
  · by_cases h2 : o.glXMakeCurrent c.drawable (createdHandle o fb) = true
    · simp only [h1, h2, if_true, if_false]
      intro _
      simpa [(probeCtx_frame o _).2.2.2.1] using h1
    · simp only [h1, h2, if_false]
      exact createdHasHandle_of_not_created _ hnot

theorem searchAndCreateCtx_createdHasHandle (o : Native) (v : Int) (c : AWTContext)
    (hnot : c.contextCreated = false) : createdHasHandle (searchAndCreateCtx o v c) := by
  unfold searchAndCreateCtx
  split
  · exact createdHasHandle_of_not_created _ hnot
  · exact createWithConfigCtx_createdHasHandle o _ _ hnot

theorem createWithSurfaceCtx_createdHasHandle (o : Native) (dspi : JAWT_X11DrawingSurfaceInfo)
    (c : AWTContext) (hnot : c.contextCreated = false) :
    createdHasHandle (createWithSurfaceCtx o dspi c) := by
  unfold createWithSurfaceCtx
  split_ifs
  · exact createdHasHandle_of_not_created _ hnot
  · exact searchAndCreateCtx_createdHasHandle o _ _ hnot
  · exact createdHasHandle_of_not_created _ hnot

theorem createCtx_createdHasHandle (o : Native) (c : AWTContext)
    (hnot : c.contextCreated = false) : createdHasHandle (createCtx o c) := by
  unfold createCtx
  split_ifs
  · exact createdHasHandle_of_not_created _ hnot
  · exact createdHasHandle_of_not_created _ hnot
  · split
    · exact createdHasHandle_of_not_created _ hnot
    · split_ifs
      · exact createdHasHandle_of_not_created _ hnot
      · exact createWithSurfaceCtx_createdHasHandle o _ c hnot

end Nix

namespace Win

theorem createWithDCCtx_createdHasHandle (o : Native) (c : AWTContext)
    (hnot : c.contextCreated = false) : createdHasHandle (createWithDCCtx o c) := by
  unfold createWithDCCtx
  split_ifs with h1 h2 h3 h4 h5
  · exact createdHasHandle_of_not_created _ hnot
  · exact createdHasHandle_of_not_created _ hnot
  · exact createdHasHandle_of_not_created _ hnot
  · exact createdHasHandle_of_not_created _ hnot
  · exact createdHasHandle_of_not_created _ hnot
  · intro _
    simpa [(wgl_probeCtx_frame o _).2.2.2.1] using h4

theorem wgl_createCtx_createdHasHandle (o : Native) (c : AWTContext)
    (hnot : c.contextCreated = false) : createdHasHandle (createCtx o c) := by
  unfold createCtx
  split_ifs
  · exact createdHasHandle_of_not_created _ hnot
  · exact createdHasHandle_of_not_created _ hnot
  · exact createdHasHandle_of_not_created _ hnot
  · exact createWithDCCtx_createdHasHandle o _ hnot

end Win

/-- Every entry point keeps the invariant `createdHasHandle`. -/
theorem run_createdHasHandle (b : Backend) (o : Native) (op : Op) (w : World)
    (h : createdHasHandle w.ctx) : createdHasHandle (run b o op w).1.ctx := by
  have hcfg : ∀ (f : AWTContext → AWTContext) (created : Bool),
      (∀ c, (f c).contextCreated = c.contextCreated ∧ (f c).context = c.context) →
      createdHasHandle
        (if ¬ (enter b o created w).2 = true then ((enter b o created w).1, (0 : Int))
          else (setCtx f (enter b o created w).1, 0)).1.ctx := by
    intro f created hf
    split_ifs
    · simp only [setCtx_ctx, enter_ctx]
      intro hc
      rw [(hf w.ctx).1] at hc
      rw [(hf w.ctx).2]
      exact h hc
    · simpa using h
  cases op with
  | configureInsets x y =>
    simp only [run, configureInsets]
    split_ifs <;> simpa using h
  | configurePixelFormat a d s =>
    simp only [run, configurePixelFormat]
    exact hcfg _ false (fun c => ⟨rfl, rfl⟩)
  | configureMultisamples n =>
    simp only [run, configureMultisamples]
    exact hcfg _ false (fun c => ⟨rfl, rfl⟩)
  | createGLContext =>
    cases b
    · simp only [run, Nix.createGLContext_ctx]
      split_ifs with hg
      · exact Nix.createCtx_createdHasHandle o _ ((enter_ok_iff .unix o false w).mp hg).2
      · exact h
    · simp only [run, Win.wgl_createGLContext_ctx]
      split_ifs with hg
      · exact Win.wgl_createCtx_createdHasHandle o _ ((enter_ok_iff .win32 o false w).mp hg).2
      · exact h
  | getGLContext =>
    simp only [run, getGLContext]
    split_ifs <;> simpa using h
  | getCGLShareGroup =>
    simp only [run, getCGLShareGroup]
    split_ifs <;> simpa using h
  | getGLXDisplay =>
    cases b <;> simp only [run, getGLXDisplay] <;> split_ifs <;> simpa using h
  | getWGLHDC =>
    cases b <;> simp only [run, getWGLHDC] <;> split_ifs <;> simpa using h
  | getFramebuffer f =>
    simp only [run, getFramebuffer]
    split_ifs <;> simpa using h
  | setSwapInterval i =>
    cases b
    · simp only [run, Nix.setSwapInterval]
      split_ifs <;> simpa using h
    · simp only [run, Win.setSwapInterval]
      split_ifs <;> simpa using h
  | makeCurrent =>
    cases b
    · simp only [run, Nix.makeCurrentOp]
      split_ifs <;> simpa using h
    · simp only [run, Win.makeCurrentOp]
      split_ifs <;> simpa using h
  | detachCurrent =>
    cases b
    · simp only [run, Nix.detachCurrent]
      split_ifs <;> simpa using h
    · simp only [run, Win.detachCurrent]
      split_ifs <;> simpa using h
  | swapBuffers =>
    cases b
    · simp only [run, Nix.swapBuffers]
      split_ifs <;> simpa using h
    · simp only [run, Win.swapBuffers]
      split_ifs <;> simpa using h
  | destroy =>
    simp only [run, destroy]
    split_ifs
    · have : (rlawtGetContext o w).1.ctx = w.ctx := by
        unfold rlawtGetContext
        simp only
        split_ifs <;> rfl
      rw [this]
      exact h
    · have : (rlawtGetContext o w).1.ctx = w.ctx := by
        unfold rlawtGetContext
        simp only
        split_ifs <;> rfl
      simpa [rlawtContextFreePlatform_ctx, this] using h
    · have : (rlawtGetContext o w).1.ctx = w.ctx := by
        unfold rlawtGetContext
        simp only
        split_ifs <;> rfl
      simpa [rlawtContextFreePlatform_ctx, this] using h

/-- C9 (as amended). On both backends, starting from a freshly acquired
    context (all fields zero but the drawing surface), after any sequence of
    entry points with any results of the native calls: if `contextCreated` is
    true then the native context handle is non-null. -/
theorem created_context_has_handle (b : Backend) (ops : List (Op × Native)) (w : World)
    (hfresh : w.ctx = { callocAWTContext with ds := w.ctx.ds }) :
    (runSeq b ops w).ctx.contextCreated = true → (runSeq b ops w).ctx.context ≠ 0 := by
  have h0 : createdHasHandle w.ctx := by
    apply createdHasHandle_of_not_created
    rw [hfresh]
    rfl
  clear hfresh
  induction ops generalizing w with
  | nil => exact h0
  | cons p rest ih =>
    obtain ⟨op, o⟩ := p
    simp only [runSeq]
    exact ih _ (run_createdHasHandle b o op (hostReturn w) h0)

/-- Witness for C9: configure, create, swap, then a second create on the
    sample context, GLX backend. -/
theorem created_context_has_handle_witness :
    (runSeq .unix [(.configurePixelFormat 8 24 8, sampleNative),
        (.createGLContext, sampleNative), (.swapBuffers, sampleNative),
        (.createGLContext, sampleNative)] sampleWorld).ctx.contextCreated = true ∧
    (runSeq .unix [(.configurePixelFormat 8 24 8, sampleNative),
        (.createGLContext, sampleNative), (.swapBuffers, sampleNative),
        (.createGLContext, sampleNative)] sampleWorld).ctx.context ≠ 0 :=
  ⟨by decide, created_context_has_handle .unix _ sampleWorld (by decide) (by decide)⟩
/-! ## C10: the lock discipline -/

theorem locksOnly_toolkit : locksOnly isToolkitLock := fun _ h => Or.inl h

theorem locksOnly_surface : locksOnly isSurfaceCall := fun _ h => Or.inr h

theorem locksOnly_false (p : Event → Bool) (hp : locksOnly p) (e : Event)
    (h1 : isToolkitLock e = false) (h2 : isSurfaceCall e = false) : p e = false := by
  cases hpe : p e with
  | false => rfl
  | true =>
    rcases hp e hpe with h | h
    · rw [h1] at h
      exact absurd h (by simp)
    · rw [h2] at h
      exact absurd h (by simp)

theorem filter_scanEvents (p : Event → Bool) (hp : locksOnly p) (o : Native) (v : Int)
    (dpy : Nat) (l : List GLXFBConfig) : (scanEvents o v dpy l).filter p = [] := by
  induction l with
  | nil => rfl
  | cons c rest ih =>
    unfold scanEvents
    have hc : p (Event.glXGetFBConfigAttrib dpy c) = false := locksOnly_false p hp _ rfl rfl
    split_ifs
    · simp [List.filter_cons, hc]
    · simp [List.filter_cons, hc, ih]

theorem filter_searchEvents (p : Event → Bool) (hp : locksOnly p) (o : Native) (v : Int)
    (dpy : Nat) (attribs : Bool → List Int) (dbs : List Nat) (fb : Option GLXFBConfig) :
    (searchEvents o v dpy attribs dbs fb).filter p = [] := by
  induction dbs generalizing fb with
  | nil => rfl
  | cons db rest ih =>
    unfold searchEvents
    have hc : p (Event.glXChooseFBConfig dpy (attribs (decide (db = 0)))) = false :=
      locksOnly_false p hp _ rfl rfl
    have hx : p Event.XFree = false := locksOnly_false p hp _ rfl rfl
    simp only [List.filter_cons, hc, Bool.false_eq_true, if_false]
    split
    · exact ih fb
    · simp only [List.filter_append, filter_scanEvents p hp, List.filter_cons, hx,
        Bool.false_eq_true, if_false, List.nil_append]
      split_ifs
      · rfl
      · exact ih _

namespace Nix

theorem filter_createNativeEvents (p : Event → Bool) (hp : locksOnly p) (o : Native) (dpy : Nat)
    (fb : GLXFBConfig) : (createNativeEvents o dpy fb).filter p = [] := by
  have h1 : p (Event.glXQueryExtensionsString dpy) = false := locksOnly_false p hp _ rfl rfl
  have h2 : p (Event.glXGetProcAddress "glXCreateContextAttribsARB") = false :=
    locksOnly_false p hp _ rfl rfl
  have h3 : p (Event.glXCreateContextAttribsARB dpy fb
      [GLX_CONTEXT_MAJOR_VERSION_ARB, 3, GLX_CONTEXT_MINOR_VERSION_ARB, 3, 0]) = false :=
    locksOnly_false p hp _ rfl rfl
  have h4 : p (Event.glXCreateNewContext dpy fb) = false := locksOnly_false p hp _ rfl rfl
  unfold createNativeEvents
  split_ifs <;> simp [List.filter_cons, h1, h2, h3, h4]

theorem filter_probeEvents (p : Event → Bool) (hp : locksOnly p) (o : Native) :
    (probeEvents o).filter p = [] := by
  have h1 : p (Event.glXGetProcAddress "glXSwapIntervalEXT") = false :=
    locksOnly_false p hp _ rfl rfl
  have h2 : p (Event.glXGetProcAddress "glXSwapIntervalSGI") = false :=
    locksOnly_false p hp _ rfl rfl
  unfold probeEvents
  split_ifs <;> simp [List.filter_cons, h1, h2]

/-- The lock and surface calls of the unwinding from `freeDisplay:` on. -/
theorem filter_unwindDisplay (p : Event → Bool) (hp : locksOnly p) (old : XErrorHandler)
    (dsi ds dpy : Nat) :
    (unwindDisplay old dsi ds dpy).filter p
      = (unwindLocks dsi ds).filter p := by
  have h1 : p (Event.XSync dpy) = false := locksOnly_false p hp _ rfl rfl
  have h2 : p (Event.XCloseDisplay dpy) = false := locksOnly_false p hp _ rfl rfl
  have h3 : p (Event.XSetErrorHandler old) = false := locksOnly_false p hp _ rfl rfl
  unfold unwindDisplay unwindDSI unwindLocks
  simp [List.filter_cons, h1, h2, h3]

theorem filter_unwindDSI (p : Event → Bool) (hp : locksOnly p) (old : XErrorHandler)
    (dsi ds : Nat) :
    (unwindDSI old dsi ds).filter p
      = (unwindLocks dsi ds).filter p := by
  have h3 : p (Event.XSetErrorHandler old) = false := locksOnly_false p hp _ rfl rfl
  unfold unwindDSI unwindLocks
  simp [List.filter_cons, h3]

theorem filter_createWithConfigEvents (p : Event → Bool) (hp : locksOnly p) (o : Native)
    (old : XErrorHandler) (dsi : Nat) (fb : GLXFBConfig) (c : AWTContext) :
    (createWithConfigEvents o old dsi fb c).filter p
      = (unwindLocks dsi c.ds).filter p := by
  have h1 : p (Event.glXMakeCurrent c.dpy c.drawable (createdHandle o fb)) = false :=
    locksOnly_false p hp _ rfl rfl
  have h2 : p (Event.glXDestroyContext c.dpy (createdHandle o fb)) = false :=
    locksOnly_false p hp _ rfl rfl
  have h3 : p (Event.XSync c.dpy) = false := locksOnly_false p hp _ rfl rfl
  have h4 : p (Event.XSetErrorHandler old) = false := locksOnly_false p hp _ rfl rfl
  unfold createWithConfigEvents
  simp only [List.filter_append, filter_createNativeEvents p hp, List.nil_append]
  split_ifs
  · exact filter_unwindDisplay p hp old dsi c.ds c.dpy
  · rw [List.filter_cons, h1]
    simp only [Bool.false_eq_true, if_false, List.filter_append, filter_probeEvents p hp,
      List.nil_append]
    unfold unwindLocks
    simp [List.filter_cons, h3, h4]
  · rw [List.filter_cons, h1, List.filter_cons, h2]
    exact filter_unwindDisplay p hp old dsi c.ds c.dpy

theorem filter_searchAndCreateEvents (p : Event → Bool) (hp : locksOnly p) (o : Native)
    (old : XErrorHandler) (dsi : Nat) (v : Int) (c : AWTContext) :
    (searchAndCreateEvents o old dsi v c).filter p
      = (unwindLocks dsi c.ds).filter p := by
  unfold searchAndCreateEvents
  simp only [List.filter_append, filter_searchEvents p hp, List.nil_append]
  split
  · exact filter_unwindDisplay p hp old dsi c.ds c.dpy
  · exact filter_createWithConfigEvents p hp o old dsi _ c

theorem filter_createWithSurfaceEvents (p : Event → Bool) (hp : locksOnly p) (o : Native)
    (old : XErrorHandler) (dsi : Nat) (dspi : JAWT_X11DrawingSurfaceInfo) (c : AWTContext) :
    (createWithSurfaceEvents o old dsi dspi c).filter p
      = (unwindLocks dsi c.ds).filter p := by
  have h1 : p (Event.XOpenDisplay dspi.display) = false := locksOnly_false p hp _ rfl rfl
  have h2 : p (Event.glXQueryExtension o.XOpenDisplay) = false := locksOnly_false p hp _ rfl rfl
  unfold createWithSurfaceEvents
  rw [List.filter_cons, h1]
  simp only [Bool.false_eq_true, if_false]
  split_ifs
  · exact filter_unwindDSI p hp old dsi c.ds
  · rw [List.filter_cons, h2]
    exact filter_searchAndCreateEvents p hp o old dsi dspi.visualID _
  · rw [List.filter_cons, h2]
    exact filter_unwindDisplay p hp old dsi c.ds o.XOpenDisplay

/-- The lock and surface calls of the GLX `createGLContext`, in order. -/
theorem filter_createEvents (p : Event → Bool) (hp : locksOnly p) (o : Native)
    (old : XErrorHandler) (c : AWTContext) :
    (createEvents o old c).filter p = (createLocks o c).filter p := by
  have h1 : p (Event.XSetErrorHandler .rlawtXErrorHandler) = false :=
    locksOnly_false p hp _ rfl rfl
  have h2 : p (Event.XSetErrorHandler old) = false := locksOnly_false p hp _ rfl rfl
  have hcons : ∀ (e : Event) (t u : List Event), t.filter p = u.filter p →
      (e :: t).filter p = (e :: u).filter p := by
    intro e t u h
    simp only [List.filter_cons, h]
  have hskip : ∀ (e : Event) (t u : List Event), p e = false → t.filter p = u.filter p →
      (e :: t).filter p = u.filter p := by
    intro e t u he h
    simp only [List.filter_cons, he, h, Bool.false_eq_true, if_false]
  unfold createEvents createLocks
  refine hcons _ _ _ (hskip _ _ _ h1 (hcons _ _ _ ?_))
  by_cases hl : o.dsLock &&& JAWT_LOCK_ERROR ≠ 0
  · rw [if_pos hl, if_pos hl]
    exact hskip _ _ _ h2 rfl
  · rw [if_neg hl, if_neg hl]
    refine hcons _ _ _ ?_
    by_cases hd : o.dsi = 0
    · rw [if_pos hd, if_pos hd]
      exact hcons _ _ _ (hskip _ _ _ h2 rfl)
    · rw [if_neg hd, if_neg hd]
      cases hx11 : o.x11Info with
      | none => exact filter_unwindDSI p hp old o.dsi c.ds
      | some dspi =>
        simp only
        split_ifs
        · exact filter_unwindDSI p hp old o.dsi c.ds
        · exact filter_createWithSurfaceEvents p hp o old o.dsi dspi c

end Nix

namespace Win

theorem wgl_filter_probeEvents (p : Event → Bool) (hp : locksOnly p) (o : Native) :
    (probeEvents o).filter p = [] := by
  have h1 : p (Event.wglGetProcAddress "wglGetExtensionsStringEXT") = false :=
    locksOnly_false p hp _ rfl rfl
  have h2 : p Event.wglGetExtensionsStringEXT = false := locksOnly_false p hp _ rfl rfl
  have h3 : p (Event.wglGetProcAddress "wglSwapIntervalEXT") = false :=
    locksOnly_false p hp _ rfl rfl
  unfold probeEvents
  split_ifs <;> simp [List.filter_cons, h1, h2, h3]

theorem filter_createWithDCEvents (p : Event → Bool) (hp : locksOnly p) (o : Native)
    (hdc : Nat) (c : AWTContext) :
    (createWithDCEvents o hdc c).filter p = [Event.dsUnlock c.ds].filter p := by
  have h1 : p (Event.ChoosePixelFormat hdc (wglPfd c)) = false := locksOnly_false p hp _ rfl rfl
  have h2 : p (Event.SetPixelFormat hdc (o.ChoosePixelFormat (wglPfd c)) (wglPfd c)) = false :=
    locksOnly_false p hp _ rfl rfl
  have h3 : p (Event.wglMakeCurrent hdc 0) = false := locksOnly_false p hp _ rfl rfl
  have h4 : p (Event.wglCreateContext hdc) = false := locksOnly_false p hp _ rfl rfl
  have h5 : p (Event.wglMakeCurrent hdc o.wglCreateContext) = false :=
    locksOnly_false p hp _ rfl rfl
  have h6 : p (Event.wglDeleteContext o.wglCreateContext) = false :=
    locksOnly_false p hp _ rfl rfl
  have hskip : ∀ (e : Event) (t u : List Event), p e = false → t.filter p = u.filter p →
      (e :: t).filter p = u.filter p := by
    intro e t u he h
    simp only [List.filter_cons, he, h, Bool.false_eq_true, if_false]
  unfold createWithDCEvents
  refine hskip _ _ _ h1 ?_
  split_ifs
  · rfl
  · exact hskip _ _ _ h2 rfl
  · exact hskip _ _ _ h2 (hskip _ _ _ h3 rfl)
  · exact hskip _ _ _ h2 (hskip _ _ _ h3 (hskip _ _ _ h4 rfl))
  · exact hskip _ _ _ h2 (hskip _ _ _ h3 (hskip _ _ _ h4 (hskip _ _ _ h5
      (hskip _ _ _ h6 rfl))))
  · refine hskip _ _ _ h2 (hskip _ _ _ h3 (hskip _ _ _ h4 (hskip _ _ _ h5 ?_)))
    rw [List.filter_append, wgl_filter_probeEvents p hp, List.nil_append]

/-- The surface calls of the WGL `createGLContext`, in order. -/
theorem wgl_filter_createEvents (p : Event → Bool) (hp : locksOnly p) (o : Native)
    (c : AWTContext) : (createEvents o c).filter p = (createLocks o c).filter p := by
  have hcons : ∀ (e : Event) (t u : List Event), t.filter p = u.filter p →
      (e :: t).filter p = (e :: u).filter p := by
    intro e t u h
    simp only [List.filter_cons, h]
  unfold createEvents createLocks
  refine hcons _ _ _ ?_
  by_cases hl : o.dsLock &&& JAWT_LOCK_ERROR ≠ 0
  · rw [if_pos hl, if_pos hl]
  · rw [if_neg hl, if_neg hl]
    refine hcons _ _ _ ?_
    by_cases hd : o.dsi = 0
    · rw [if_pos hd, if_pos hd]
    · rw [if_neg hd, if_neg hd]
      by_cases hn : noDC o = true
      · rw [if_pos hn, if_pos hn]
      · rw [if_neg hn, if_neg hn]
        exact filter_createWithDCEvents p hp o _ _

end Win

/-- The lock and surface calls of an operation: those of `opLocks` when its
    guard passes, none otherwise. -/
theorem filter_eventsOf (p : Event → Bool) (hp : locksOnly p) (b : Backend) (o : Native)
    (op : Op) (w : World) (hop : lockOp op = true) :
    (eventsOf b o op w).filter p
      = (if (enter b o (requiresCreated op) w).2 then opLocks b o op w.ctx else []).filter p := by
  have hg := enter_ok_clear b o (requiresCreated op) w
  have hx : ∀ (h : XErrorHandler), p (Event.XSetErrorHandler h) = false :=
    fun h => locksOnly_false p hp _ rfl rfl
  cases op <;> simp [lockOp] at hop
  · -- createGLContext
    cases b
    · rw [eventsOf_createGLContext_unix]
      simp only [requiresCreated, opLocks]
      split_ifs
      · exact Nix.filter_createEvents p hp o _ _
      · rfl
    · rw [eventsOf_createGLContext_win32]
      simp only [requiresCreated, opLocks]
      split_ifs
      · exact Win.wgl_filter_createEvents p hp o _
      · rfl
  · -- setSwapInterval
    rename_i i
    cases b
    · simp only [requiresCreated] at hg
      simp only [eventsOf, run, Nix.setSwapInterval, requiresCreated, opLocks, hg]
      by_cases hgd : (enter .unix o true w).2 = true
      · have h1 : ∀ d r v, p (Event.glXSwapIntervalEXT d r v) = false :=
          fun d r v => locksOnly_false p hp _ rfl rfl
        have h2 : ∀ v, p (Event.glXSwapIntervalSGI v) = false :=
          fun v => locksOnly_false p hp _ rfl rfl
        simp only [hgd, not_true_eq_false, if_false, if_true]
        split_ifs <;> simp [List.filter_cons, h1, h2]
      · simp [hgd]
    · simp only [requiresCreated] at hg
      simp only [eventsOf, run, Win.setSwapInterval, requiresCreated, opLocks, hg]
      by_cases hgd : (enter .win32 o true w).2 = true
      · have h1 : ∀ v, p (Event.wglSwapIntervalEXT v) = false :=
          fun v => locksOnly_false p hp _ rfl rfl
        simp only [hgd, not_true_eq_false, if_false, if_true]
        split_ifs <;> simp [List.filter_cons, h1]
      · simp [hgd]
  · -- makeCurrent
    cases b
    · simp only [requiresCreated] at hg
      simp only [eventsOf, run, Nix.makeCurrentOp, requiresCreated, opLocks, hg]
      by_cases hgd : (enter .unix o true w).2 = true
      · have h1 : ∀ d r v, p (Event.glXMakeCurrent d r v) = false :=
          fun d r v => locksOnly_false p hp _ rfl rfl
        simp [hgd, List.filter_cons, h1]
      · simp [hgd]
    · simp only [requiresCreated] at hg
      simp only [eventsOf, run, Win.makeCurrentOp, requiresCreated, opLocks, hg]
      by_cases hgd : (enter .win32 o true w).2 = true
      · have h1 : ∀ d v, p (Event.wglMakeCurrent d v) = false :=
          fun d v => locksOnly_false p hp _ rfl rfl
        simp [hgd, List.filter_cons, h1]
      · simp [hgd]
  · -- detachCurrent
    cases b
    · simp only [requiresCreated] at hg
      simp only [eventsOf, run, Nix.detachCurrent, requiresCreated, opLocks, hg]
      by_cases hgd : (enter .unix o true w).2 = true
      · have h1 : ∀ d r v, p (Event.glXMakeCurrent d r v) = false :=
          fun d r v => locksOnly_false p hp _ rfl rfl
        simp [hgd, List.filter_cons, h1]
      · simp [hgd]
    · simp only [requiresCreated] at hg
      simp only [eventsOf, run, Win.detachCurrent, requiresCreated, opLocks, hg]
      by_cases hgd : (enter .win32 o true w).2 = true
      · have h1 : ∀ d v, p (Event.wglMakeCurrent d v) = false :=
          fun d v => locksOnly_false p hp _ rfl rfl
        simp [hgd, List.filter_cons, h1]
      · simp [hgd]
  · -- swapBuffers
    cases b
    · simp only [requiresCreated] at hg
      simp only [eventsOf, run, Nix.swapBuffers, requiresCreated, opLocks, hg]
      by_cases hgd : (enter .unix o true w).2 = true
      · have h1 : ∀ d r, p (Event.glXSwapBuffers d r) = false :=
          fun d r => locksOnly_false p hp _ rfl rfl
        have h2 : p Event.glFinish = false := locksOnly_false p hp _ rfl rfl
        simp only [hgd, not_true_eq_false, if_false, if_true]
        split_ifs <;> simp [List.filter_cons, h1, h2, hx]
      · simp [hgd]
    · simp only [requiresCreated] at hg
      simp only [eventsOf, run, Win.swapBuffers, requiresCreated, opLocks, hg]
      by_cases hgd : (enter .win32 o true w).2 = true
      · have h1 : ∀ d, p (Event.SwapBuffers d) = false :=
          fun d => locksOnly_false p hp _ rfl rfl
        simp only [hgd, not_true_eq_false, if_false, if_true]
        split_ifs <;> simp [List.filter_cons, h1]
      · simp [hgd]

theorem countP_filter_of_imp (p q : Event → Bool) (h : ∀ e, p e = true → q e = true)
    (l : List Event) : (l.filter q).countP p = l.countP p := by
  induction l with
  | nil => rfl
  | cons a t ih =>
    by_cases hq : q a = true
    · simp [List.filter_cons, hq, List.countP_cons, ih]
    · have hp : p a = false := by
        cases hpa : p a with
        | false => rfl
        | true => exact absurd (h a hpa) hq
      simp [List.filter_cons, hq, List.countP_cons, ih, hp]

theorem isDsLock_surface (e : Event) (h : isDsLock e = true) : isSurfaceCall e = true := by
  cases e <;> first | rfl | cases h

theorem isDsUnlock_surface (e : Event) (h : isDsUnlock e = true) : isSurfaceCall e = true := by
  cases e <;> first | rfl | cases h

theorem disciplined_nil (b : Backend) (o : Native) : disciplined b o [] := by
  unfold disciplined
  refine ⟨rfl, Or.inl rfl, by simp, by simp, ?_⟩
  intro _ ds h
  simp at h

theorem disciplined_pair (b : Backend) (o : Native) :
    disciplined b o [Event.awtLock, Event.awtUnlock] := by
  unfold disciplined
  refine ⟨by decide, Or.inr (by decide), by decide, ?_, ?_⟩
  · split_ifs <;> decide
  · intro _ ds h
    simp at h

theorem disciplined_opLocks (b : Backend) (o : Native) (op : Op) (c : AWTContext)
    (hop : lockOp op = true) : disciplined b o (opLocks b o op c) := by
  cases op <;> simp [lockOp] at hop
  · cases b
    · simp only [opLocks, Nix.createLocks, Nix.unwindLocks]
      unfold disciplined
      by_cases hl : o.dsLock &&& JAWT_LOCK_ERROR ≠ 0
      · simp only [if_pos hl]
        refine ⟨by simp [List.countP_cons], Or.inr (by simp [List.filter_cons, isToolkitLock]),
          by simp [List.countP_cons, isDsLock],
          by simp [List.countP_cons, isDsUnlock], ?_⟩
        intro _ ds h
        simp at h
      · simp only [if_neg hl]
        by_cases hd : o.dsi = 0
        · simp only [if_pos hd]
          refine ⟨by simp [List.countP_cons], Or.inr (by simp [List.filter_cons, isToolkitLock]),
            by simp [List.countP_cons, isDsLock],
            by simp [List.countP_cons, isDsUnlock, isDsLock], ?_⟩
          intro _ ds _ h
          exact absurd hd h
        · simp only [if_neg hd]
          refine ⟨by simp [List.countP_cons], Or.inr (by simp [List.filter_cons, isToolkitLock]),
            by simp [List.countP_cons, isDsLock],
            by simp [List.countP_cons, isDsUnlock, isDsLock], ?_⟩
          intro _ ds h _
          simp at h
          subst h
          simp [List.filter_cons, isSurfaceCall]
    · simp only [opLocks, Win.createLocks]
      unfold disciplined
      by_cases hl : o.dsLock &&& JAWT_LOCK_ERROR ≠ 0
      · simp only [if_pos hl]
        refine ⟨by simp [List.countP_cons], Or.inl (by simp [List.filter_cons, isToolkitLock]),
          by simp [List.countP_cons, isDsLock],
          by simp [List.countP_cons, isDsUnlock], ?_⟩
        intro h
        exact absurd h (by decide)
      · simp only [if_neg hl]
        refine ⟨?_, ?_, ?_, ?_, ?_⟩
        · split_ifs <;> simp [List.countP_cons]
        · left
          split_ifs <;> simp [List.filter_cons, isToolkitLock]
        · split_ifs <;> simp [List.countP_cons, isDsLock]
        · split_ifs <;> simp [List.countP_cons, isDsUnlock, isDsLock]
        · intro h
          exact absurd h (by decide)
  · cases b <;> exact disciplined_pair _ o
  · cases b
    · exact disciplined_pair _ o
    · exact disciplined_nil _ o
  · cases b
    · exact disciplined_pair _ o
    · exact disciplined_nil _ o
  · cases b
    · exact disciplined_pair _ o
    · exact disciplined_nil _ o

/-- C10. Lock discipline of createGLContext, setSwapInterval, makeCurrent,
    detachCurrent and swapBuffers on both backends, for every state at entry
    and every result of the native calls. Among the calls of the operation:
    the toolkit-wide AWT lock is released as many times as it is acquired
    (the lock calls are none, or one Lock followed by one Unlock); the drawing
    surface is locked at most once, and unlocked exactly as often as it was
    locked when `Lock` succeeded and not at all when `Lock` reported
    `JAWT_LOCK_ERROR`; and on the GLX backend, whenever a surface info is
    obtained (the query is made and returns non-NULL) the surface calls are
    exactly Lock, GetDrawingSurfaceInfo, FreeDrawingSurfaceInfo of that info,
    Unlock, in this order: the info is freed before the surface is unlocked. -/
theorem lock_discipline (b : Backend) (o : Native) (op : Op) (w : World)
    (hop : lockOp op = true) :
    (eventsOf b o op w).count Event.awtLock = (eventsOf b o op w).count Event.awtUnlock ∧
    (toolkitCalls (eventsOf b o op w) = [] ∨
      toolkitCalls (eventsOf b o op w) = [Event.awtLock, Event.awtUnlock]) ∧
    (eventsOf b o op w).countP isDsLock ≤ 1 ∧
    (eventsOf b o op w).countP isDsUnlock
      = (if o.dsLock &&& JAWT_LOCK_ERROR ≠ 0 then 0 else (eventsOf b o op w).countP isDsLock) ∧
    (b = .unix → ∀ ds, Event.GetDrawingSurfaceInfo ds ∈ eventsOf b o op w → o.dsi ≠ 0 →
      surfaceCalls (eventsOf b o op w)
        = [Event.dsLock ds, Event.GetDrawingSurfaceInfo ds,
            Event.FreeDrawingSurfaceInfo o.dsi, Event.dsUnlock ds]) := by
  have ht := filter_eventsOf isToolkitLock locksOnly_toolkit b o op w hop
  have hs := filter_eventsOf isSurfaceCall locksOnly_surface b o op w hop
  have hL : disciplined b o
      (if (enter b o (requiresCreated op) w).2 then opLocks b o op w.ctx else []) := by
    split_ifs
    · exact disciplined_opLocks b o op w.ctx hop
    · exact disciplined_nil b o
  generalize (if (enter b o (requiresCreated op) w).2 then opLocks b o op w.ctx else []) = L
    at ht hs hL
  obtain ⟨d1, d2, d3, d4, d5⟩ := hL
  have hA : ∀ e, (e == Event.awtLock) = true → isToolkitLock e = true := by
    intro e h
    rw [eq_of_beq h]
    rfl
  have hB : ∀ e, (e == Event.awtUnlock) = true → isToolkitLock e = true := by
    intro e h
    rw [eq_of_beq h]
    rfl
  have hC : ∀ e, isDsLock e = true → isSurfaceCall e = true := isDsLock_surface
  have hD : ∀ e, isDsUnlock e = true → isSurfaceCall e = true := isDsUnlock_surface
  have c1 : (eventsOf b o op w).countP (fun e => e == Event.awtLock)
      = L.countP (fun e => e == Event.awtLock) := by
    rw [← countP_filter_of_imp _ isToolkitLock hA, ht, countP_filter_of_imp _ isToolkitLock hA]
  have c2 : (eventsOf b o op w).countP (fun e => e == Event.awtUnlock)
      = L.countP (fun e => e == Event.awtUnlock) := by
    rw [← countP_filter_of_imp _ isToolkitLock hB, ht, countP_filter_of_imp _ isToolkitLock hB]
  have c3 : (eventsOf b o op w).countP isDsLock = L.countP isDsLock := by
    rw [← countP_filter_of_imp _ isSurfaceCall hC, hs, countP_filter_of_imp _ isSurfaceCall hC]
  have c4 : (eventsOf b o op w).countP isDsUnlock = L.countP isDsUnlock := by
    rw [← countP_filter_of_imp _ isSurfaceCall hD, hs, countP_filter_of_imp _ isSurfaceCall hD]
  refine ⟨?_, ?_, ?_, ?_, ?_⟩
  · show (eventsOf b o op w).countP (fun e => e == Event.awtLock)
      = (eventsOf b o op w).countP (fun e => e == Event.awtUnlock)
    rw [c1, c2]
    exact d1
  · unfold toolkitCalls
    rw [ht]
    exact d2
  · rw [c3]
    exact d3
  · rw [c4, c3]
    exact d4
  · intro hb ds hmem hdsi
    unfold surfaceCalls
    rw [hs]
    have hm : Event.GetDrawingSurfaceInfo ds ∈ L.filter isSurfaceCall := by
      rw [← hs]
      exact List.mem_filter.mpr ⟨hmem, rfl⟩
    exact d5 hb ds (List.mem_filter.mp hm).1 hdsi

/-- Witness for C10: the GLX `createGLContext` that obtains the surface info
    and then cannot open the display copy frees the info, unlocks the surface
    and releases the toolkit lock. -/
theorem lock_discipline_witness :
    surfaceCalls (eventsOf .unix noDisplayNative .createGLContext sampleWorld)
      = [Event.dsLock 7, Event.GetDrawingSurfaceInfo 7, Event.FreeDrawingSurfaceInfo 9,
          Event.dsUnlock 7] ∧
    (eventsOf .unix noDisplayNative .createGLContext sampleWorld).count Event.awtLock = 1 ∧
    (eventsOf .unix noDisplayNative .createGLContext sampleWorld).count Event.awtLock
      = (eventsOf .unix noDisplayNative .createGLContext sampleWorld).count Event.awtUnlock := by
  have h := lock_discipline .unix noDisplayNative .createGLContext sampleWorld (by decide)
  exact ⟨h.2.2.2.2 rfl 7 (by decide) (by decide), by decide, h.1⟩
/-! ## C12: the recorded buffering flag -/

/-- C12, evaluation at the failing input. Format (8, 24, 8), no multisampling;
    the double-buffered search returns config 1 (visual id 10, not the
    drawable's 33) and the single-buffered search returns NULL.
    `createGLContext` succeeds and creates the context from config 1, a
    result of the double-buffered search, yet records `doubleBuffered = false`;
    the following `swapBuffers` calls `glFinish` and not `glXSwapBuffers`. -/
theorem double_buffered_flag_lost :
    doubleOnlyNative.glXChooseFBConfig (requestFor sampleConfigured.ctx true) = some [1] ∧
    doubleOnlyNative.glXChooseFBConfig (requestFor sampleConfigured.ctx false) = none ∧
    doubleOnlyNative.x11Info = some ⟨11, 12, 33⟩ ∧
    createdWith (eventsOf .unix doubleOnlyNative .createGLContext sampleConfigured) = [1] ∧
    (run .unix doubleOnlyNative .createGLContext sampleConfigured).1.ctx.contextCreated = true ∧
    (run .unix doubleOnlyNative .createGLContext sampleConfigured).1.exception = none ∧
    (run .unix doubleOnlyNative .createGLContext sampleConfigured).1.ctx.doubleBuffered = false ∧
    eventsOf .unix sampleNative .swapBuffers
        (hostReturn (run .unix doubleOnlyNative .createGLContext sampleConfigured).1)
      = [Event.awtLock, Event.XSetErrorHandler .rlawtXErrorHandler, Event.glFinish,
          Event.awtUnlock] := by
  refine ⟨?_, ?_, ?_, ?_, ?_, ?_, ?_, ?_⟩ <;> decide

/-! ## C13: scope of the X error interceptor -/

@[simp] theorem rethrow_xErrorHandler (ex : Option JThrowable) (w : World) :
    (rethrow ex w).xErrorHandler = w.xErrorHandler := by
  unfold rethrow
  split_ifs <;> rfl

@[simp] theorem deliver_xErrorHandler (errs : List XErrorEvent) (w : World) :
    (deliver errs w).xErrorHandler = w.xErrorHandler := by
  obtain ⟨le, h⟩ := deliver_frame errs w
  rw [h]

@[simp] theorem rlawtUnlockAWT_xErrorHandler (w : World) :
    (rlawtUnlockAWT w).xErrorHandler = w.xErrorHandler := by
  simp [rlawtUnlockAWT]

namespace Nix

@[simp] theorem unlock_xErrorHandler (old : XErrorHandler) (w : World) :
    (unlock old w).xErrorHandler = old := by
  simp [unlock]

@[simp] theorem unlockDS_xErrorHandler (old : XErrorHandler) (w : World) :
    (unlockDS old w).xErrorHandler = old := by
  simp [unlockDS]

@[simp] theorem freeDSI_xErrorHandler (old : XErrorHandler) (dsi : Nat) (w : World) :
    (freeDSI old dsi w).xErrorHandler = old := by
  simp [freeDSI]

@[simp] theorem freeDisplay_xErrorHandler (o : Native) (old : XErrorHandler) (dsi : Nat)
    (w : World) : (freeDisplay o old dsi w).xErrorHandler = old := by
  simp [freeDisplay]

@[simp] theorem freeContext_xErrorHandler (o : Native) (old : XErrorHandler) (dsi : Nat)
    (w : World) : (freeContext o old dsi w).xErrorHandler = old := by
  simp [freeContext]

@[simp] theorem finishCreate_xErrorHandler (o : Native) (old : XErrorHandler) (dsi : Nat)
    (w : World) : (finishCreate o old dsi w).xErrorHandler = old := by
  simp [finishCreate, xSync]

theorem createWithConfig_xErrorHandler (o : Native) (old : XErrorHandler) (dsi : Nat)
    (fb : GLXFBConfig) (w : World) :
    (createWithConfig o old dsi fb w).xErrorHandler = old := by
  unfold createWithConfig
  simp only
  split_ifs <;> simp

theorem searchAndCreate_xErrorHandler (o : Native) (old : XErrorHandler) (dsi : Nat) (v : Int)
    (w : World) : (searchAndCreate o old dsi v w).xErrorHandler = old := by
  unfold searchAndCreate
  simp only
  split <;> simp [createWithConfig_xErrorHandler]

theorem createWithSurface_xErrorHandler (o : Native) (old : XErrorHandler) (dsi : Nat)
    (dspi : JAWT_X11DrawingSurfaceInfo) (w : World) :
    (createWithSurface o old dsi dspi w).xErrorHandler = old := by
  unfold createWithSurface
  simp only
  split_ifs <;> simp [searchAndCreate_xErrorHandler]

/-- The GLX `createGLContext` is scoped: on every path the X error handler at
    exit is the handler at entry. -/
theorem createGLContext_xErrorHandler (o : Native) (w : World) :
    (createGLContext o w).1.xErrorHandler = w.xErrorHandler := by
  unfold createGLContext
  simp only
  by_cases hg : (enter .unix o false w).2 = true
  · simp only [hg, not_true_eq_false, if_false]
    by_cases hl : o.dsLock &&& JAWT_LOCK_ERROR ≠ 0
    · simp [hl, enter_xErrorHandler]
    · by_cases hd : o.dsi = 0
      · simp [hl, hd, enter_xErrorHandler]
      · cases hx : o.x11Info with
        | none => simp [hl, hd, enter_xErrorHandler]
        | some dspi =>
          simp only [hl, hd, if_false]
          split_ifs <;> simp [createWithSurface_xErrorHandler, enter_xErrorHandler]
  · simp [hg, enter_xErrorHandler]

end Nix

/-- C13, evaluation at the failing input. The GLX `createGLContext` is
    scoped: for all native results and every state, on every exit path the
    process-wide X error handler at exit is the handler at entry. The GLX
    `swapBuffers` is not: entered on the sample created context with the
    toolkit's handler installed, it returns without failure and leaves
    `rlawtXErrorHandler` installed; its calls hold one `XSetErrorHandler`,
    the installation. -/
theorem swapBuffers_leaves_interceptor_installed :
    (∀ (o : Native) (w : World),
      (run .unix o .createGLContext w).1.xErrorHandler = w.xErrorHandler) ∧
    sampleCreatedNix.ctx.contextCreated = true ∧
    sampleCreatedNix.xErrorHandler = XErrorHandler.other 0 ∧
    (run .unix sampleNative .swapBuffers sampleCreatedNix).1.xErrorHandler
      = XErrorHandler.rlawtXErrorHandler ∧
    (run .unix sampleNative .swapBuffers sampleCreatedNix).1.exception = none ∧
    eventsOf .unix sampleNative .swapBuffers sampleCreatedNix
      = [Event.awtLock, Event.XSetErrorHandler .rlawtXErrorHandler,
          Event.glXSwapBuffers 14 11, Event.awtUnlock] := by
  refine ⟨fun o w => Nix.createGLContext_xErrorHandler o w, ?_, ?_, ?_, ?_, ?_⟩ <;> decide

/-! ## Lemmas on the error reporter -/

theorem carriesXError_cause (cl c : String) (h : c ∈ glxCauses) :
    carriesXError (some ⟨cl, c⟩) = false := by
  simp only [glxCauses, List.mem_cons, List.mem_singleton, List.not_mem_nil, or_false] at h
  rcases h with h | h | h | h | h | h | h | h | h | h | h | h | h <;> subst h <;> rfl

theorem carriesXError_suffix (cl c : String) (e : XErrorEvent) :
    carriesXError (some ⟨cl, c ++ glxSuffix e⟩) = true := by
  have h : (c ++ glxSuffix e).data
      = (c ++ (" (glx: " ++ toString e.minor_code ++ "." ++ toString e.request_code ++ ": "
          ++ toString e.error_code)).data ++ [')'] := by
    unfold glxSuffix
    rw [← String.append_assoc, String.data_append]
  simp only [carriesXError, h, List.getLast?_concat]
  rfl

/-! ### Runs of reporter steps -/

theorem reporterSteps_mono {w w1 : World} {n m : Nat} (h : ReporterSteps w n w1) (hnm : n ≤ m) :
    ReporterSteps w m w1 := by
  induction h generalizing m with
  | refl n => exact ReporterSteps.refl m
  | other w2 _ he hl ih => exact ReporterSteps.other w2 (ih hnm) he hl
  | deliver errs h hle _ => exact ReporterSteps.deliver errs h (le_trans hle hnm)
  | throw o msg hm _ ih => exact ReporterSteps.throw o msg hm (ih hnm)
  | npe w2 _ hn he hl ih => exact ReporterSteps.npe w2 (ih hnm) hn he hl

theorem reporterSteps_chain {a b c : World} {n m k : Nat} (h1 : ReporterSteps a n b)
    (h2 : ReporterSteps b m c) (hk : n + m ≤ k) : ReporterSteps a k c := by
  induction h2 generalizing k with
  | refl m => exact reporterSteps_mono h1 (by omega)
  | other w2 _ he hl ih => exact ReporterSteps.other w2 (ih hk) he hl
  | deliver errs _ hle ih => exact ReporterSteps.deliver errs (ih (le_refl _)) (by omega)
  | throw o msg hm _ ih => exact ReporterSteps.throw o msg hm (ih hk)
  | npe w2 _ hn he hl ih => exact ReporterSteps.npe w2 (ih hk) hn he hl

theorem reporterSteps_frame (w w1 : World) (he : w1.exception = w.exception)
    (hl : w1.lastError = w.lastError) : ReporterSteps w 0 w1 :=
  ReporterSteps.other w1 (ReporterSteps.refl 0) he hl

theorem reporterSteps_delivered (errs : List XErrorEvent) (w : World) :
    ReporterSteps w errs.length (deliver errs w) :=
  ReporterSteps.deliver errs (ReporterSteps.refl 0) (by omega)

theorem reporterSteps_thrown (o : Native) (msg : String) (hm : msg ∈ glxCauses) (w : World) :
    ReporterSteps w 0 (rlawtThrow .unix o msg w) :=
  ReporterSteps.throw o msg hm (ReporterSteps.refl 0)

/-! ### The stages of the GLX backend as runs of reporter steps -/

@[simp] theorem rethrow_lastError (ex : Option JThrowable) (w : World) :
    (rethrow ex w).lastError = w.lastError := by
  unfold rethrow
  split_ifs <;> rfl

@[simp] theorem rlawtUnlockAWT_lastError (w : World) :
    (rlawtUnlockAWT w).lastError = w.lastError := by
  simp [rlawtUnlockAWT]

namespace Nix

@[simp] theorem unlock_lastError (old : XErrorHandler) (w : World) :
    (unlock old w).lastError = w.lastError := by
  simp [unlock]

@[simp] theorem unlockDS_lastError (old : XErrorHandler) (w : World) :
    (unlockDS old w).lastError = w.lastError := by
  simp [unlockDS]

@[simp] theorem freeDSI_lastError (old : XErrorHandler) (dsi : Nat) (w : World) :
    (freeDSI old dsi w).lastError = w.lastError := by
  simp [freeDSI]

@[simp] theorem probeSwapControl_lastError (o : Native) (w : World) :
    (probeSwapControl o w).lastError = w.lastError := by
  unfold probeSwapControl
  split_ifs <;> simp

theorem makeCurrent_steps (o : Native) (dpy drawable context : Nat) (w : World) :
    ReporterSteps w o.xerrMakeCurrent.length (makeCurrent o dpy drawable context w).1 := by
  have h1 : ReporterSteps w o.xerrMakeCurrent.length
      (deliver o.xerrMakeCurrent (emit (.glXMakeCurrent dpy drawable context) w)) :=
    reporterSteps_chain (reporterSteps_frame w (emit (.glXMakeCurrent dpy drawable context) w)
      rfl rfl) (reporterSteps_delivered _ _) (by omega)
  unfold makeCurrent
  simp only
  by_cases hm : o.glXMakeCurrent drawable context = true
  · simp only [hm, not_true_eq_false, if_false]
    exact h1
  · simp only [hm, not_false_eq_true, if_true]
    exact ReporterSteps.throw o _ (by simp [glxCauses]) h1

theorem xSync_steps (o : Native) (w : World) :
    ReporterSteps w o.xerrSync.length (xSync o w) :=
  reporterSteps_chain (reporterSteps_frame w (emit (.XSync w.ctx.dpy) w) rfl rfl)
    (reporterSteps_delivered _ _) (by omega)

theorem freeDisplay_steps (o : Native) (old : XErrorHandler) (dsi : Nat) (w : World) :
    ReporterSteps w o.xerrSync.length (freeDisplay o old dsi w) :=
  ReporterSteps.other _ (xSync_steps o w) (by simp [freeDisplay]) (by simp [freeDisplay])

theorem freeContext_steps (o : Native) (old : XErrorHandler) (dsi : Nat) (w : World) :
    ReporterSteps w o.xerrSync.length (freeContext o old dsi w) :=
  reporterSteps_chain
    (reporterSteps_frame w (emit (.glXDestroyContext w.ctx.dpy w.ctx.context) w) rfl rfl)
    (freeDisplay_steps o old dsi _) (by omega)

theorem createNative_lastError (o : Native) (fb : GLXFBConfig) (w : World) :
    ∃ w3 : World, w3.exception = w.exception ∧ w3.lastError = w.lastError ∧
      createNative o fb w = deliver o.xerrCreate w3 := by
  unfold createNative
  simp only
  split_ifs <;> exact ⟨_, by simp, by simp, rfl⟩

theorem createNative_steps (o : Native) (fb : GLXFBConfig) (w : World) :
    ReporterSteps w o.xerrCreate.length (createNative o fb w) := by
  obtain ⟨w3, he, hl, h⟩ := createNative_lastError o fb w
  rw [h]
  exact reporterSteps_chain (reporterSteps_frame w w3 he hl) (reporterSteps_delivered _ _)
    (by omega)

theorem finishCreate_steps (o : Native) (old : XErrorHandler) (dsi : Nat) (w : World) :
    ReporterSteps w o.xerrSync.length (finishCreate o old dsi w) := by
  have h1 : ReporterSteps w o.xerrSync.length (xSync o (emit (.FreeDrawingSurfaceInfo dsi) w)) :=
    reporterSteps_chain (reporterSteps_frame w (emit (.FreeDrawingSurfaceInfo dsi) w) rfl rfl)
      (xSync_steps o _) (by omega)
  exact ReporterSteps.other _ h1 (by simp [finishCreate]) (by simp [finishCreate])

theorem createWithConfig_steps (o : Native) (old : XErrorHandler) (dsi : Nat)
    (fb : GLXFBConfig) (w : World) :
    ReporterSteps w (o.xerrCreate.length + o.xerrMakeCurrent.length + o.xerrSync.length)
      (createWithConfig o old dsi fb w) := by
  have h1 := createNative_steps o fb w
  unfold createWithConfig
  simp only
  by_cases hc : (createNative o fb w).ctx.context = 0
  · simp only [hc, if_true]
    exact reporterSteps_chain (ReporterSteps.throw o _ (by simp [glxCauses]) h1)
      (freeDisplay_steps o old dsi _) (by omega)
  · simp only [hc, if_false]
    have h2 := reporterSteps_chain h1
      (makeCurrent_steps o (createNative o fb w).ctx.dpy (createNative o fb w).ctx.drawable
        (createNative o fb w).ctx.context (createNative o fb w)) (le_refl _)
    split_ifs
    · exact reporterSteps_chain h2
        (reporterSteps_chain (reporterSteps_frame _ (probeSwapControl o _) (by simp) (by simp))
          (finishCreate_steps o old dsi _) (le_refl _)) (by omega)
    · exact reporterSteps_chain h2 (freeContext_steps o old dsi _) (by omega)

theorem searchAndCreate_steps (o : Native) (old : XErrorHandler) (dsi : Nat) (v : Int)
    (w : World) :
    ReporterSteps w (o.xerrCreate.length + o.xerrMakeCurrent.length + o.xerrSync.length)
      (searchAndCreate o old dsi v w) := by
  have h1 : ReporterSteps w 0 (fbConfigLoop o v [0, 1] w none).1 :=
    reporterSteps_frame _ _ (fbConfigLoop_exception _ _ _ _ _) (fbConfigLoop_lastError _ _ _ _ _)
  unfold searchAndCreate
  simp only
  split
  · exact reporterSteps_chain (ReporterSteps.throw o _ (by simp [glxCauses]) h1)
      (freeDisplay_steps o old dsi _) (by omega)
  · exact reporterSteps_chain h1 (createWithConfig_steps o old dsi _ _) (by omega)

theorem createWithSurface_steps (o : Native) (old : XErrorHandler) (dsi : Nat)
    (dspi : JAWT_X11DrawingSurfaceInfo) (w : World) :
    ReporterSteps w (o.xerrCreate.length + o.xerrMakeCurrent.length + o.xerrSync.length)
      (createWithSurface o old dsi dspi w) := by
  unfold createWithSurface
  simp only
  by_cases hd : o.XOpenDisplay = 0
  · simp only [setCtx_ctx, hd, if_true]
    refine ReporterSteps.other _ ?_ (freeDSI_exception _ _ _) (freeDSI_lastError _ _ _)
    refine ReporterSteps.throw o _ (by simp [glxCauses]) ?_
    exact reporterSteps_mono (reporterSteps_frame _ _ rfl rfl) (Nat.zero_le _)
  · simp only [setCtx_ctx, hd, if_false]
    by_cases hq : o.glXQueryExtension = true
    · simp only [hq, not_true_eq_false, if_false]
      refine reporterSteps_chain ?_ (searchAndCreate_steps o old dsi _ _) (Nat.zero_add _).le
      exact reporterSteps_frame _ _ rfl rfl
    · simp only [hq, not_false_eq_true, if_true]
      refine reporterSteps_chain ?_ (freeDisplay_steps o old dsi _)
        (show 0 + o.xerrSync.length ≤ _ by omega)
      refine ReporterSteps.throw o _ (by simp [glxCauses]) ?_
      exact reporterSteps_frame _ _ rfl rfl

end Nix

/-! ### Every GLX operation is a run of reporter steps -/

theorem enter_steps (o : Native) (created : Bool) (w : World) (h : w.exception = none) :
    ReporterSteps w 0 (enter .unix o created w).1 := by
  unfold enter rlawtGetContext rlawtContextState
  simp only
  split_ifs
  all_goals first
    | exact reporterSteps_frame _ _ rfl rfl
    | exact ReporterSteps.npe _ (reporterSteps_frame _ _ rfl rfl) h rfl rfl
    | exact ReporterSteps.throw o _ (by cases created <;> simp [glxCauses])
        (reporterSteps_frame _ _ rfl rfl)

/-- A state that differs from the state after the guard in neither the
    pending exception nor the slot is reached by reporter steps. -/
theorem steps_after_enter (o : Native) (created : Bool) (w : World) (h : w.exception = none)
    (n : Nat) (w2 : World) (he : w2.exception = (enter .unix o created w).1.exception)
    (hl : w2.lastError = (enter .unix o created w).1.lastError) : ReporterSteps w n w2 :=
  reporterSteps_chain (enter_steps o created w h) (reporterSteps_frame _ _ he hl) (Nat.zero_le _)

namespace Nix

theorem createGLContext_steps (o : Native) (w : World) (h : w.exception = none) :
    ReporterSteps w (reported o) (createGLContext o w).1 := by
  unfold createGLContext
  simp only
  by_cases hg : (enter .unix o false w).2 = true
  · simp only [hg, not_true_eq_false, if_false]
    by_cases hl : o.dsLock &&& JAWT_LOCK_ERROR ≠ 0
    · rw [if_pos hl]
      refine ReporterSteps.other _ ?_ (unlock_exception _ _) (unlock_lastError _ _)
      refine ReporterSteps.throw o _ (by simp [glxCauses]) ?_
      exact steps_after_enter o false w h _ _ (by simp) (by simp)
    · rw [if_neg hl]
      by_cases hd : o.dsi = 0
      · rw [if_pos hd]
        refine ReporterSteps.other _ ?_ (unlockDS_exception _ _) (unlockDS_lastError _ _)
        refine ReporterSteps.throw o _ (by simp [glxCauses]) ?_
        exact steps_after_enter o false w h _ _ (by simp) (by simp)
      · rw [if_neg hd]
        cases hx : o.x11Info with
        | none =>
          refine ReporterSteps.other _ ?_ (freeDSI_exception _ _ _) (freeDSI_lastError _ _ _)
          refine ReporterSteps.throw o _ (by simp [glxCauses]) ?_
          exact steps_after_enter o false w h _ _ (by simp) (by simp)
        | some dspi =>
          by_cases hp : dspi.display = 0 ∨ dspi.drawable = 0
          · simp only [hp, if_true]
            refine ReporterSteps.other _ ?_ (freeDSI_exception _ _ _) (freeDSI_lastError _ _ _)
            refine ReporterSteps.throw o _ (by simp [glxCauses]) ?_
            exact steps_after_enter o false w h _ _ (by simp) (by simp)
          · simp only [hp, if_false]
            refine reporterSteps_chain ?_ (createWithSurface_steps o _ o.dsi dspi _)
              (show 0 + (o.xerrCreate.length + o.xerrMakeCurrent.length + o.xerrSync.length)
                ≤ _ by unfold reported; omega)
            exact steps_after_enter o false w h _ _ (by simp) (by simp)
  · simp only [hg, Bool.false_eq_true, not_false_eq_true, if_true]
    exact steps_after_enter o false w h _ _ rfl rfl

theorem setSwapInterval_steps (o : Native) (i : Int) (w : World) (h : w.exception = none) :
    ReporterSteps w (reported o) (setSwapInterval o i w).1 := by
  unfold setSwapInterval
  simp only
  by_cases hg : (enter .unix o true w).2 = true
  · simp only [hg, not_true_eq_false, if_false]
    split_ifs
    all_goals
      refine ReporterSteps.other _ ?_ (rlawtUnlockAWT_exception _) (rlawtUnlockAWT_lastError _)
      exact steps_after_enter o true w h _ _ (by simp) (by simp)
  · simp only [hg, Bool.false_eq_true, not_false_eq_true, if_true]
    exact steps_after_enter o true w h _ _ rfl rfl

theorem makeCurrentOp_steps (o : Native) (w : World) (h : w.exception = none) :
    ReporterSteps w (reported o) (makeCurrentOp o w).1 := by
  unfold makeCurrentOp
  simp only
  by_cases hg : (enter .unix o true w).2 = true
  · simp only [hg, not_true_eq_false, if_false]
    refine ReporterSteps.other _ ?_ (rlawtUnlockAWT_exception _) (rlawtUnlockAWT_lastError _)
    refine reporterSteps_chain ?_ (makeCurrent_steps o _ _ _ _)
      (show 0 + o.xerrMakeCurrent.length ≤ _ by unfold reported; omega)
    exact steps_after_enter o true w h _ _ (by simp) (by simp)
  · simp only [hg, Bool.false_eq_true, not_false_eq_true, if_true]
    exact steps_after_enter o true w h _ _ rfl rfl

theorem detachCurrent_steps (o : Native) (w : World) (h : w.exception = none) :
    ReporterSteps w (reported o) (detachCurrent o w).1 := by
  unfold detachCurrent
  simp only
  by_cases hg : (enter .unix o true w).2 = true
  · simp only [hg, not_true_eq_false, if_false]
    refine ReporterSteps.other _ ?_ (rlawtUnlockAWT_exception _) (rlawtUnlockAWT_lastError _)
    refine reporterSteps_chain ?_ (makeCurrent_steps o _ _ _ _)
      (show 0 + o.xerrMakeCurrent.length ≤ _ by unfold reported; omega)
    exact steps_after_enter o true w h _ _ (by simp) (by simp)
  · simp only [hg, Bool.false_eq_true, not_false_eq_true, if_true]
    exact steps_after_enter o true w h _ _ rfl rfl

theorem swapBuffers_steps (o : Native) (w : World) (h : w.exception = none) :
    ReporterSteps w (reported o) (swapBuffers o w).1 := by
  unfold swapBuffers
  simp only
  by_cases hg : (enter .unix o true w).2 = true
  · simp only [hg, not_true_eq_false, if_false]
    refine ReporterSteps.other _ ?_ (rlawtUnlockAWT_exception _) (rlawtUnlockAWT_lastError _)
    split_ifs
    all_goals
      refine reporterSteps_chain ?_ (reporterSteps_delivered _ _)
        (show 0 + o.xerrSwap.length ≤ _ by unfold reported; omega)
      exact steps_after_enter o true w h _ _ (by simp) (by simp)
  · simp only [hg, Bool.false_eq_true, not_false_eq_true, if_true]
    exact steps_after_enter o true w h _ _ rfl rfl

theorem rlawtContextFreePlatform_frame (w : World) :
    (rlawtContextFreePlatform w).exception = w.exception ∧
    (rlawtContextFreePlatform w).lastError = w.lastError := by
  unfold rlawtContextFreePlatform
  split_ifs <;> exact ⟨rfl, rfl⟩

end Nix

theorem destroy_steps (o : Native) (w : World) (h : w.exception = none) :
    ReporterSteps w (reported o) (destroy .unix o w).1 := by
  have hg : ReporterSteps w 0 (rlawtGetContext o w).1 := by
    unfold rlawtGetContext
    simp only
    split_ifs
    all_goals first
      | exact reporterSteps_frame _ _ rfl rfl
      | exact ReporterSteps.npe _ (reporterSteps_frame _ _ rfl rfl) h rfl rfl
  unfold destroy
  simp only
  by_cases h0 : (rlawtGetContext o w).2 = 0
  · rw [if_pos h0]
    exact reporterSteps_mono hg (Nat.zero_le _)
  · rw [if_neg h0]
    refine reporterSteps_chain hg (reporterSteps_frame _ _ ?_ ?_) (Nat.zero_le _)
    · simp only [emit_exception]
      split_ifs <;>
        simp [rlawtContextFreePlatform, (Nix.rlawtContextFreePlatform_frame _).1]
    · simp only [emit_lastError]
      split_ifs <;>
        simp [rlawtContextFreePlatform, (Nix.rlawtContextFreePlatform_frame _).2]

/-- Every operation of the GLX backend, entered with no exception pending, is
    a run of reporter steps during which at most `reported o` X errors are
    delivered. -/
theorem run_steps (o : Native) (op : Op) (w : World) (h : w.exception = none) :
    ReporterSteps w (reported o) (run .unix o op w).1 := by
  cases op with
  | configureInsets x y =>
    simp only [run, configureInsets]
    split_ifs <;> exact steps_after_enter o false w h _ _ rfl rfl
  | configurePixelFormat a d s =>
    simp only [run, configurePixelFormat]
    split_ifs <;> exact steps_after_enter o false w h _ _ (by simp) (by simp)
  | configureMultisamples n =>
    simp only [run, configureMultisamples]
    split_ifs <;> exact steps_after_enter o false w h _ _ (by simp) (by simp)
  | createGLContext => exact Nix.createGLContext_steps o w h
  | getGLContext =>
    simp only [run, getGLContext]
    split_ifs <;> exact steps_after_enter o true w h _ _ rfl rfl
  | getCGLShareGroup =>
    simp only [run, getCGLShareGroup]
    split_ifs
    all_goals first
      | exact steps_after_enter o true w h _ _ rfl rfl
      | exact ReporterSteps.throw o _ (by simp [glxCauses])
          (steps_after_enter o true w h _ _ rfl rfl)
  | getGLXDisplay =>
    simp only [run, getGLXDisplay]
    split_ifs <;> exact steps_after_enter o true w h _ _ rfl rfl
  | getWGLHDC =>
    simp only [run, getWGLHDC]
    split_ifs
    all_goals first
      | exact steps_after_enter o true w h _ _ rfl rfl
      | exact ReporterSteps.throw o _ (by simp [glxCauses])
          (steps_after_enter o true w h _ _ rfl rfl)
  | getFramebuffer f =>
    simp only [run, getFramebuffer]
    split_ifs <;> exact steps_after_enter o true w h _ _ rfl rfl
  | setSwapInterval i => exact Nix.setSwapInterval_steps o i w h
  | makeCurrent => exact Nix.makeCurrentOp_steps o w h
  | detachCurrent => exact Nix.detachCurrent_steps o w h
  | swapBuffers => exact Nix.swapBuffers_steps o w h
  | destroy => exact destroy_steps o w h

/-! ### What runs of reporter steps keep -/

theorem slotHeld_le_one (w : World) : slotHeld w ≤ 1 := by
  unfold slotHeld
  split_ifs <;> omega

theorem deliver_nil (w : World) : deliver [] w = w := by
  unfold deliver
  split <;> rfl

theorem slotHeld_deliver (errs : List XErrorEvent) (w : World) :
    slotHeld (deliver errs w) ≤ slotHeld w + errs.length := by
  cases errs with
  | nil => rw [deliver_nil]; exact Nat.le_add_right _ _
  | cons e rest =>
    have h := slotHeld_le_one (deliver (e :: rest) w)
    simp only [List.length_cons]
    omega

theorem rlawtThrow_pending_id (b : Backend) (o : Native) (m : String) (w : World)
    (h : w.exception.isSome = true) : rlawtThrow b o m w = w := by
  unfold rlawtThrow
  simp [h]

theorem xErrorsInFlight_congr (w w2 : World) (he : w2.exception = w.exception)
    (hl : w2.lastError = w.lastError) : xErrorsInFlight w2 = xErrorsInFlight w := by
  unfold xErrorsInFlight slotHeld
  rw [he, hl]

theorem xErrorsInFlight_throw (o : Native) (msg : String) (hm : msg ∈ glxCauses) (w : World) :
    xErrorsInFlight (rlawtThrow .unix o msg w) ≤ xErrorsInFlight w := by
  by_cases hp : w.exception.isSome = true
  · rw [rlawtThrow_pending_id _ _ _ _ hp]
  · have hn : w.exception = none := by
      cases hx : w.exception with
      | none => rfl
      | some t => rw [hx] at hp; exact absurd rfl hp
    have hex := rlawtThrow_exception .unix o msg w hn
    by_cases hs : w.lastError.display ≠ 0
    · have hl : (rlawtThrow .unix o msg w).lastError.display = 0 := by
        unfold rlawtThrow
        simp [hn, hs]
      unfold xErrorsInFlight slotHeld
      rw [if_neg (not_not.mpr hl), if_pos hs]
      split_ifs <;> omega
    · have hl : (rlawtThrow .unix o msg w).lastError = w.lastError := by
        unfold rlawtThrow
        simp [hn, hs]
      have hc : carriesXError (rlawtThrow .unix o msg w).exception = false := by
        rw [hex]
        unfold nativeSuffix
        simp only [hs, if_false, String.append_empty]
        exact carriesXError_cause _ _ hm
      unfold xErrorsInFlight slotHeld
      rw [hc, hl]
      simp

/-- Along a run of reporter steps the X errors in flight grow at most by the
    number of X errors delivered. -/
theorem steps_inFlight {w w1 : World} {n : Nat} (h : ReporterSteps w n w1) :
    xErrorsInFlight w1 ≤ xErrorsInFlight w + n := by
  induction h with
  | refl n => exact Nat.le_add_right _ _
  | other w2 _ he hl ih => rw [xErrorsInFlight_congr _ _ he hl]; exact ih
  | @deliver n0 m0 w0 errs _ hle ih =>
    have h1 := slotHeld_deliver errs w0
    have h2 : xErrorsInFlight (deliver errs w0) ≤ xErrorsInFlight w0 + errs.length := by
      unfold xErrorsInFlight
      rw [deliver_exception]
      omega
    omega
  | throw o msg hm _ ih => exact le_trans (xErrorsInFlight_throw o msg hm _) ih
  | @npe n0 w0 w2 _ hn he hl ih =>
    have h2 : xErrorsInFlight w2 ≤ xErrorsInFlight w0 := by
      unfold xErrorsInFlight slotHeld
      rw [he, hl, hn]
      simp [carriesXError, noInstance]
    omega

theorem foldl_handler_occupied (errs : List XErrorEvent) (w : World)
    (h : w.lastError.display ≠ 0) :
    errs.foldl (fun acc e => rlawtXErrorHandler e acc) w = w := by
  induction errs with
  | nil => rfl
  | cons e rest ih =>
    simp only [List.foldl_cons]
    have h1 : rlawtXErrorHandler e w = w := by
      unfold rlawtXErrorHandler
      rw [if_neg h]
    rw [h1]
    exact ih

theorem deliver_occupied (errs : List XErrorEvent) (w : World) (h : w.lastError.display ≠ 0) :
    deliver errs w = w := by
  unfold deliver
  split
  · exact foldl_handler_occupied errs w h
  · rfl

/-- While the slot holds an error, a run of reporter steps either leaves it
    there and raises nothing through `rlawtThrow`, or raises a failure that
    carries it. -/
theorem steps_heldOrConsumed (e : XErrorEvent) (he : e.display ≠ 0) {w w1 : World} {n : Nat}
    (h : ReporterSteps w n w1) (h0 : heldOrConsumed e w) : heldOrConsumed e w1 := by
  induction h with
  | refl n => exact h0
  | other w2 _ hx hl ih =>
    unfold heldOrConsumed at ih ⊢
    rw [hx, hl]
    exact ih
  | @deliver n0 m0 w0 errs _ _ ih =>
    rcases ih with ⟨hl, hx⟩ | hc
    · rw [deliver_occupied errs w0 (by rw [hl]; exact he)]
      exact Or.inl ⟨hl, hx⟩
    · right
      simpa using hc
  | @throw n0 w0 o msg hm _ ih =>
    rcases ih with ⟨hl, hx | hx⟩ | ⟨c, hc, hx⟩
    · right
      refine ⟨msg, hm, ?_⟩
      rw [rlawtThrow_exception .unix o msg w0 hx]
      unfold nativeSuffix
      have hd : w0.lastError.display ≠ 0 := by rw [hl]; exact he
      rw [if_pos hd, hl]
    · rw [rlawtThrow_pending_id _ _ _ _ (by rw [hx]; rfl)]
      exact Or.inl ⟨hl, Or.inr hx⟩
    · rw [rlawtThrow_pending_id _ _ _ _ (by rw [hx]; rfl)]
      exact Or.inr ⟨c, hc, hx⟩
  | npe w2 _ hn hx hl ih =>
    rcases ih with ⟨hl0, _⟩ | ⟨c, _, hc⟩
    · exact Or.inl ⟨by rw [hl, hl0], Or.inr hx⟩
    · rw [hn] at hc
      exact absurd hc (by simp)

/-- Over a sequence of operations, the failure messages carrying X error text
    and the error left in the slot number at most the error in the slot at
    the start and the X errors reported on the way. -/
theorem raisedBy_count (ops : List (Op × Native)) (w : World) :
    (raisedBy .unix ops w).countP carriesXError + slotHeld (runSeq .unix ops w)
      ≤ slotHeld w + (ops.map (fun p => reported p.2)).sum := by
  induction ops generalizing w with
  | nil => simp [raisedBy, runSeq]
  | cons p rest ih =>
    obtain ⟨op, o⟩ := p
    have h1 := steps_inFlight (run_steps o op (hostReturn w) rfl)
    have h2 := ih (run .unix o op (hostReturn w)).1
    have h3 : xErrorsInFlight (hostReturn w) = slotHeld w := by
      simp [xErrorsInFlight, hostReturn, carriesXError, slotHeld]
    simp only [raisedBy, runSeq, List.map_cons, List.sum_cons, List.countP_cons]
    unfold xErrorsInFlight at h1 h3
    omega

/-! ## C11: the error reporter of the GLX backend -/

/-- C11, counterexample. On the sample created GLX context with an empty
    slot, a `swapBuffers` during which Xlib reports the X error (minor code
    5, request code 152, error code 8) does not fail and leaves the error in
    the slot; the following `createGLContext`, a later operation during which
    no X error is reported, raises the invalid-state failure with that stale
    error appended. -/
theorem stale_x_error_attaches_later :
    sampleCreatedNix.lastError.display = 0 ∧
    (run .unix swapErrorNative .swapBuffers sampleCreatedNix).1.exception = none ∧
    sampleAfterSwapError.lastError = ⟨14, 5, 152, 8⟩ ∧
    reported sampleNative = 0 ∧
    (run .unix sampleNative .createGLContext sampleAfterSwapError).1.exception
      = some ⟨RuntimeException, "context cannot be created (glx: 5.152: 8)"⟩ ∧
    raisedBy .unix [(.swapBuffers, swapErrorNative), (.createGLContext, sampleNative)]
        sampleCreatedNix
      = [none, some ⟨RuntimeException, "context cannot be created (glx: 5.152: 8)"⟩] := by
  refine ⟨?_, ?_, ?_, ?_, ?_, ?_⟩ <;> decide

/-- C11 (as amended). Error reporter on the GLX backend. (1) `rlawtThrow`,
    called with no exception pending, raises the cause followed by the X
    error held in the slot (nothing when the slot is empty) and leaves the
    slot empty. (2) A message made of a cause and the X error text is
    recognised as carrying X error text, a bare cause is not. (3) For every
    sequence of operations, the failure messages that carry X error text,
    plus the error still held at the end, number at most the error held at
    the start plus the X errors reported on the way: a captured X error is
    appended to at most one failure message. (4) The slot is not emptied when
    an operation returns: an operation entered with an error in the slot
    either leaves it there and raises nothing through `rlawtThrow`, or raises
    a failure carrying that error, whichever operation it is. (5) An
    operation entered with an empty slot during which no X error is reported
    leaves the slot empty and raises no message carrying X error text. -/
theorem captured_error_reported_once :
    (∀ (o : Native) (m : String) (w : World), w.exception = none →
      (rlawtThrow .unix o m w).exception
          = some ⟨RuntimeException, m ++ nativeSuffix .unix o w⟩ ∧
      (rlawtThrow .unix o m w).lastError.display = 0) ∧
    (∀ (c : String) (e : XErrorEvent), c ∈ glxCauses →
      carriesXError (some ⟨RuntimeException, c ++ glxSuffix e⟩) = true ∧
      carriesXError (some ⟨RuntimeException, c⟩) = false) ∧
    (∀ (ops : List (Op × Native)) (w : World),
      (raisedBy .unix ops w).countP carriesXError + slotHeld (runSeq .unix ops w)
        ≤ slotHeld w + (ops.map (fun p => reported p.2)).sum) ∧
    (∀ (op : Op) (o : Native) (w : World), w.exception = none → w.lastError.display ≠ 0 →
      heldOrConsumed w.lastError (run .unix o op w).1) ∧
    (∀ (op : Op) (o : Native) (w : World), w.exception = none → w.lastError.display = 0 →
      reported o = 0 →
      (run .unix o op w).1.lastError.display = 0 ∧
      carriesXError (run .unix o op w).1.exception = false) := by
  refine ⟨?_, ?_, raisedBy_count, ?_, ?_⟩
  · intro o m w hn
    refine ⟨rlawtThrow_exception .unix o m w hn, ?_⟩
    unfold rlawtThrow
    by_cases hs : w.lastError.display = 0
    · simp [hn, hs]
    · simp [hn, hs]
  · intro c e hc
    exact ⟨carriesXError_suffix _ c e, carriesXError_cause _ c hc⟩
  · intro op o w hn hs
    exact steps_heldOrConsumed w.lastError hs (run_steps o op w hn) (Or.inl ⟨rfl, Or.inl hn⟩)
  · intro op o w hn hs hr
    have h1 := steps_inFlight (run_steps o op w hn)
    have h0 : xErrorsInFlight w = 0 := by
      simp [xErrorsInFlight, slotHeld, hn, hs, carriesXError]
    rw [h0, hr] at h1
    unfold xErrorsInFlight slotHeld at h1
    constructor
    · by_contra hd
      rw [if_pos hd] at h1
      omega
    · cases hcx : carriesXError (run .unix o op w).1.exception with
      | false => rfl
      | true =>
        rw [hcx] at h1
        simp at h1

/-- C11, witness: the sample context after the swap that captured an X error
    meets the hypotheses of part (4), and the invalid-state failure of the
    following `createGLContext` carries that error. -/
theorem captured_error_reported_once_witness :
    sampleAfterSwapError.exception = none ∧
    sampleAfterSwapError.lastError.display ≠ 0 ∧
    heldOrConsumed sampleAfterSwapError.lastError
      (run .unix sampleNative .createGLContext sampleAfterSwapError).1 :=
  ⟨by decide, by decide,
    captured_error_reported_once.2.2.2.1 .createGLContext sampleNative sampleAfterSwapError
      (by decide) (by decide)⟩


end Rlawt
